import Mathlib

/-!
# NetGuard native packet engine: a shallow embedding of `netguard.c`

Source: `app/src/main/jni/netguard/netguard.c`.

Conventions of the embedding.

* Memory is a list of bytes (`List Nat`, every element meant to be below 256); a read
  past the end of the list yields 0.  The target is little-endian (Android ARM/x86), so
  a native 16-bit load at offset `o` is `b[o] + 256 * b[o+1]`.
* C integers are `Nat`/`Int` with the wrap of their width written out (`% 65536` for
  `uint16_t`, `% 4294967296` for `uint32_t`, `toInt32` for `int`).
* Values that the platform returns (system calls, JNI, the clock) are parameters,
  collected per function in an environment record with one field per call site.
* Calls with an outside effect are recorded, in program order, in a trace of `Event`s.
-/

namespace NetGuard

/-! ## Constants (`#define`s of the source and of the system headers it includes) -/

abbrev TIMEOUTPKT : Int := 30
abbrev TTL : Nat := 64

/-- Protocol numbers of `netinet/in.h`. -/
abbrev IPPROTO_TCP : Nat := 6
abbrev IPPROTO_UDP : Nat := 17

/-- More-fragments mask of `netinet/ip.h`. -/
abbrev IP_MF : Nat := 0x2000

/-- TCP state numbers of `netinet/tcp.h`. -/
abbrev TCP_ESTABLISHED : Nat := 1
abbrev TCP_SYN_SENT : Nat := 2
abbrev TCP_SYN_RECV : Nat := 3
abbrev TCP_CLOSE : Nat := 7
abbrev TCP_LAST_ACK : Nat := 9

/-- Value of `errno` for an interrupted call (`errno.h`). -/
abbrev EINTR : Int := 4

/-! ## Memory access -/

/-- Every element of the list is a byte. -/
def IsBytes (l : List Nat) : Prop := ∀ b ∈ l, b < 256

instance (l : List Nat) : Decidable (IsBytes l) := by
  unfold IsBytes; infer_instance

/-- Load of a `uint8_t` at byte offset `off`. -/
def get8 (buf : List Nat) (off : Nat) : Nat := buf.getD off 0

/-- Native (little-endian) load of a `uint16_t` at byte offset `off`. -/
def get16 (buf : List Nat) (off : Nat) : Nat := get8 buf off + 256 * get8 buf (off + 1)

/-- Native (little-endian) load of a `uint32_t` at byte offset `off`. -/
def get32 (buf : List Nat) (off : Nat) : Nat := get16 buf off + 65536 * get16 buf (off + 2)

/-- Store of a `uint8_t`. -/
def put8 (buf : List Nat) (off v : Nat) : List Nat := buf.set off (v % 256)

/-- Native (little-endian) store of a `uint16_t`. -/
def put16 (buf : List Nat) (off v : Nat) : List Nat := put8 (put8 buf off v) (off + 1) (v / 256)

/-- Native (little-endian) store of a `uint32_t`. -/
def put32 (buf : List Nat) (off v : Nat) : List Nat :=
  put16 (put16 buf off v) (off + 2) (v / 65536)

/-- Store into the 4-bit bit-field occupying the low nibble of the byte at `off`. -/
def putLo4 (buf : List Nat) (off v : Nat) : List Nat :=
  put8 buf off (16 * (get8 buf off / 16) + v % 16)

/-- Store into the 4-bit bit-field occupying the high nibble of the byte at `off`. -/
def putHi4 (buf : List Nat) (off v : Nat) : List Nat :=
  put8 buf off (16 * (v % 16) + get8 buf off % 16)

/-- Bit `k` of a byte. -/
def getBit (byte k : Nat) : Nat := byte / 2 ^ k % 2

/-- Store into the 1-bit bit-field at bit `k` of the byte at `off`. -/
def putBit (buf : List Nat) (off k v : Nat) : List Nat :=
  put8 buf off (get8 buf off - getBit (get8 buf off) k * 2 ^ k + (v % 2) * 2 ^ k)

/-- The `n` bytes found at `off`, as `memcpy` reads them. -/
def readBytes (buf : List Nat) (off n : Nat) : List Nat :=
  (List.range n).map (fun k => get8 buf (off + k))

/-- Effect of `memcpy(dst + off, src, n)` on `dst`. -/
def memcpy (dst : List Nat) (off : Nat) (src : List Nat) (n : Nat) : List Nat :=
  dst.take off ++ src.take n ++ dst.drop (off + n)

/-- Byte swap of a 16-bit value (`htons` on a little-endian host). -/
def htons (x : Nat) : Nat := (x % 256) * 256 + x / 256 % 256

/-- Same swap, the other direction. -/
def ntohs (x : Nat) : Nat := htons x

/-- Byte swap of a 32-bit value (`htonl` on a little-endian host). -/
def htonl (x : Nat) : Nat :=
  (x % 256) * 16777216 + (x / 256 % 256) * 65536 + (x / 65536 % 256) * 256 + x / 16777216 % 256

/-- Same swap, the other direction. -/
def ntohl (x : Nat) : Nat := htonl x

/-- Two's complement wrap of a value into the range of `int`. -/
def toInt32 (x : Int) : Int := (x + 2147483648) % 4294967296 - 2147483648

/-! ## `checksum` -/

/-- The summation of `checksum`: the `while (nleft > 1)` loop followed by the odd-byte
step.  `w` is the memory from the word pointer on (`w++` drops two bytes), `nleft` the
bytes left, `sum` the `int` accumulator. -/
def sumWords : List Nat → Nat → Int → Int
  | _, 0, sum => sum
  | w, 1, sum => toInt32 (sum + (get8 w 0 : Nat))
  | w, nleft + 2, sum => sumWords (w.drop 2) nleft (toInt32 (sum + (get16 w 0 : Nat)))

/-- Model of `checksum(addr, len)`. -/
def checksum (addr : List Nat) (len : Nat) : Nat :=
  let sum := sumWords addr len 0
  let sum := toInt32 (sum / 65536 + sum % 65536)
  let sum := toInt32 (sum + sum / 65536)
  ((-sum - 1) % 65536).toNat

/-! ## The connection table and the trace of effects -/

/-- Model of `struct connection`; `sent` is the list hanging off `struct data *sent`, the
`next` pointer is the list structure of the table. -/
structure connection where
  time : Int
  remote_seq : Nat
  local_seq : Nat
  saddr : Nat
  source : Nat
  daddr : Nat
  dest : Nat
  state : Nat
  socket : Int
  lport : Nat
  sent : List (List Nat)
deriving DecidableEq

/-- The fields of a connection are within the range of their C types. -/
def connection.inRange (c : connection) : Prop :=
  c.remote_seq < 4294967296 ∧ c.local_seq < 4294967296 ∧ c.saddr < 4294967296 ∧
  c.source < 65536 ∧ c.daddr < 4294967296 ∧ c.dest < 65536

instance (c : connection) : Decidable c.inRange := by
  unfold connection.inRange; infer_instance

/-- Calls with an effect outside the process. -/
inductive Event where
  /-- Call `write(tun, buffer, len)` with its return value. -/
  | write (tun : Int) (buffer : List Nat) (res : Int)
  /-- Call `send(socket, data, len, 0)` with its return value. -/
  | send (socket : Int) (data : List Nat) (res : Int)
  /-- Call of `openSocket` for the target address and port, with its return value. -/
  | openSocket (addr port : Nat) (res : Int)
  /-- Call `shutdown(socket, SHUT_RDWR)`. -/
  | shutdown (socket : Int)
  /-- The `logPacket` callback. -/
  | logPacket (version : Nat) (source : List Nat) (sport : Nat) (dest : List Nat) (dport : Nat)
      (protocol : Nat) (flags : List Char) (uid : Int) (allowed : Nat)
deriving DecidableEq

/-- The global `connection` list together with the effects so far. -/
structure State where
  connection : List connection
  trace : List Event
deriving DecidableEq

/-! ## Segments synthesised toward the tun -/

/-- The bytes that `writeSYN(cur, tun)` hands to `write`: offsets 0-19 are `struct iphdr`,
offsets 20-39 `struct tcphdr` (flag byte at 33: fin = bit 0, syn = bit 1, rst = bit 2,
psh = bit 3, ack = bit 4).  `csum` is the scratch array holding `struct ippseudo`
(src 0-3, dst 4-7, pad 8, protocol 9, length 10-11) followed by the TCP header; every
byte of it is written before `checksum` reads it. -/
def writeSYN_packet (cur : connection) : List Nat :=
  let len := (20 + 20) % 65536
  let buffer := List.replicate len 0
  -- Build IP header
  let buffer := putHi4 buffer 0 4
  let buffer := putLo4 buffer 0 (20 / 4)
  let buffer := put16 buffer 2 (htons len)
  let buffer := put8 buffer 8 TTL
  let buffer := put8 buffer 9 IPPROTO_TCP
  let buffer := put32 buffer 12 cur.daddr
  let buffer := put32 buffer 16 cur.saddr
  -- Calculate IP checksum
  let buffer := put16 buffer 10 (checksum buffer 20)
  -- Build TCP header
  let buffer := put16 buffer 20 cur.dest
  let buffer := put16 buffer 22 cur.source
  let buffer := put32 buffer 24 (htonl cur.local_seq)
  let buffer := put32 buffer 28 (htonl ((cur.remote_seq + 1) % 4294967296))
  let buffer := putHi4 buffer 32 (20 / 4)
  let buffer := putBit buffer 33 1 1
  let buffer := putBit buffer 33 4 1
  let buffer := put16 buffer 34 (htons 2048)
  -- Calculate TCP checksum
  let clen := (12 + 20) % 65536
  let csum := List.replicate clen 0
  let csum := put32 csum 0 (get32 buffer 12)
  let csum := put32 csum 4 (get32 buffer 16)
  let csum := put8 csum 8 0
  let csum := put8 csum 9 (get8 buffer 9)
  let csum := put16 csum 10 (htons 20)
  let csum := memcpy csum 12 (readBytes buffer 20 20) 20
  let buffer := put16 buffer 36 (checksum csum clen)
  buffer.take len

/-- Model of `writeSYN`: the value returned is what `write` returned, `res`. -/
def writeSYN (res : Int) (cur : connection) (tun : Int) : Int × List Event :=
  (res, [Event.write tun (writeSYN_packet cur) res])

/-- The bytes that `writeACK(cur, data, confirm, fin, tun)` hands to `write`; `data` is
`none` for a `NULL` pointer and otherwise the `data->len` bytes at `data->data`. -/
def writeACK_packet (cur : connection) (data : Option (List Nat)) (confirm fin : Nat) :
    List Nat :=
  let datalen := (match data with | none => 0 | some d => d.length) % 65536
  let len := (20 + 20 + datalen) % 65536
  let buffer := List.replicate len 0
  let buffer :=
    if datalen ≠ 0 then memcpy buffer (20 + 20) (data.getD []) (data.getD []).length
    else buffer
  -- Build IP header
  let buffer := putHi4 buffer 0 4
  let buffer := putLo4 buffer 0 (20 / 4)
  let buffer := put16 buffer 2 (htons len)
  let buffer := put8 buffer 8 TTL
  let buffer := put8 buffer 9 IPPROTO_TCP
  let buffer := put32 buffer 12 cur.daddr
  let buffer := put32 buffer 16 cur.saddr
  -- Calculate IP checksum
  let buffer := put16 buffer 10 (checksum buffer 20)
  -- Build TCP header
  let buffer := put16 buffer 20 cur.dest
  let buffer := put16 buffer 22 cur.source
  let buffer := put32 buffer 24 (htonl cur.local_seq)
  let buffer := put32 buffer 28 (htonl ((cur.remote_seq + confirm % 65536) % 4294967296))
  let buffer := putHi4 buffer 32 (20 / 4)
  let buffer := putBit buffer 33 4 1
  let buffer := putBit buffer 33 0 fin
  let buffer := put16 buffer 34 (htons 2048)
  -- Calculate TCP checksum
  let clen := (12 + 20 + datalen) % 65536
  let csum := List.replicate clen 0
  let csum := put32 csum 0 (get32 buffer 12)
  let csum := put32 csum 4 (get32 buffer 16)
  let csum := put8 csum 8 0
  let csum := put8 csum 9 (get8 buffer 9)
  let csum := put16 csum 10 (htons ((20 + datalen) % 65536))
  let csum := memcpy csum 12 (readBytes buffer 20 20) 20
  let csum :=
    if datalen ≠ 0 then memcpy csum (12 + 20) (data.getD []) (data.getD []).length
    else csum
  let buffer := put16 buffer 36 (checksum csum clen)
  buffer.take len

/-- Model of `writeACK`: the value returned is what `write` returned, `res`. -/
def writeACK (res : Int) (cur : connection) (data : Option (List Nat)) (confirm fin : Nat)
    (tun : Int) : Int × List Event :=
  (res, [Event.write tun (writeACK_packet cur data confirm fin) res])

/-! ## `handle_tcp` -/

/-- What the platform returns during one call of `handle_tcp`, one field per call site. -/
structure TcpEnv where
  /-- Value returned by `time(NULL)`. -/
  time : Int
  /-- Value returned by `openSocket`. -/
  openSocket : Int
  /-- Value returned by `getLocalPort`. -/
  getLocalPort : Int
  /-- Content of the `lport` field of the block returned by `malloc` (never assigned when
  `openSocket` fails). -/
  lport_uninit : Nat
  /-- Value returned by `send`. -/
  send : Int
  /-- Value returned by `write` inside the `writeACK` that acknowledges data. -/
  write_ack : Int
  /-- Value returned by `write` inside the `writeACK` that answers a FIN. -/
  write_fin : Int

/-- The search loop of `handle_tcp`: the entries skipped (the last of them is `last`) and
the remainder of the list from the first entry matching `(saddr, source)` on (`cur`). -/
def search (saddr source : Nat) : List connection → List connection × List connection
  | [] => ([], [])
  | c :: rest =>
    if c.saddr = saddr ∧ c.source = source then ([], c :: rest)
    else ((c :: (search saddr source rest).1), (search saddr source rest).2)

/-- The `cur == NULL`, `tcphdr->syn` branch of `handle_tcp`: the connection registered for
a new SYN and the effects of registering it. -/
def new_syn (env : TcpEnv) (buffer : List Nat) (tcphdr : Nat) : connection × List Event :=
  let syn : connection :=
    { time := env.time
      remote_seq := ntohl (get32 buffer (tcphdr + 4))
      local_seq := 123
      saddr := get32 buffer 12
      source := get16 buffer tcphdr
      daddr := get32 buffer 16
      dest := get16 buffer (tcphdr + 2)
      state := if env.openSocket < 0 then TCP_CLOSE else TCP_SYN_RECV
      socket := env.openSocket
      lport :=
        if env.openSocket < 0 then env.lport_uninit
        else (env.getLocalPort % 4294967296).toNat
      sent := [] }
  (syn, [Event.openSocket (get32 buffer 16) (get16 buffer (tcphdr + 2)) env.openSocket])

/-- The `if (tcphdr->ack)` block of `handle_tcp` for an existing connection. -/
def handle_ack (env : TcpEnv) (tun : Int) (buffer : List Nat) (tcphdr : Nat)
    (data : Option (List Nat)) (cur : connection) : connection × List Event :=
  let cur := { cur with time := env.time }
  if cur.state = TCP_SYN_SENT then
    if ntohl (get32 buffer (tcphdr + 8)) = (cur.local_seq + 1) % 4294967296 ∧
        ntohl (get32 buffer (tcphdr + 4)) ≥ (cur.remote_seq + 1) % 4294967296 then
      ({ cur with
          local_seq := (cur.local_seq + 1) % 4294967296
          remote_seq := (cur.remote_seq + 1) % 4294967296
          state := TCP_ESTABLISHED }, [])
    else (cur, [])
  else if cur.state = TCP_ESTABLISHED then
    if (ntohl (get32 buffer (tcphdr + 4)) + 1) % 4294967296 = cur.remote_seq then (cur, [])
    else if ntohl (get32 buffer (tcphdr + 4)) < cur.remote_seq then (cur, [])
    else
      match data with
      | none => (cur, [])
      | some d =>
        if env.send < 0 then (cur, [Event.send cur.socket d env.send])
        else
          let w := writeACK env.write_ack cur none d.length 0 tun
          if w.1 ≠ 0 then
            ({ cur with remote_seq := (cur.remote_seq + d.length) % 4294967296 },
              Event.send cur.socket d env.send :: w.2)
          else (cur, Event.send cur.socket d env.send :: w.2)
  else if cur.state = TCP_LAST_ACK then ({ cur with state := TCP_CLOSE }, [])
  else (cur, [])

/-- The `if (tcphdr->fin)` block of `handle_tcp` for an existing connection. -/
def handle_fin (env : TcpEnv) (tun : Int) (cur : connection) : connection × List Event :=
  if cur.state = TCP_ESTABLISHED then
    let w := writeACK env.write_fin cur none 1 1 tun
    if w.1 ≥ 0 then
      ({ cur with
          local_seq := (cur.local_seq + 1) % 4294967296
          remote_seq := (cur.remote_seq + 1) % 4294967296
          state := TCP_LAST_ACK }, w.2)
    else (cur, w.2)
  else (cur, [])

/-- The `else` branch of `if (cur == NULL)` in `handle_tcp`: a segment for the existing
connection `cur`.  A set SYN bit only produces a log line. -/
def handle_existing (env : TcpEnv) (tun : Int) (buffer : List Nat) (tcphdr : Nat)
    (data : Option (List Nat)) (cur : connection) : connection × List Event :=
  let flags := get8 buffer (tcphdr + 13)
  let r1 := if getBit flags 4 ≠ 0 then handle_ack env tun buffer tcphdr data cur else (cur, [])
  let r2 := if getBit flags 0 ≠ 0 then handle_fin env tun r1.1 else (r1.1, [])
  let cur := if getBit flags 2 ≠ 0 then { r2.1 with state := TCP_CLOSE } else r2.1
  (cur, r1.2 ++ r2.2)

/-- Model of `handle_tcp(env, instance, args, buffer, length)` with `tun = args->tun`;
`length` is a `uint16_t`. -/
def handle_tcp (env : TcpEnv) (tun : Int) (st : State) (buffer : List Nat) (length : Nat) :
    State :=
  -- Check version
  let version := get8 buffer 0 / 16
  if version ≠ 4 then st
  else
    -- Get headers
    let ihl := get8 buffer 0 % 16
    let optlen := ((((ihl : Int) - 5) * 4) % 256).toNat
    let tcphdr := 20 + optlen
    -- Get data
    let dataoff := (20 + optlen + 20) % 65536
    let datalen := (((length : Int) - (dataoff : Nat)) % 65536).toNat
    let data := if datalen > 0 then some (readBytes buffer dataoff datalen) else none
    -- Search connection
    let found := search (get32 buffer 12) (get16 buffer tcphdr) st.connection
    match found.2 with
    | [] =>
      if getBit (get8 buffer (tcphdr + 13)) 1 ≠ 0 then
        let r := new_syn env buffer tcphdr
        { connection := found.1 ++ [r.1], trace := st.trace ++ r.2 }
      else st
    | cur :: rest =>
      let r := handle_existing env tun buffer tcphdr data cur
      { connection := found.1 ++ r.1 :: rest, trace := st.trace ++ r.2 }

/-! ## `decode` -/

/-- What the platform returns during one call of `decode`. -/
structure DecodeEnv where
  /-- The function `getUid(protocol, version, saddr, sport)` computes from the tables under
  `/proc/net`; `saddr` is given as the 4 or 16 address bytes. -/
  getUid : Nat → Nat → List Nat → Nat → Int
  /-- Method id `GetMethodID` returns for `logPacket` (0: not found). -/
  logPacket_mid : Nat
  /-- Environment of the nested `handle_tcp`. -/
  tcp : TcpEnv

/-- What the version-specific first part of `decode` leaves in its local variables. -/
structure IpInfo where
  version : Nat
  protocol : Nat
  saddr : List Nat
  daddr : List Nat
  flags : List Char
  payload : Nat
deriving DecidableEq

/-- The first part of `decode` ("Get protocol, addresses & payload"); `none` is one of its
three `return`s.  `length` is a `uint16_t`. -/
def decode_ip (buffer : List Nat) (length : Nat) : Option IpInfo :=
  let version := get8 buffer 0 / 16
  if version = 4 then
    let flags := if get16 buffer 6 &&& IP_MF ≠ 0 then ['+'] else []
    let optlen := (((((get8 buffer 0 % 16 : Nat) : Int) - 5) * 4) % 256).toNat
    if ntohs (get16 buffer 2) ≠ length then none
    else if checksum buffer 20 ≠ 0 then none
    else some
      { version := version, protocol := get8 buffer 9, saddr := readBytes buffer 12 4,
        daddr := readBytes buffer 16 4, flags := flags, payload := 20 + optlen }
  else if version = 6 then
    some
      { version := version, protocol := get8 buffer 6, saddr := readBytes buffer 8 16,
        daddr := readBytes buffer 24 16, flags := [], payload := 40 }
  else none

/-- The ports and the flag characters `decode` extracts ("Get ports & flags"). -/
def decode_ports (buffer : List Nat) (ip : IpInfo) : Nat × Nat × List Char :=
  if ip.protocol = IPPROTO_TCP then
    let b := get8 buffer (ip.payload + 13)
    let flags := ip.flags
    let flags := if getBit b 1 ≠ 0 then flags ++ ['S'] else flags
    let flags := if getBit b 4 ≠ 0 then flags ++ ['A'] else flags
    let flags := if getBit b 3 ≠ 0 then flags ++ ['P'] else flags
    let flags := if getBit b 0 ≠ 0 then flags ++ ['F'] else flags
    let flags := if getBit b 0 ≠ 0 then flags ++ ['R'] else flags
    (ntohs (get16 buffer ip.payload), ntohs (get16 buffer (ip.payload + 2)), flags)
  else if ip.protocol = IPPROTO_UDP then
    (ntohs (get16 buffer ip.payload), ntohs (get16 buffer (ip.payload + 2)), ip.flags)
  else (65535, 65535, ip.flags)

/-- The "Get uid" part of `decode`: the uid it resolves and the calls of `getUid` it makes
on the way, in order, each with its protocol, version, address bytes and port. -/
def decode_lookup (env : DecodeEnv) (ip : IpInfo) (sport : Nat) :
    Int × List (Nat × Nat × List Nat × Nat) :=
  if ip.protocol = IPPROTO_TCP ∨ ip.protocol = IPPROTO_UDP then
    -- Lookup uid
    let uid := env.getUid ip.protocol ip.version ip.saddr sport
    if uid < 0 ∧ ip.version = 4 then
      let saddr128 := List.replicate 10 0 ++ [0xFF, 0xFF] ++ ip.saddr
      (env.getUid ip.protocol 6 saddr128 sport,
        [(ip.protocol, ip.version, ip.saddr, sport), (ip.protocol, 6, saddr128, sport)])
    else (uid, [(ip.protocol, ip.version, ip.saddr, sport)])
  else (-1, [])

/-- Model of `decode(env, instance, args, buffer, length)` with `tun = args->tun`. -/
def decode (env : DecodeEnv) (tun : Int) (st : State) (buffer : List Nat) (length : Nat) :
    State :=
  match decode_ip buffer length with
  | none => st
  | some ip =>
    let ports := decode_ports buffer ip
    let uid := (decode_lookup env ip ports.1).1
    let st := if ip.protocol = IPPROTO_TCP then handle_tcp env.tcp tun st buffer length else st
    -- Call back
    if env.logPacket_mid = 0 then st
    else
      { st with trace := st.trace ++
          [Event.logPacket ip.version ip.saddr ports.1 ip.daddr ports.2.1 ip.protocol
            ports.2.2 uid 0] }

/-! ## `handle_events` -/

/-- Model of `FD_ISSET(fd, set)` for a descriptor set kept as the list of its members. -/
def FD_ISSET (fd : Int) (set : List Int) : Bool := decide (fd ∈ set)

/-- The descriptor sets handed to `pselect` and the running maximum `max`. -/
structure FdSets where
  rfds : List Int
  wfds : List Int
  efds : List Int
  max : Int
deriving DecidableEq

/-- The first inner loop of `handle_events`: idle entries are shut down and unlinked, the
sockets of the others are entered into the descriptor sets.  Returns the table, the
effects and the sets. -/
def sweep (now : Int) : List connection → FdSets → List connection × List Event × FdSets
  | [], fds => ([], [], fds)
  | cur :: rest, fds =>
    if cur.time + TIMEOUTPKT < now then
      let r := sweep now rest fds
      (r.1, Event.shutdown cur.socket :: r.2.1, r.2.2)
    else
      let fds :=
        if cur.state = TCP_SYN_RECV then
          { fds with wfds := cur.socket :: fds.wfds, max := if cur.socket > fds.max then cur.socket else fds.max }
        else if cur.state = TCP_ESTABLISHED then
          { fds with rfds := cur.socket :: fds.rfds, max := if cur.socket > fds.max then cur.socket else fds.max }
        else fds
      let r := sweep now rest fds
      (cur :: r.1, r.2.1, r.2.2)

/-- What the platform returns while `handle_events` checks one connection. -/
structure SockEnv where
  /-- Value returned by `getsockopt(SO_ERROR)`. -/
  getsockopt : Int
  /-- The pending socket error `getsockopt` stores in `serr`. -/
  serr : Int
  /-- Value returned by `canWrite(args->tun)`. -/
  canWrite : Int
  /-- Value returned by `write` inside `writeSYN`. -/
  write_syn : Int
  /-- Value returned by `recv`. -/
  recv : Int
  /-- Value of `errno` after `recv`. -/
  errno : Int
  /-- Content of `buffer` after `recv`. -/
  buffer : List Nat
  /-- Value returned by `write` inside `writeACK`. -/
  write_ack : Int

/-- Body of the "Check sockets" loop of `handle_events` for the entry `cur`; `rfds`, `wfds`
and `efds` are the sets as `pselect` left them. -/
def check_socket (env : SockEnv) (tun : Int) (rfds wfds efds : List Int) (cur : connection) :
    connection × List Event :=
  -- Check socket exception
  if FD_ISSET cur.socket efds ∧ env.getsockopt < 0 then ({ cur with state := TCP_CLOSE }, [])
  else if FD_ISSET cur.socket efds ∧ env.serr ≠ 0 then ({ cur with state := TCP_CLOSE }, [])
  else if cur.state = TCP_SYN_RECV then
    -- Check socket connect
    if FD_ISSET cur.socket wfds ∧ env.canWrite ≠ 0 then
      let w := writeSYN env.write_syn cur tun
      if w.1 < 0 then ({ cur with state := TCP_CLOSE }, w.2)
      else ({ cur with state := TCP_SYN_SENT }, w.2)
    else (cur, [])
  else if cur.state = TCP_ESTABLISHED then
    -- Check socket read
    if FD_ISSET cur.socket rfds then
      if env.recv < 0 then
        if env.errno ≠ EINTR then ({ cur with state := TCP_CLOSE }, []) else (cur, [])
      else if env.recv = 0 then ({ cur with state := TCP_CLOSE }, [])
      else
        let data := readBytes env.buffer 0 env.recv.toNat
        let w := writeACK env.write_ack cur (some data) 0 0 tun
        ({ cur with local_seq := (cur.local_seq + env.recv.toNat) % 4294967296 }, w.2)
    else (cur, [])
  else (cur, [])

/-- The "Check sockets" loop of `handle_events`; `env i` serves the `i`-th entry visited. -/
def check_sockets (env : Nat → SockEnv) (tun : Int) (rfds wfds efds : List Int) :
    Nat → List connection → List connection × List Event
  | _, [] => ([], [])
  | i, cur :: rest =>
    let r := check_socket (env i) tun rfds wfds efds cur
    let rs := check_sockets env tun rfds wfds efds (i + 1) rest
    (r.1 :: rs.1, r.2 ++ rs.2)

/-- What the platform returns during one iteration of the loop of `handle_events`. -/
structure LoopEnv where
  /-- Value returned by `time(NULL)`. -/
  now : Int
  /-- Value returned by `pselect`. -/
  ready : Int
  /-- Value of `errno` after `pselect`. -/
  errno : Int
  /-- Value of the flag `signaled` after `pselect`. -/
  signaled : Int
  /-- Descriptors the kernel finds readable, writable, in an exceptional condition. -/
  readable : Int → Bool
  writable : Int → Bool
  exceptional : Int → Bool
  /-- Value returned by `read(args->tun, buffer, MAXPKT)`. -/
  length : Int
  /-- Content of `buffer` after the `read`. -/
  buffer : List Nat
  /-- Environment of `decode`. -/
  decode : DecodeEnv
  /-- Environment of the check of the `i`-th connection. -/
  sock : Nat → SockEnv

/-- How one iteration of `while (1)` ends. -/
inductive Loop where
  /-- The next iteration starts in this state. -/
  | next (st : State)
  /-- The loop was left by `break` in this state. -/
  | stop (st : State)

/-- The part of an iteration that follows a positive `ready`: the tun checks and the
"Check sockets" loop, with the sets as `pselect` left them. -/
def handle_ready (env : LoopEnv) (tun : Int) (rfds wfds efds : List Int) (st : State) : Loop :=
  -- Check tun exception
  if FD_ISSET tun efds then Loop.stop st
  else
    let check (st : State) : Loop :=
      let r := check_sockets env.sock tun rfds wfds efds 0 st.connection
      Loop.next { connection := r.1, trace := st.trace ++ r.2 }
    -- Check tun read
    if FD_ISSET tun rfds then
      if env.length < 0 then Loop.stop st
      else if env.length > 0 then
        check (decode env.decode tun st env.buffer (env.length.toNat % 65536))
      else Loop.stop st
    else check st

/-- One iteration of the `while (1)` loop of `handle_events` with `tun = args->tun`; of the
sets handed to `pselect` the kernel keeps the descriptors that are ready. -/
def handle_events_iteration (env : LoopEnv) (tun : Int) (st : State) : Loop :=
  let r := sweep env.now st.connection { rfds := [tun], wfds := [], efds := [tun], max := tun }
  let st : State := { connection := r.1, trace := st.trace ++ r.2.1 }
  let rfds := r.2.2.rfds.filter env.readable
  let wfds := r.2.2.wfds.filter env.writable
  let efds := r.2.2.efds.filter env.exceptional
  if env.ready < 0 then
    if env.errno = EINTR then
      if env.signaled ≠ 0 then Loop.stop st else Loop.next st
    else Loop.stop st
  else if env.ready = 0 then Loop.next st
  else handle_ready env tun rfds wfds efds st

/-- The state in which an iteration ends. -/
def Loop.state : Loop → State
  | Loop.next st => st
  | Loop.stop st => st

/-- The tables that can arise from the empty table (`jni_init`) by calls of `handle_tcp`,
runs of the "Check sockets" loop, sweeps and whole iterations of the loop of
`handle_events`, in any order and under any behaviour of the platform. -/
inductive Reachable : List connection → Prop where
  | init : Reachable []
  | tcp_step (env : TcpEnv) (tun : Int) (st : State) (buffer : List Nat) (length : Nat) :
      Reachable st.connection → Reachable (handle_tcp env tun st buffer length).connection
  | events_step (env : Nat → SockEnv) (tun : Int) (rfds wfds efds : List Int)
      (conns : List connection) :
      Reachable conns → Reachable (check_sockets env tun rfds wfds efds 0 conns).1
  | sweep_step (now : Int) (fds : FdSets) (conns : List connection) :
      Reachable conns → Reachable (sweep now conns fds).1
  | iteration (env : LoopEnv) (tun : Int) (st : State) :
      Reachable st.connection → Reachable (handle_events_iteration env tun st).state.connection

/-- No two entries of the table have the same `(saddr, source)`. -/
def UniqueKeys (conns : List connection) : Prop :=
  conns.Pairwise (fun a b => ¬(a.saddr = b.saddr ∧ a.source = b.source))

/-! ## Definitions used to state the properties -/

/-- Sum of the native (little-endian) 16-bit words of a byte sequence as an unbounded
natural number; an odd final byte counts as the low byte of a word. -/
def leWordSum : List Nat → Nat
  | [] => 0
  | [b] => b
  | b0 :: b1 :: rest => b0 + 256 * b1 + leWordSum rest

/-- Sum of the big-endian 16-bit words of a byte sequence; an odd final byte is the
high byte of a zero-padded word (the spec's wording for `ip_checksum`). -/
def beWordSum : List Nat → Nat
  | [] => 0
  | [b] => 256 * b
  | b0 :: b1 :: rest => 256 * b0 + b1 + beWordSum rest

/-- Folding the carries above bit 15 back into the low 16 bits until none is left. -/
def carryReduce (x : Nat) : Nat :=
  if x < 65536 then x else carryReduce (x / 65536 + x % 65536)
termination_by x
decreasing_by omega

/-- The Internet checksum in the spec's words: the one's complement, as a 16-bit
value, of the fully carry-reduced sum of the big-endian words. -/
def spec_ip_checksum (b : List Nat) : Nat := 65535 - carryReduce (beWordSum b)

/-- Offset of the TCP header as `handle_tcp` and `decode` compute it: 20 plus
`(uint8_t)((ihl - 5) * 4)`. -/
def tcp_offset (buffer : List Nat) : Nat :=
  20 + (((((get8 buffer 0 % 16 : Nat) : Int) - 5) * 4) % 256).toNat

/-- The 12-byte TCP pseudo-header {src addr, dst addr, 0, protocol 6, length} that goes
with an emitted IPv4 packet, the length big-endian. -/
def pseudo_header (pkt : List Nat) (tcplen : Nat) : List Nat :=
  readBytes pkt 12 8 ++ [0, 6, tcplen / 256 % 256, tcplen % 256]

/-- The datagram obtained by XOR-ing the 16-bit check field of the IPv4 header (bytes 10
and 11) with 0xFFFF. -/
def xor_check (p : List Nat) : List Nat :=
  put8 (put8 p 10 (get8 p 10 ^^^ 0xFF)) 11 (get8 p 11 ^^^ 0xFF)

/-- The 16-bit value `checksum` returns when the exact sum of the words is `s`: the one's
complement of the end-around-carry reduction of `s`. -/
def foldNot (s : Nat) : Nat := if s = 0 then 65535 else 65534 - (s - 1) % 65535

/-- A 20-byte IPv4 header (10.0.0.1 to 10.0.0.2, TCP, total length 40) whose words other
than the check field sum to FFFF, with the check field set to FF FF. -/
def ex_hdr : List Nat := [0x45, 0, 0, 0x28, 0x66, 0xCE, 0, 0, 0x40, 6, 0xFF, 0xFF, 10, 0, 0, 1, 10, 0, 0, 2]

/-- A platform on which every call succeeds. -/
def ex_tcp_env : TcpEnv :=
  { time := 100, openSocket := 5, getLocalPort := 40000, lport_uninit := 0, send := 5,
    write_ack := 40, write_fin := 40 }

/-- A platform on which every call succeeds and every packet belongs to uid 10001. -/
def ex_env : DecodeEnv :=
  { getUid := fun _ _ _ _ => 10001, logPacket_mid := 1, tcp := ex_tcp_env }

/-- The state after `jni_init`: empty table, no effects yet. -/
def ex_empty : State := { connection := [], trace := [] }

/-- A 40-byte SYN from 10.0.0.1 port 1234 to 10.0.0.2 port 80 with sequence number 1000,
IP identification 0 and header check field 66 CE. -/
def ex_syn : List Nat :=
  [0x45, 0, 0, 0x28, 0, 0, 0, 0, 0x40, 6, 0x66, 0xCE, 10, 0, 0, 1, 10, 0, 0, 2,
   0x04, 0xD2, 0, 0x50, 0, 0, 0x03, 0xE8, 0, 0, 0, 0, 0x50, 0x02, 0x08, 0, 0, 0, 0, 0]

/-- The same SYN with IP identification 66 CE, so that the header words other than the
check field sum to FFFF, and with check field 00 00. -/
def ex_syn_zero : List Nat :=
  [0x45, 0, 0, 0x28, 0x66, 0xCE, 0, 0, 0x40, 6, 0, 0, 10, 0, 0, 1, 10, 0, 0, 2,
   0x04, 0xD2, 0, 0x50, 0, 0, 0x03, 0xE8, 0, 0, 0, 0, 0x50, 0x02, 0x08, 0, 0, 0, 0, 0]

/-- The key of a table entry: client address and client port. -/
def connection.key (c : connection) : Nat × Nat := (c.saddr, c.source)

/-- The 20 bytes of the IPv4 header `writeSYN` and `writeACK` build for total length `len`
and check value `check`. -/
def ip_header_bytes (len : Nat) (cur : connection) (check : Nat) : List Nat :=
  [69, 0, htons len % 256, htons len / 256 % 256, 0, 0, 0, 0, 64, 6,
   check % 256, check / 256 % 256,
   cur.daddr % 256, cur.daddr / 256 % 256, cur.daddr / 65536 % 256,
   cur.daddr / 65536 / 256 % 256,
   cur.saddr % 256, cur.saddr / 256 % 256, cur.saddr / 65536 % 256,
   cur.saddr / 65536 / 256 % 256]

/-- The 20 bytes of the TCP header `writeSYN` and `writeACK` build, for the values `seq`
and `ack` stored in the sequence fields, flag byte `flags` and check value `check`. -/
def tcp_header_bytes (cur : connection) (seq ack flags check : Nat) : List Nat :=
  [cur.dest % 256, cur.dest / 256 % 256, cur.source % 256, cur.source / 256 % 256,
   seq % 256, seq / 256 % 256, seq / 65536 % 256, seq / 65536 / 256 % 256,
   ack % 256, ack / 256 % 256, ack / 65536 % 256, ack / 65536 / 256 % 256,
   80, flags, 8, 0, check % 256, check / 256 % 256, 0, 0]

/-- The 12 bytes `writeSYN` and `writeACK` put in front of the TCP header in `csum`, for the
TCP length `tcplen`. -/
def pseudo_bytes (cur : connection) (tcplen : Nat) : List Nat :=
  [cur.daddr % 256, cur.daddr / 256 % 256, cur.daddr / 65536 % 256,
   cur.daddr / 65536 / 256 % 256, cur.saddr % 256, cur.saddr / 256 % 256,
   cur.saddr / 65536 % 256, cur.saddr / 65536 / 256 % 256, 0, 6,
   htons tcplen % 256, htons tcplen / 256 % 256]

/-- What C1 says of an emitted packet `pkt` for the connection `cur` and a payload of `n`
bytes: it is 40 + n bytes long and starts with an IPv4 header with version 4, ihl 5, total
length 40 + n, identification and fragment fields 0, ttl 64, protocol 6, source address
the server address, destination address the client address, and `checksum` over the 20
header bytes returns 0. -/
def ip_header_ok (pkt : List Nat) (cur : connection) (n : Nat) : Prop :=
  pkt.length = 40 + n ∧ get8 pkt 0 / 16 = 4 ∧ get8 pkt 0 % 16 = 5 ∧
  ntohs (get16 pkt 2) = 40 + n ∧ get16 pkt 4 = 0 ∧ get16 pkt 6 = 0 ∧ get8 pkt 8 = 64 ∧
  get8 pkt 9 = 6 ∧ get32 pkt 12 = cur.daddr ∧ get32 pkt 16 = cur.saddr ∧
  checksum pkt 20 = 0

/-- What C2 says of an emitted packet `pkt` for the connection `cur` and a payload of `n`
bytes: source port the server port, destination port the client port, data offset 5,
window 2048, urgent pointer 0, and the checksum over pseudo-header, TCP header as emitted
and payload is 0, both as `checksum` computes it and in the spec's words. -/
def tcp_header_ok (pkt : List Nat) (cur : connection) (n : Nat) : Prop :=
  get16 pkt 20 = cur.dest ∧ get16 pkt 22 = cur.source ∧ get8 pkt 32 / 16 = 5 ∧
  ntohs (get16 pkt 34) = 2048 ∧ get16 pkt 38 = 0 ∧
  checksum (pseudo_header pkt (20 + n) ++ pkt.drop 20) (12 + 20 + n) = 0 ∧
  spec_ip_checksum (pseudo_header pkt (20 + n) ++ pkt.drop 20) = 0

/-- A connection as `handle_tcp` registers it for the SYN `ex_syn`. -/
def ex_conn : connection :=
  { time := 100, remote_seq := 1000, local_seq := 123, saddr := 0x0100000A, source := 0xD204,
    daddr := 0x0200000A, dest := 0x5000, state := TCP_SYN_RECV, socket := 5, lport := 40000,
    sent := [] }

/-- A table entry for another client port (10.0.0.1 port 1235), in ESTABLISHED. -/
def ex_other : connection :=
  { time := 90, remote_seq := 5001, local_seq := 124, saddr := 0x0100000A, source := 0xD304,
    daddr := 0x0200000A, dest := 0x5000, state := TCP_ESTABLISHED, socket := 4, lport := 39999,
    sent := [] }

/-- The ACK that completes the handshake of `ex_conn` after its SYN+ACK: sequence number
1001, acknowledgement number 124. -/
def ex_ack : List Nat :=
  [0x45, 0, 0, 0x28, 0, 0, 0, 0, 0x40, 6, 0x66, 0xCE, 10, 0, 0, 1, 10, 0, 0, 2,
   0x04, 0xD2, 0, 0x50, 0, 0, 0x03, 0xE9, 0, 0, 0, 124, 0x50, 0x10, 0x08, 0, 0, 0, 0, 0]

/-- A platform on which the socket of the checked connection is ready and every call
succeeds; `recv` delivers the four bytes "pong". -/
def ex_sock_env : SockEnv :=
  { getsockopt := 0, serr := 0, canWrite := 1, write_syn := 40, recv := 4, errno := 0,
    buffer := [112, 111, 110, 103], write_ack := 44 }

/-- The entry `ex_conn` after its SYN+ACK was written: SYN_SENT. -/
def ex_conn_sent : connection := { ex_conn with state := TCP_SYN_SENT }

/-- The entry `ex_conn` after the handshake at time 100: ESTABLISHED, both sequence numbers
advanced by one. -/
def ex_conn_est : connection :=
  { ex_conn with local_seq := 124, remote_seq := 1001, state := TCP_ESTABLISHED }

/-- Number of bytes `handle_tcp` takes as the data of a segment: `length - dataoff` as a
`uint16_t`, where `dataoff` is the offset of the TCP header plus the 20 bytes of
`struct tcphdr`. -/
def tcp_datalen (buffer : List Nat) (length : Nat) : Nat :=
  (((length : Int) - (((tcp_offset buffer + 20) % 65536 : Nat) : Int)) % 65536).toNat

/-- The bytes `handle_tcp` copies as the data of a segment. -/
def tcp_payload (buffer : List Nat) (length : Nat) : List Nat :=
  readBytes buffer ((tcp_offset buffer + 20) % 65536) (tcp_datalen buffer length)

/-- The pointer `data` of `handle_tcp`: `NULL` (`none`) when the data length is 0. -/
def tcp_data (buffer : List Nat) (length : Nat) : Option (List Nat) :=
  if tcp_datalen buffer length > 0 then some (tcp_payload buffer length) else none

/-- The flag byte of the TCP header as `handle_tcp` locates it. -/
def tcp_flags (buffer : List Nat) : Nat := get8 buffer (tcp_offset buffer + 13)

/-- The sequence number of a segment in host order. -/
def tcp_seq (buffer : List Nat) : Nat := ntohl (get32 buffer (tcp_offset buffer + 4))

/-- The acknowledgement number of a segment in host order. -/
def tcp_ack_seq (buffer : List Nat) : Nat := ntohl (get32 buffer (tcp_offset buffer + 8))

/-- A segment after the handshake of `ex_conn` that carries the five bytes "hello": ACK set,
sequence number 1001, acknowledgement number 124. -/
def ex_hello : List Nat :=
  [0x45, 0, 0, 0x2D, 0, 0, 0, 0, 0x40, 6, 0x66, 0xC9, 0x0A, 0, 0, 1, 0x0A, 0, 0, 2,
   4, 0xD2, 0, 0x50, 0, 0, 3, 0xE9, 0, 0, 0, 0x7C, 0x50, 0x10, 8, 0, 0, 0, 0, 0,
   0x68, 0x65, 0x6C, 0x6C, 0x6F]

/-- A keep-alive for `ex_conn_est`: ACK set, sequence number 1000 (one below `remote_seq`),
acknowledgement number 124, no data. -/
def ex_keepalive : List Nat :=
  [0x45, 0, 0, 0x28, 0, 0, 0, 0, 0x40, 6, 0x66, 0xCE, 0x0A, 0, 0, 1, 0x0A, 0, 0, 2,
   4, 0xD2, 0, 0x50, 0, 0, 3, 0xE8, 0, 0, 0, 0x7C, 0x50, 0x10, 8, 0, 0, 0, 0, 0]

/-- A segment of the client of `ex_conn` with only FIN set and sequence number 1006. -/
def ex_fin : List Nat :=
  [0x45, 0, 0, 0x28, 0, 0, 0, 0, 0x40, 6, 0x66, 0xCE, 0x0A, 0, 0, 1, 0x0A, 0, 0, 2,
   4, 0xD2, 0, 0x50, 0, 0, 3, 0xEE, 0, 0, 0, 0, 0x50, 1, 8, 0, 0, 0, 0, 0]

/-- A segment of the client of `ex_conn` with only RST set and sequence number 1001. -/
def ex_rst : List Nat :=
  [0x45, 0, 0, 0x28, 0, 0, 0, 0, 0x40, 6, 0x66, 0xCE, 0x0A, 0, 0, 1, 0x0A, 0, 0, 2,
   4, 0xD2, 0, 0x50, 0, 0, 3, 0xE9, 0, 0, 0, 0, 0x50, 4, 8, 0, 0, 0, 0, 0]

/-- The ACK of the client of `ex_conn` for the FIN of the server: sequence number 1007,
acknowledgement number 129. -/
def ex_last_ack : List Nat :=
  [0x45, 0, 0, 0x28, 0, 0, 0, 0, 0x40, 6, 0x66, 0xCE, 0x0A, 0, 0, 1, 0x0A, 0, 0, 2,
   4, 0xD2, 0, 0x50, 0, 0, 3, 0xEF, 0, 0, 0, 0x81, 0x50, 0x10, 8, 0, 0, 0, 0, 0]

/-- A segment of the client of `ex_conn` with SYN and ACK set, sequence number 1001 and
acknowledgement number 124. -/
def ex_syn_ack : List Nat :=
  [0x45, 0, 0, 0x28, 0, 0, 0, 0, 0x40, 6, 0x66, 0xCE, 0x0A, 0, 0, 1, 0x0A, 0, 0, 2,
   4, 0xD2, 0, 0x50, 0, 0, 3, 0xE9, 0, 0, 0, 0x7C, 0x50, 0x12, 8, 0, 0, 0, 0, 0]

/-- A segment of the client of `ex_conn` with SYN and RST set and sequence number 1001. -/
def ex_syn_rst : List Nat :=
  [0x45, 0, 0, 0x28, 0, 0, 0, 0, 0x40, 6, 0x66, 0xCE, 0x0A, 0, 0, 1, 0x0A, 0, 0, 2,
   4, 0xD2, 0, 0x50, 0, 0, 3, 0xE9, 0, 0, 0, 0, 0x50, 6, 8, 0, 0, 0, 0, 0]

/-- The entry `ex_conn_est` after a reset: CLOSE. -/
def ex_conn_closed : connection := { ex_conn_est with state := TCP_CLOSE }

/-- The platform of `ex_tcp_env` five seconds later. -/
def ex_tcp_env_later : TcpEnv := { ex_tcp_env with time := 105 }

/-- The packets written to the descriptor `tun` in a trace, in order. -/
def tun_writes (tun : Int) : List Event → List (List Nat)
  | [] => []
  | Event.write fd pkt _ :: rest =>
    if fd = tun then pkt :: tun_writes tun rest else tun_writes tun rest
  | _ :: rest => tun_writes tun rest

/-- The calls of `send` in a trace, in order: socket and bytes. -/
def socket_sends : List Event → List (Int × List Nat)
  | [] => []
  | Event.send fd data _ :: rest => (fd, data) :: socket_sends rest
  | _ :: rest => socket_sends rest

/-- What a written segment shows on the wire: flag byte, sequence number, acknowledgement
number and the bytes after the two 20-byte headers. -/
def segment_summary (pkt : List Nat) : Nat × Nat × Nat × List Nat :=
  (get8 pkt 33, ntohl (get32 pkt 24), ntohl (get32 pkt 28), pkt.drop 40)

/-- Whether an iteration of the loop of `handle_events` ends with the loop going on. -/
def Loop.isNext : Loop → Bool
  | Loop.next _ => true
  | Loop.stop _ => false

/-- An iteration at time 100 in which `pselect` reports the tun readable and `read` delivers
the packet `b`; every call succeeds. -/
def ex_tun_ready (b : List Nat) : LoopEnv :=
  { now := 100, ready := 1, errno := 0, signaled := 0, readable := fun fd => fd == 3,
    writable := fun _ => false, exceptional := fun _ => false, length := b.length, buffer := b,
    decode := ex_env, sock := fun _ => ex_sock_env }

/-- An iteration at time 100 in which `pselect` reports the socket 5 writable. -/
def ex_sock_writable : LoopEnv :=
  { now := 100, ready := 1, errno := 0, signaled := 0, readable := fun _ => false,
    writable := fun fd => fd == 5, exceptional := fun _ => false, length := 0, buffer := [],
    decode := ex_env, sock := fun _ => ex_sock_env }

/-- An iteration at time 100 in which `pselect` reports the socket 5 readable and `recv`
delivers "pong". -/
def ex_sock_readable : LoopEnv :=
  { now := 100, ready := 1, errno := 0, signaled := 0, readable := fun fd => fd == 5,
    writable := fun _ => false, exceptional := fun _ => false, length := 0, buffer := [],
    decode := ex_env, sock := fun _ => ex_sock_env }

/-- The loop of `handle_events` on the tun 3 from the empty table, one iteration per event:
the SYN arrives. -/
def ex_run1 : Loop := handle_events_iteration (ex_tun_ready ex_syn) 3 ex_empty

/-- Then the socket becomes writable. -/
def ex_run2 : Loop := handle_events_iteration ex_sock_writable 3 ex_run1.state

/-- Then the ACK of the handshake arrives. -/
def ex_run3 : Loop := handle_events_iteration (ex_tun_ready ex_ack) 3 ex_run2.state

/-- Then the segment with "hello" arrives. -/
def ex_run4 : Loop := handle_events_iteration (ex_tun_ready ex_hello) 3 ex_run3.state

/-- Then the socket yields "pong". -/
def ex_run5 : Loop := handle_events_iteration ex_sock_readable 3 ex_run4.state

/-- Then the FIN arrives. -/
def ex_run6 : Loop := handle_events_iteration (ex_tun_ready ex_fin) 3 ex_run5.state

/-- Then the last ACK arrives. -/
def ex_run7 : Loop := handle_events_iteration (ex_tun_ready ex_last_ack) 3 ex_run6.state

/-- A truncated datagram: 36 bytes, a 20-byte IPv4 header (10.0.0.1 to 10.0.0.2, TCP, total
length 36, valid check field) and the first 16 bytes of a TCP header from port 1234 to
port 80 with SYN set and sequence number 1000. -/
def ex_truncated : List Nat :=
  [0x45, 0, 0, 0x24, 0, 0, 0, 0, 0x40, 6, 0x66, 0xD2, 0x0A, 0, 0, 1, 0x0A, 0, 0, 2,
   4, 0xD2, 0, 0x50, 0, 0, 3, 0xE8, 0, 0, 0, 0, 0x50, 2, 8, 0]

/-- A 44-byte SYN from 10.0.0.1 port 1234 to 10.0.0.2 port 80 whose IPv4 header has `ihl` 6:
four option bytes 01 01 01 00 follow the fixed part, and the check field is the Internet
checksum of all 24 header bytes. -/
def ex_options : List Nat :=
  [0x46, 0, 0, 0x2C, 0, 0, 0, 0, 0x40, 6, 0x63, 0xC9, 0x0A, 0, 0, 1, 0x0A, 0, 0, 2,
   1, 1, 1, 0,
   4, 0xD2, 0, 0x50, 0, 0, 3, 0xE8, 0, 0, 0, 0, 0x50, 2, 8, 0, 0, 0, 0, 0]

/-- Whether an effect is a call of `logPacket`. -/
def Event.isLog : Event → Bool
  | Event.logPacket _ _ _ _ _ _ _ _ _ => true
  | _ => false

/-- A platform on which the socket of 10.0.0.1 port 1234 is only listed in the version-6
table, under the IPv4-mapped address, with uid 10001. -/
def ex_env_mapped : DecodeEnv :=
  { getUid := fun _ version addr port =>
      if version = 6 ∧ addr = [0, 0, 0, 0, 0, 0, 0, 0, 0, 0, 255, 255, 10, 0, 0, 1] ∧ port = 1234
      then 10001 else -1,
    logPacket_mid := 1, tcp := ex_tcp_env }

/-- The platform of `ex_tcp_env` when `send` succeeds and the `write` of the acknowledging
segment fails. -/
def ex_tcp_env_write_fails : TcpEnv := { ex_tcp_env with write_ack := -1 }

/-- The platform of `ex_tcp_env` when `send` fails. -/
def ex_tcp_env_send_fails : TcpEnv := { ex_tcp_env with send := -1 }

/-- The iteration `ex_sock_readable` five seconds later. -/
def ex_sock_readable_later : LoopEnv := { ex_sock_readable with now := 105 }

/-- A 40-byte SYN from 10.0.0.1 port 1235 to 10.0.0.2 port 80 with sequence number 5000. -/
def ex_syn_b : List Nat :=
  [0x45, 0, 0, 0x28, 0, 0, 0, 0, 0x40, 6, 0x66, 0xCE, 0x0A, 0, 0, 1, 0x0A, 0, 0, 2,
   4, 0xD3, 0, 0x50, 0, 0, 0x13, 0x88, 0, 0, 0, 0, 0x50, 2, 8, 0, 0, 0, 0, 0]

/-- A 44-byte SYN from 10.0.0.1 port 1234 to 10.0.0.2 port 80 whose IPv4 header has `ihl` 6 with
four option bytes 00 (end of option list), so that the check field is valid over the first
20 bytes as well as over all 24. -/
def ex_options_zero : List Nat :=
  [0x46, 0, 0, 0x2C, 0, 0, 0, 0, 0x40, 6, 0x65, 0xCA, 0x0A, 0, 0, 1, 0x0A, 0, 0, 2,
   0, 0, 0, 0,
   4, 0xD2, 0, 0x50, 0, 0, 3, 0xE8, 0, 0, 0, 0, 0x50, 2, 8, 0, 0, 0, 0, 0]

/-- The entry `handle_tcp` registers for `ex_syn_b` on the platform `ex_tcp_env`. -/
def ex_conn_b : connection :=
  { time := 100, remote_seq := 5000, local_seq := 123, saddr := 0x0100000A, source := 0xD304,
    daddr := 0x0200000A, dest := 0x5000, state := TCP_SYN_RECV, socket := 5, lport := 40000,
    sent := [] }

/-- The state after three calls of `handle_tcp` from the empty table: the SYN `ex_syn`, the
SYN `ex_syn_b` of another client port, and `ex_syn` once more. -/
def ex_three_syns : State :=
  handle_tcp ex_tcp_env 3
    (handle_tcp ex_tcp_env 3 (handle_tcp ex_tcp_env 3 ex_empty ex_syn 40) ex_syn_b 40) ex_syn 40

/-- What the first part of `decode` finds in `ex_options_zero`. -/
def ex_options_zero_info : IpInfo :=
  { version := 4, protocol := 6, saddr := [10, 0, 0, 1], daddr := [10, 0, 0, 2], flags := [],
    payload := 24 }

theorem toInt32_of_range (x : Int) (h0 : 0 ≤ x) (h1 : x < 2147483648) : toInt32 x = x := by
  unfold toInt32; omega

theorem get8_nil (i : Nat) : get8 [] i = 0 := by simp [get8]
theorem get8_cons_zero (a : Nat) (l : List Nat) : get8 (a :: l) 0 = a := by simp [get8]
theorem get8_cons_succ (a : Nat) (l : List Nat) (i : Nat) : get8 (a :: l) (i + 1) = get8 l i := by
  simp [get8]

/-- Without overflow the accumulator of `sumWords` holds the exact sum of the words. -/
theorem sumWords_eq (n : Nat) : ∀ (l : List Nat) (acc : Int), 0 ≤ acc →
    acc + (leWordSum (l.take n) : Int) < 2147483648 →
    sumWords l n acc = acc + (leWordSum (l.take n) : Int) := by
  induction n using Nat.strong_induction_on with
  | _ n ih =>
    intro l acc h0 h1
    match n, ih with
    | 0, _ => simp [sumWords, leWordSum]
    | 1, _ =>
      cases l with
      | nil => simp [sumWords, leWordSum, get8_nil, toInt32_of_range _ h0 (by simpa [leWordSum] using h1)]
      | cons a t =>
        simp only [List.take_succ_cons, List.take_zero, leWordSum] at h1 ⊢
        simp only [sumWords, get8_cons_zero]
        exact toInt32_of_range _ (by omega) h1
    | n + 2, ih =>
      match l with
      | [] =>
        have := ih n (by omega) [] acc h0 (by simpa [leWordSum] using h1)
        simp only [sumWords, List.drop_nil, get16, get8_nil, List.take_nil, leWordSum] at this ⊢
        simp only [Nat.mul_zero, Nat.add_zero, Nat.cast_zero, Int.add_zero]
        rw [toInt32_of_range _ h0 (by simpa [leWordSum] using h1)]
        simpa [leWordSum] using this
      | [a] =>
        simp only [List.take_succ_cons, List.take_nil, leWordSum] at h1 ⊢
        have h2 : toInt32 (acc + ((get16 [a] 0 : Nat) : Int)) = acc + (a : Int) := by
          simp only [get16, get8_cons_zero, get8_cons_succ, get8_nil]
          simp only [Nat.mul_zero, Nat.add_zero]
          exact toInt32_of_range _ (by omega) h1
        have := ih n (by omega) [] (acc + (a : Int)) (by omega) (by simpa [leWordSum] using h1)
        simp only [sumWords, h2]
        simpa [leWordSum] using this
      | a :: b :: t =>
        simp only [List.take_succ_cons, leWordSum] at h1 ⊢
        have h2 : toInt32 (acc + ((get16 (a :: b :: t) 0 : Nat) : Int)) = acc + ((a + 256 * b : Nat) : Int) := by
          simp only [get16, get8_cons_zero, get8_cons_succ]
          exact toInt32_of_range _ (by omega) (by push_cast at h1 ⊢; omega)
        have := ih n (by omega) t (acc + ((a + 256 * b : Nat) : Int)) (by omega) (by push_cast at h1 ⊢; omega)
        simp only [sumWords, h2, List.drop_succ_cons, List.drop_zero]
        rw [this]; push_cast; omega

/-- The value `checksum` computes from an exact word sum `s`. -/
theorem fold_eq (s : Nat) (h : s < 2147483648) :
    ((-(toInt32 (toInt32 ((s : Int) / 65536 + (s : Int) % 65536) +
        toInt32 ((s : Int) / 65536 + (s : Int) % 65536) / 65536)) - 1) % 65536).toNat
      = if s = 0 then 65535 else 65534 - (s - 1) % 65535 := by
  have key : s ≠ 0 → (s - 1) % 65535 = (s / 65536 + s % 65536 - 1) % 65535 := by
    intro hs
    have : s - 1 = 65535 * (s / 65536) + (s / 65536 + s % 65536 - 1) := by omega
    rw [this, Nat.mul_add_mod]
  obtain ⟨t, ht⟩ : ∃ t : Nat, t = s / 65536 + s % 65536 := ⟨_, rfl⟩
  have e1 : (s : Int) / 65536 + (s : Int) % 65536 = (t : Int) := by omega
  have e2 : toInt32 (t : Int) = (t : Int) := toInt32_of_range _ (by omega) (by omega)
  have e3 : toInt32 ((t : Int) + (t : Int) / 65536) = (t : Int) + (t : Int) / 65536 :=
    toInt32_of_range _ (by omega) (by omega)
  rw [e1, e2, e3]
  split
  · omega
  · rename_i hs
    rw [key hs, ← ht]
    have hb : t ≤ 98302 := by omega
    have hp : 0 < t := by omega
    clear key e1 e2 e3 ht h hs
    have hq : (t - 1) / 65535 = 0 ∨ (t - 1) / 65535 = 1 := by omega
    rcases hq with hq | hq <;> omega

theorem checksum_eq (l : List Nat) (n : Nat) (h : leWordSum (l.take n) < 2147483648) :
    checksum l n = foldNot (leWordSum (l.take n)) := by
  unfold checksum foldNot
  rw [sumWords_eq n l 0 (le_refl 0) (by simpa using h)]
  simp only [zero_add]
  exact fold_eq _ h

theorem IsBytes.tail2 {a b : Nat} {l : List Nat} (h : IsBytes (a :: b :: l)) :
    a < 256 ∧ b < 256 ∧ IsBytes l := by
  refine ⟨h a (by simp), h b (by simp), fun x hx => h x (by simp [hx])⟩

theorem leWordSum_le : ∀ (l : List Nat), IsBytes l → leWordSum l ≤ 65535 * ((l.length + 1) / 2)
  | [], _ => by simp [leWordSum]
  | [a], h => by
    have := h a (by simp)
    simp [leWordSum]; omega
  | a :: b :: t, h => by
    obtain ⟨ha, hb, ht⟩ := h.tail2
    have := leWordSum_le t ht
    simp only [leWordSum, List.length_cons]
    omega

theorem leWordSum_lt (l : List Nat) (h : IsBytes l) (hn : l.length ≤ 65535) :
    leWordSum l < 2147483648 := by
  have := leWordSum_le l h
  have : (l.length + 1) / 2 ≤ 32768 := by omega
  have := Nat.mul_le_mul_left 65535 this
  omega

theorem carryReduce_eq (x : Nat) : carryReduce x = if x = 0 then 0 else (x - 1) % 65535 + 1 := by
  induction x using Nat.strong_induction_on with
  | _ x ih =>
    rw [carryReduce]
    split
    · split <;> omega
    · rename_i hx
      rw [ih _ (by omega)]
      have : x - 1 = 65535 * (x / 65536) + (x / 65536 + x % 65536 - 1) := by omega
      rw [if_neg (by omega), if_neg (by omega), this, Nat.mul_add_mod]

/-- The little-endian word sum is 256 times the big-endian one modulo 65535, and both vanish
together. -/
theorem le_be_sum : ∀ (l : List Nat),
    leWordSum l % 65535 = (256 * beWordSum l) % 65535 ∧ (leWordSum l = 0 ↔ beWordSum l = 0)
  | [] => by simp [leWordSum, beWordSum]
  | [a] => by simp only [leWordSum, beWordSum]; omega
  | a :: b :: t => by
    obtain ⟨h1, h2⟩ := le_be_sum t
    simp only [leWordSum, beWordSum]
    omega

theorem IsBytes.take {l : List Nat} (h : IsBytes l) (n : Nat) : IsBytes (l.take n) :=
  fun x hx => h x (List.mem_of_mem_take hx)

theorem foldNot_eq_carryReduce (s : Nat) : foldNot s = 65535 - carryReduce s := by
  rw [carryReduce_eq]; unfold foldNot; split <;> omega

theorem divmod256 (x y : Nat) (hy : y < 256) :
    (x * 256 + y) % 256 = y ∧ (x * 256 + y) / 256 = x := by
  constructor <;> omega

/-- Byte-order independence of the end-around-carry sum. -/
theorem swap_reduce (L B : Nat) (h1 : L % 65535 = (256 * B) % 65535) (h2 : L = 0 ↔ B = 0) :
    foldNot L % 256 = (65535 - carryReduce B) / 256 ∧
    foldNot L / 256 = (65535 - carryReduce B) % 256 := by
  rw [carryReduce_eq]; unfold foldNot
  by_cases hL : L = 0
  · have hB : B = 0 := h2.mp hL
    subst hL; subst hB; simp
  · have hB : B ≠ 0 := fun h => hL (h2.mpr h)
    rw [if_neg hL, if_neg hB]
    obtain ⟨rL, hrL⟩ : ∃ r, r = (L - 1) % 65535 := ⟨_, rfl⟩
    obtain ⟨rB, hrB⟩ : ∃ r, r = (B - 1) % 65535 := ⟨_, rfl⟩
    have e1 : (rL + 1) % 65535 = L % 65535 := by omega
    have e2 : (256 * (rB + 1)) % 65535 = (256 * B) % 65535 := by omega
    have b1 : rL < 65535 := by omega
    have b2 : rB < 65535 := by omega
    rw [← hrL, ← hrB]
    have e3 : (rL + 1) % 65535 = (256 * (rB + 1)) % 65535 := by omega
    clear hrL hrB e1 e2 h1 h2 hL hB
    obtain ⟨hi, hhi⟩ : ∃ r, r = (rB + 1) / 256 := ⟨_, rfl⟩
    obtain ⟨lo, hlo⟩ : ∃ r, r = (rB + 1) % 256 := ⟨_, rfl⟩
    have e4 : 256 * (rB + 1) = 65535 * hi + (hi + 256 * lo) := by omega
    rw [e4, Nat.mul_add_mod] at e3
    have e5 : rL + 1 = hi + 256 * lo := by omega
    have e6 : rB + 1 = 256 * hi + lo := by omega
    have b3 : hi ≤ 255 := by omega
    have b4 : lo ≤ 255 := by omega
    have e7 : 65534 - rL = (255 - lo) * 256 + (255 - hi) := by omega
    have e8 : 65535 - (rB + 1) = (255 - hi) * 256 + (255 - lo) := by omega
    rw [e7, e8]
    have d1 := divmod256 (255 - lo) (255 - hi) (by omega)
    have d2 := divmod256 (255 - hi) (255 - lo) (by omega)
    rw [d1.1, d1.2, d2.1, d2.2]
    exact ⟨rfl, rfl⟩

/-- The value of `checksum` against the spec's wording of the Internet checksum. -/
theorem checksum_spec (b : List Nat) (hb : IsBytes b) (hn : b.length ≤ 65535) :
    [checksum b b.length % 256, checksum b b.length / 256]
        = [spec_ip_checksum b / 256, spec_ip_checksum b % 256] ∧
      checksum b b.length = 65535 - carryReduce (leWordSum b) ∧
      sumWords b b.length 0 = (leWordSum b : Int) ∧ leWordSum b < 2147483648 := by
  have hlt := leWordSum_lt b hb hn
  have hck : checksum b b.length = foldNot (leWordSum b) := by
    have := checksum_eq b b.length (by simpa using hlt)
    simpa using this
  have hs := sumWords_eq b.length b 0 (le_refl 0) (by simpa using hlt)
  obtain ⟨h1, h2⟩ := le_be_sum b
  obtain ⟨s1, s2⟩ := swap_reduce _ _ h1 h2
  refine ⟨?_, ?_, ?_, hlt⟩
  · rw [hck]; unfold spec_ip_checksum; rw [s1, s2]
  · rw [hck, foldNot_eq_carryReduce]
  · simpa using hs

/-- C4: for every byte sequence `b` of at most 65535 bytes, the two bytes of the value of
`checksum` as stored in memory (low byte first) are the big-endian encoding of the
Internet checksum in the spec's words (one's complement of the fully carry-reduced sum of
the big-endian words, an odd final byte being a high byte).  Its two folds give the fully
reduced sum, and the `int` accumulator holds the exact sum, which stays below 2^31. -/
theorem checksum_refines_spec (b : List Nat) (hb : IsBytes b) (hn : b.length ≤ 65535) :
    [checksum b b.length % 256, checksum b b.length / 256]
        = [spec_ip_checksum b / 256, spec_ip_checksum b % 256] ∧
      checksum b b.length = 65535 - carryReduce (leWordSum b) ∧
      sumWords b b.length 0 = (leWordSum b : Int) ∧ leWordSum b < 2147483648 :=
  checksum_spec b hb hn

theorem checksum_refines_spec_witness :
    IsBytes [0x45, 0x00, 0x01] ∧ [0x45, 0x00, 0x01].length ≤ 65535 ∧
    ([checksum [0x45, 0x00, 0x01] 3 % 256, checksum [0x45, 0x00, 0x01] 3 / 256]
        = [spec_ip_checksum [0x45, 0x00, 0x01] / 256, spec_ip_checksum [0x45, 0x00, 0x01] % 256]) :=
  ⟨by decide, by decide, (checksum_refines_spec [0x45, 0x00, 0x01] (by decide) (by decide)).1⟩

theorem take_eq_readBytes (l : List Nat) (n : Nat) (h : n ≤ l.length) :
    l.take n = readBytes l 0 n := by
  apply List.ext_getElem
  · simp [readBytes, h]
  · intro i h1 h2
    simp only [readBytes, List.length_map, List.length_range] at h2
    simp [readBytes, get8, List.getD_eq_getElem?_getD, List.getElem?_eq_getElem (show i < l.length by omega)]

theorem range20 : List.range 20 = [0,1,2,3,4,5,6,7,8,9,10,11,12,13,14,15,16,17,18,19] := by decide

theorem header_eq (h : List Nat) (hlen : 20 ≤ h.length) :
    h.take 20 = [get8 h 0, get8 h 1, get8 h 2, get8 h 3, get8 h 4, get8 h 5, get8 h 6, get8 h 7,
      get8 h 8, get8 h 9, get8 h 10, get8 h 11, get8 h 12, get8 h 13, get8 h 14, get8 h 15,
      get8 h 16, get8 h 17, get8 h 18, get8 h 19] := by
  rw [take_eq_readBytes h 20 hlen, readBytes, range20]
  simp

theorem get8_lt (l : List Nat) (hl : IsBytes l) (i : Nat) : get8 l i < 256 := by
  unfold get8
  rw [List.getD_eq_getElem?_getD]
  cases h : l[i]? with
  | none => simp
  | some v => simp; exact hl v (List.getElem?_mem h)

/-- C3, as stated, fails: the header `ex_hdr` (version nibble 4) checksums to 0 although
its check field, FFFF, is not the value `checksum` returns for it with the field zeroed,
which is 0. -/
theorem checksum_zero_iff_counterexample : ex_hdr.length = 20 ∧ IsBytes ex_hdr ∧ get8 ex_hdr 0 / 16 = 4 ∧
    ¬(checksum ex_hdr 20 = 0 ↔ get16 ex_hdr 10 = checksum (put16 ex_hdr 10 0) 20) := by
  decide

theorem foldNot_zero_iff (s0 c : Nat) (hc : c < 65536) :
    foldNot (s0 + c) = 0 ↔ (c = foldNot s0 ∨ (c = 65535 ∧ foldNot s0 = 0)) := by
  unfold foldNot
  by_cases h0 : s0 = 0
  · subst h0
    by_cases hc0 : c = 0
    · subst hc0; simp
    · simp only [zero_add, if_neg hc0, if_true]
      omega
  · rw [if_neg (show s0 + c ≠ 0 by omega), if_neg h0]
    obtain ⟨k, hk⟩ : ∃ k, k = (s0 - 1) / 65535 := ⟨_, rfl⟩
    obtain ⟨r, hr⟩ : ∃ r, r = (s0 - 1) % 65535 := ⟨_, rfl⟩
    have e0 : s0 = 65535 * k + r + 1 := by omega
    have hrb : r < 65535 := by omega
    rw [← hr]
    have e1 : s0 + c - 1 = 65535 * k + (r + c) := by omega
    rw [e1, Nat.mul_add_mod]
    clear e1 e0 hk hr h0
    have : (r + c) / 65535 = 0 ∨ (r + c) / 65535 = 1 ∨ (r + c) / 65535 = 2 := by omega
    rcases this with h | h | h <;> omega

/-- C3 amended: for every 20-byte header, `checksum` over it returns 0 if and only if its
check field equals the value `checksum` returns for the header with the field zeroed, or
the field is FFFF and that value is 0 (the two encodings of zero in one's complement). -/
theorem checksum_zero_iff (h : List Nat) (hlen : h.length = 20) (hb : IsBytes h) :
    checksum h 20 = 0 ↔
      (get16 h 10 = checksum (put16 h 10 0) 20 ∨
        (get16 h 10 = 65535 ∧ checksum (put16 h 10 0) 20 = 0)) := by
  have hh := header_eq h (by omega)
  rw [List.take_of_length_le (by omega)] at hh
  have b := get8_lt h hb
  have b0 := b 0; have b1 := b 1; have b2 := b 2; have b3 := b 3; have b4 := b 4
  have b5 := b 5; have b6 := b 6; have b7 := b 7; have b8 := b 8; have b9 := b 9
  have b10 := b 10; have b11 := b 11; have b12 := b 12; have b13 := b 13; have b14 := b 14
  have b15 := b 15; have b16 := b 16; have b17 := b 17; have b18 := b 18; have b19 := b 19
  clear b
  generalize get8 h 0 = a0, get8 h 1 = a1, get8 h 2 = a2, get8 h 3 = a3, get8 h 4 = a4,
    get8 h 5 = a5, get8 h 6 = a6, get8 h 7 = a7, get8 h 8 = a8, get8 h 9 = a9,
    get8 h 10 = a10, get8 h 11 = a11, get8 h 12 = a12, get8 h 13 = a13, get8 h 14 = a14,
    get8 h 15 = a15, get8 h 16 = a16, get8 h 17 = a17, get8 h 18 = a18, get8 h 19 = a19
    at hh b0 b1 b2 b3 b4 b5 b6 b7 b8 b9 b10 b11 b12 b13 b14 b15 b16 b17 b18 b19
  subst hh
  have e1 : checksum [a0, a1, a2, a3, a4, a5, a6, a7, a8, a9, a10, a11, a12, a13, a14, a15,
      a16, a17, a18, a19] 20 = foldNot ((a0 + 256 * a1 + (a2 + 256 * a3) + (a4 + 256 * a5) +
        (a6 + 256 * a7) + (a8 + 256 * a9) + (a12 + 256 * a13) + (a14 + 256 * a15) +
        (a16 + 256 * a17) + (a18 + 256 * a19)) + (a10 + 256 * a11)) := by
    rw [checksum_eq _ _ (by simp only [List.take, leWordSum]; omega)]
    simp only [List.take, leWordSum]
    exact congrArg foldNot (by omega)
  have e2 : put16 [a0, a1, a2, a3, a4, a5, a6, a7, a8, a9, a10, a11, a12, a13, a14, a15,
      a16, a17, a18, a19] 10 0 = [a0, a1, a2, a3, a4, a5, a6, a7, a8, a9, 0, 0, a12, a13,
      a14, a15, a16, a17, a18, a19] := by
    simp only [put16, put8, Nat.zero_mod, Nat.zero_div]; rfl
  have e3 : checksum [a0, a1, a2, a3, a4, a5, a6, a7, a8, a9, 0, 0, a12, a13, a14, a15,
      a16, a17, a18, a19] 20 = foldNot (a0 + 256 * a1 + (a2 + 256 * a3) + (a4 + 256 * a5) +
        (a6 + 256 * a7) + (a8 + 256 * a9) + (a12 + 256 * a13) + (a14 + 256 * a15) +
        (a16 + 256 * a17) + (a18 + 256 * a19)) := by
    rw [checksum_eq _ _ (by simp only [List.take, leWordSum]; omega)]
    simp only [List.take, leWordSum]
    exact congrArg foldNot (by omega)
  have e4 : get16 [a0, a1, a2, a3, a4, a5, a6, a7, a8, a9, a10, a11, a12, a13, a14, a15,
      a16, a17, a18, a19] 10 = a10 + 256 * a11 := rfl
  rw [e1, e2, e3, e4]
  exact foldNot_zero_iff _ _ (by omega)


theorem checksum_zero_iff_witness :
    ex_hdr.length = 20 ∧ IsBytes ex_hdr ∧
    (checksum ex_hdr 20 = 0 ↔
      (get16 ex_hdr 10 = checksum (put16 ex_hdr 10 0) 20 ∨
        (get16 ex_hdr 10 = 65535 ∧ checksum (put16 ex_hdr 10 0) 20 = 0))) :=
  ⟨by decide, by decide, checksum_zero_iff ex_hdr (by decide) (by decide)⟩

theorem get8_put8 (l : List Nat) (i j v : Nat) :
    get8 (put8 l i v) j = if i = j ∧ i < l.length then v % 256 else get8 l j := by
  unfold get8 put8
  simp only [List.getD_eq_getElem?_getD, List.getElem?_set]
  by_cases h : i = j
  · subst h
    by_cases h2 : i < l.length
    · simp [h2]
    · simp [h2, List.getElem?_eq_none (Nat.le_of_not_lt h2)]
  · simp [h]

theorem length_put8 (l : List Nat) (i v : Nat) : (put8 l i v).length = l.length := by
  simp [put8]

theorem xor_255 (b : Nat) (h : b < 256) : b ^^^ 255 = 255 - b := by
  interval_cases b <;> rfl

theorem IsBytes.put8 {l : List Nat} (h : IsBytes l) (i v : Nat) : IsBytes (put8 l i v) := by
  intro b hb
  rcases List.mem_or_eq_of_mem_set hb with h1 | h1
  · exact h b h1
  · subst h1; exact Nat.mod_lt _ (by norm_num)

/-- The value of `checksum` over the first 20 bytes in terms of the ten words. -/
theorem checksum_header (h : List Nat) (hlen : 20 ≤ h.length) (hb : IsBytes h) :
    checksum h 20 = foldNot (get16 h 0 + get16 h 2 + get16 h 4 + get16 h 6 + get16 h 8 +
      get16 h 12 + get16 h 14 + get16 h 16 + get16 h 18 + get16 h 10) := by
  have hh := header_eq h hlen
  have b := get8_lt h hb
  have b0 := b 0; have b1 := b 1; have b2 := b 2; have b3 := b 3; have b4 := b 4
  have b5 := b 5; have b6 := b 6; have b7 := b 7; have b8 := b 8; have b9 := b 9
  have b10 := b 10; have b11 := b 11; have b12 := b 12; have b13 := b 13; have b14 := b 14
  have b15 := b 15; have b16 := b 16; have b17 := b 17; have b18 := b 18; have b19 := b 19
  rw [checksum_eq _ _ (by rw [hh]; simp only [leWordSum]; omega), hh]
  simp only [leWordSum, get16, Nat.reduceAdd]
  exact congrArg foldNot (by omega)

theorem foldNot_xor (s0 c : Nat) (hc : c < 65536) (h : foldNot (s0 + c) = 0) (h1 : c ≠ 0)
    (h2 : c ≠ 65535) : foldNot (s0 + (65535 - c)) ≠ 0 := by
  unfold foldNot at h ⊢
  rw [if_neg (show s0 + c ≠ 0 by omega)] at h
  rw [if_neg (show s0 + (65535 - c) ≠ 0 by omega)]
  obtain ⟨k, hk⟩ : ∃ k, k = (s0 + c - 1) / 65535 + 1 := ⟨_, rfl⟩
  have e0 : s0 + c = 65535 * k := by omega
  have hk1 : 1 ≤ k := by omega
  clear hk h
  by_cases hlt : c < 32768
  · have e1 : s0 + (65535 - c) - 1 = 65535 * k + (65534 - 2 * c) := by omega
    rw [e1, Nat.mul_add_mod, Nat.mod_eq_of_lt (show 65534 - 2 * c < 65535 by omega)]
    clear e1 e0
    omega
  · obtain ⟨j, hj⟩ : ∃ j, k = j + 1 := ⟨k - 1, by omega⟩
    have e1 : s0 + (65535 - c) - 1 = 65535 * j + (131069 - 2 * c) := by omega
    rw [e1, Nat.mul_add_mod, Nat.mod_eq_of_lt (show 131069 - 2 * c < 65535 by omega)]
    clear e1 e0
    omega

/-- C5: a buffer whose version nibble is 4 and whose `tot_len` field, read big-endian,
differs from the length handed to `decode` is dropped: `decode` returns from its first
part, before `handle_tcp` and the callback, with the table and the trace of effects (tun
writes, socket sends) unchanged. -/
theorem decode_length_mismatch (env : DecodeEnv) (tun : Int) (st : State) (buffer : List Nat)
    (length : Nat) (hv : get8 buffer 0 / 16 = 4) (hl : ntohs (get16 buffer 2) ≠ length) :
    decode_ip buffer length = none ∧ decode env tun st buffer length = st := by
  have h : decode_ip buffer length = none := by
    unfold decode_ip
    simp only [hv, if_true]
    rw [if_pos hl]
  exact ⟨h, by unfold decode; rw [h]⟩

theorem decode_ip_v4_some (p : List Nat) (length : Nat) (hv : get8 p 0 / 16 = 4) :
    decode_ip p length ≠ none ↔ (ntohs (get16 p 2) = length ∧ checksum p 20 = 0) := by
  unfold decode_ip
  simp only [hv, if_true]
  by_cases h1 : ntohs (get16 p 2) = length
  · by_cases h2 : checksum p 20 = 0
    · simp [h1, h2]
    · simp [h1, h2]
  · simp [h1]

theorem get8_xor_check (p : List Nat) (hlen : 20 ≤ p.length) (i : Nat) :
    get8 (xor_check p) i =
      if i = 10 then (get8 p 10 ^^^ 255) % 256
      else if i = 11 then (get8 p 11 ^^^ 255) % 256 else get8 p i := by
  unfold xor_check
  rw [get8_put8, get8_put8, length_put8]
  by_cases h10 : i = 10
  · subst h10; simp; omega
  · by_cases h11 : i = 11
    · subst h11; simp; omega
    · rw [if_neg (by omega), if_neg (by omega), if_neg h10, if_neg h11]

/-- C6 amended: for every IPv4 datagram `p` that `decode` accepts and whose header check
field is neither 0000 nor FFFF, the datagram with the check field XOR-ed with FFFF is
dropped: `decode` returns from its first part, before `handle_tcp`, with the table and the
trace of effects unchanged. -/
theorem xor_check_dropped (env : DecodeEnv) (tun : Int) (st : State) (p : List Nat)
    (length : Nat) (hlen : 20 ≤ p.length) (hb : IsBytes p) (hv : get8 p 0 / 16 = 4)
    (hacc : decode_ip p length ≠ none) (h0 : get16 p 10 ≠ 0) (h1 : get16 p 10 ≠ 65535) :
    decode_ip (xor_check p) length = none ∧ decode env tun st (xor_check p) length = st := by
  obtain ⟨_, hck⟩ := (decode_ip_v4_some p length hv).mp hacc
  have hq : IsBytes (xor_check p) := (hb.put8 _ _).put8 _ _
  have hql : 20 ≤ (xor_check p).length := by simp [xor_check, length_put8]; exact hlen
  have b10 := get8_lt p hb 10
  have b11 := get8_lt p hb 11
  have g := get8_xor_check p hlen
  have hv2 : get8 (xor_check p) 0 / 16 = 4 := by rw [g]; simpa using hv
  rw [checksum_header p hlen hb] at hck
  have hck2 : checksum (xor_check p) 20 ≠ 0 := by
    rw [checksum_header _ hql hq]
    simp only [get16, g, Nat.reduceAdd] at h0 h1 hck ⊢
    simp only [xor_255 _ b10, xor_255 _ b11]
    norm_num
    have e : (255 - get8 p 10) % 256 + 256 * ((255 - get8 p 11) % 256)
        = 65535 - (get8 p 10 + 256 * get8 p 11) := by omega
    rw [e]
    exact foldNot_xor _ _ (by omega) hck h0 h1
  have h : decode_ip (xor_check p) length = none := by
    by_contra hne
    exact hck2 ((decode_ip_v4_some _ length hv2).mp hne).2
  exact ⟨h, by unfold decode; rw [h]⟩


theorem decode_length_mismatch_witness :
    get8 ex_syn 0 / 16 = 4 ∧ ntohs (get16 ex_syn 2) ≠ 41 ∧
    decode_ip ex_syn 41 = none ∧ decode ex_env 3 ex_empty ex_syn 41 = ex_empty :=
  ⟨by decide, by decide, decode_length_mismatch ex_env 3 ex_empty ex_syn 41 (by decide) (by decide)⟩

set_option maxRecDepth 100000 in
/-- C6, as stated, fails: `ex_syn_zero` is a well-formed SYN that `decode` accepts (version
4, `tot_len` 40 equal to the length, header checksum verifying) with check field 0000;
with the field XOR-ed to FFFF the header still checksums to 0, `decode` does not drop it,
`handle_tcp` runs and registers a connection in the empty table. -/
theorem xor_check_dropped_counterexample :
    get8 ex_syn_zero 0 / 16 = 4 ∧ ntohs (get16 ex_syn_zero 2) = 40 ∧
    checksum ex_syn_zero 20 = 0 ∧ decode_ip ex_syn_zero 40 ≠ none ∧
    checksum (xor_check ex_syn_zero) 20 = 0 ∧ decode_ip (xor_check ex_syn_zero) 40 ≠ none ∧
    (decode ex_env 3 ex_empty (xor_check ex_syn_zero) 40).connection.length = 1 := by
  decide

set_option maxRecDepth 100000 in
theorem xor_check_dropped_witness :
    20 ≤ ex_syn.length ∧ IsBytes ex_syn ∧ get8 ex_syn 0 / 16 = 4 ∧
    decode_ip ex_syn 40 ≠ none ∧ get16 ex_syn 10 ≠ 0 ∧ get16 ex_syn 10 ≠ 65535 ∧
    decode_ip (xor_check ex_syn) 40 = none ∧
    decode ex_env 3 ex_empty (xor_check ex_syn) 40 = ex_empty :=
  ⟨by decide, by decide, by decide, by decide, by decide, by decide,
    xor_check_dropped ex_env 3 ex_empty ex_syn 40 (by decide) (by decide) (by decide)
      (by decide) (by decide) (by decide)⟩

/-! ## The connection table -/

theorem search_append (sa so : Nat) : ∀ l : List connection,
    (search sa so l).1 ++ (search sa so l).2 = l
  | [] => rfl
  | c :: rest => by
    unfold search
    split
    · rfl
    · simp [search_append sa so rest]

theorem search_fst (sa so : Nat) : ∀ l : List connection,
    ∀ c ∈ (search sa so l).1, ¬(c.saddr = sa ∧ c.source = so)
  | [], c, hc => by simp [search] at hc
  | d :: rest, c, hc => by
    unfold search at hc
    split at hc
    · simp at hc
    · rename_i hd
      simp only [List.mem_cons] at hc
      rcases hc with rfl | hc
      · exact hd
      · exact search_fst sa so rest c hc

theorem search_snd (sa so : Nat) : ∀ (l : List connection) (c : connection)
    (rest : List connection), (search sa so l).2 = c :: rest → c.saddr = sa ∧ c.source = so
  | [], c, rest, h => by simp [search] at h
  | d :: l, c, rest, h => by
    unfold search at h
    split at h
    · rename_i hd
      simp only [List.cons.injEq] at h
      rw [← h.1]; exact hd
    · exact search_snd sa so l c rest h

theorem search_none (sa so : Nat) : ∀ l : List connection,
    (∀ c ∈ l, ¬(c.saddr = sa ∧ c.source = so)) → search sa so l = (l, [])
  | [], _ => rfl
  | d :: l, h => by
    unfold search
    rw [if_neg (h d (by simp))]
    rw [search_none sa so l (fun c hc => h c (by simp [hc]))]

theorem search_found (sa so : Nat) (cur : connection) (rest : List connection) :
    ∀ pre : List connection, (∀ c ∈ pre, ¬(c.saddr = sa ∧ c.source = so)) →
    (cur.saddr = sa ∧ cur.source = so) → search sa so (pre ++ cur :: rest) = (pre, cur :: rest)
  | [], _, hc => by simp [search, hc]
  | d :: pre, h, hc => by
    simp only [List.cons_append]
    unfold search
    rw [if_neg (h d (by simp))]
    rw [search_found sa so cur rest pre (fun c hc => h c (by simp [hc])) hc]

/-- The key of an entry. -/
theorem handle_ack_key (env : TcpEnv) (tun : Int) (buffer : List Nat) (tcphdr : Nat)
    (data : Option (List Nat)) (cur : connection) :
    (handle_ack env tun buffer tcphdr data cur).1.saddr = cur.saddr ∧
    (handle_ack env tun buffer tcphdr data cur).1.source = cur.source := by
  unfold handle_ack
  cases data <;> (simp only []; repeat' split) <;> simp

theorem handle_fin_key (env : TcpEnv) (tun : Int) (cur : connection) :
    (handle_fin env tun cur).1.saddr = cur.saddr ∧
    (handle_fin env tun cur).1.source = cur.source := by
  unfold handle_fin
  simp only []; repeat' split
  all_goals simp

theorem handle_existing_key (env : TcpEnv) (tun : Int) (buffer : List Nat) (tcphdr : Nat)
    (data : Option (List Nat)) (cur : connection) :
    (handle_existing env tun buffer tcphdr data cur).1.saddr = cur.saddr ∧
    (handle_existing env tun buffer tcphdr data cur).1.source = cur.source := by
  unfold handle_existing
  have h1 := handle_ack_key env tun buffer tcphdr data cur
  have h2 := handle_fin_key env tun (handle_ack env tun buffer tcphdr data cur).1
  have h3 := handle_fin_key env tun cur
  simp only []
  repeat' split
  all_goals simp_all

theorem check_socket_key (env : SockEnv) (tun : Int) (rfds wfds efds : List Int)
    (cur : connection) :
    (check_socket env tun rfds wfds efds cur).1.saddr = cur.saddr ∧
    (check_socket env tun rfds wfds efds cur).1.source = cur.source := by
  unfold check_socket
  simp only []; repeat' split
  all_goals simp

theorem uniqueKeys_iff (l : List connection) :
    UniqueKeys l ↔ (l.map connection.key).Nodup := by
  unfold UniqueKeys List.Nodup
  rw [List.pairwise_map]
  simp only [connection.key, ne_eq, Prod.mk.injEq]

theorem handle_existing_key' (env : TcpEnv) (tun : Int) (buffer : List Nat) (tcphdr : Nat)
    (data : Option (List Nat)) (cur : connection) :
    (handle_existing env tun buffer tcphdr data cur).1.key = cur.key := by
  have h := handle_existing_key env tun buffer tcphdr data cur
  simp [connection.key, h.1, h.2]

theorem handle_tcp_keys (env : TcpEnv) (tun : Int) (st : State) (buffer : List Nat)
    (length : Nat) :
    (handle_tcp env tun st buffer length).connection.map connection.key
        = st.connection.map connection.key ∨
      ∃ c, (handle_tcp env tun st buffer length).connection = st.connection ++ [c] ∧
        c.key ∉ st.connection.map connection.key := by
  unfold handle_tcp
  simp only []
  split
  · exact Or.inl rfl
  · generalize hf : search (get32 buffer 12) (get16 buffer (20 + _)) st.connection = found
    have happ := search_append (get32 buffer 12) (get16 buffer (tcp_offset buffer)) st.connection
    have hfst := search_fst (get32 buffer 12) (get16 buffer (tcp_offset buffer)) st.connection
    have hsnd := search_snd (get32 buffer 12) (get16 buffer (tcp_offset buffer)) st.connection
    unfold tcp_offset at happ hfst hsnd
    rw [hf] at happ hfst hsnd
    split
    · rename_i h2
      rw [h2, List.append_nil] at happ
      split
      · right
        refine ⟨_, by rw [happ], ?_⟩
        intro hmem
        rw [List.mem_map] at hmem
        obtain ⟨c, hc, hk⟩ := hmem
        rw [← happ] at hc
        apply hfst c hc
        simp only [connection.key, new_syn, Prod.mk.injEq] at hk
        exact hk
      · exact Or.inl rfl
    · rename_i cur rest h2
      left
      rw [h2] at happ
      rw [← happ]
      simp [handle_existing_key']

theorem uk_tcp (env : TcpEnv) (tun : Int) (st : State) (buffer : List Nat) (length : Nat)
    (h : UniqueKeys st.connection) : UniqueKeys (handle_tcp env tun st buffer length).connection := by
  rw [uniqueKeys_iff] at h ⊢
  rcases handle_tcp_keys env tun st buffer length with e | ⟨c, e, hc⟩
  · rw [e]; exact h
  · rw [e, List.map_append, List.map_singleton]
    exact List.Nodup.append h (List.nodup_singleton _) (by
      intro x hx hx2
      simp only [List.mem_singleton] at hx2
      subst hx2; exact hc hx)

theorem check_sockets_keys (env : Nat → SockEnv) (tun : Int) (rfds wfds efds : List Int) :
    ∀ (l : List connection) (i : Nat),
      (check_sockets env tun rfds wfds efds i l).1.map connection.key = l.map connection.key
  | [], _ => rfl
  | c :: l, i => by
    unfold check_sockets
    have h := check_socket_key (env i) tun rfds wfds efds c
    simp only [List.map_cons, check_sockets_keys env tun rfds wfds efds l (i + 1)]
    simp [connection.key, h.1, h.2]

theorem uk_sockets (env : Nat → SockEnv) (tun : Int) (rfds wfds efds : List Int)
    (l : List connection) (i : Nat) (h : UniqueKeys l) :
    UniqueKeys (check_sockets env tun rfds wfds efds i l).1 := by
  rw [uniqueKeys_iff] at h ⊢
  rw [check_sockets_keys]; exact h

theorem sweep_sublist (now : Int) : ∀ (l : List connection) (fds : FdSets),
    (sweep now l fds).1.Sublist l
  | [], _ => by simp [sweep]
  | c :: l, fds => by
    unfold sweep
    split
    · exact (sweep_sublist now l fds).cons c
    · exact (sweep_sublist now l _).cons₂ c

theorem uk_sweep (now : Int) (l : List connection) (fds : FdSets) (h : UniqueKeys l) :
    UniqueKeys (sweep now l fds).1 :=
  List.Pairwise.sublist (sweep_sublist now l fds) h

theorem decode_connection (env : DecodeEnv) (tun : Int) (st : State) (buffer : List Nat)
    (length : Nat) :
    (decode env tun st buffer length).connection = st.connection ∨
    (decode env tun st buffer length).connection
      = (handle_tcp env.tcp tun st buffer length).connection := by
  unfold decode
  split
  · exact Or.inl rfl
  · simp only []
    repeat' split
    all_goals simp

theorem uk_decode (env : DecodeEnv) (tun : Int) (st : State) (buffer : List Nat)
    (length : Nat) (h : UniqueKeys st.connection) :
    UniqueKeys (decode env tun st buffer length).connection := by
  rcases decode_connection env tun st buffer length with e | e
  · rw [e]; exact h
  · rw [e]; exact uk_tcp _ _ _ _ _ h

theorem uk_ready (env : LoopEnv) (tun : Int) (rfds wfds efds : List Int) (st : State)
    (h : UniqueKeys st.connection) :
    UniqueKeys (handle_ready env tun rfds wfds efds st).state.connection := by
  unfold handle_ready
  simp only []
  repeat' split
  all_goals first
    | exact h
    | exact uk_sockets _ _ _ _ _ _ _ (uk_decode _ _ _ _ _ h)
    | exact uk_sockets _ _ _ _ _ _ _ h

theorem uk_iteration (env : LoopEnv) (tun : Int) (st : State) (h : UniqueKeys st.connection) :
    UniqueKeys (handle_events_iteration env tun st).state.connection := by
  unfold handle_events_iteration
  simp only []
  have hs := uk_sweep env.now st.connection
    { rfds := [tun], wfds := [], efds := [tun], max := tun } h
  repeat' split
  all_goals first
    | exact hs
    | exact uk_ready _ _ _ _ _ _ hs

/-- C7: key uniqueness is an invariant of the reachable tables: starting from the empty
table, after any sequence of segments processed by `handle_tcp`, runs of the socket checks
of `handle_events`, sweeps and whole loop iterations, no two entries have the same
`(saddr, source)`. -/
theorem unique_keys_reachable (conns : List connection) (h : Reachable conns) :
    UniqueKeys conns := by
  induction h with
  | init => exact List.Pairwise.nil
  | tcp_step env tun st buffer length _ ih => exact uk_tcp env tun st buffer length ih
  | events_step env tun rfds wfds efds conns _ ih => exact uk_sockets env tun rfds wfds efds conns 0 ih
  | sweep_step now fds conns _ ih => exact uk_sweep now conns fds ih
  | iteration env tun st _ ih => exact uk_iteration env tun st ih


/-! ## The bytes of the synthesised segments -/

theorem rep20 : List.replicate 20 0 = [0,0,0,0,0,0,0,0,0,0,0,0,0,0,0,0,0,0,0,0] := by decide

theorem bytes_of_word32 (a b c d : Nat) :
    (a % 256 + 256 * (b % 256) + 65536 * (c % 256 + 256 * (d % 256))) % 256 = a % 256 ∧
    (a % 256 + 256 * (b % 256) + 65536 * (c % 256 + 256 * (d % 256))) / 256 % 256 = b % 256 ∧
    (a % 256 + 256 * (b % 256) + 65536 * (c % 256 + 256 * (d % 256))) / 65536 % 256 = c % 256 ∧
    (a % 256 + 256 * (b % 256) + 65536 * (c % 256 + 256 * (d % 256))) / 65536 / 256 % 256
      = d % 256 := by
  refine ⟨?_, ?_, ?_, ?_⟩ <;> omega

set_option maxRecDepth 4000 in
theorem ip_stage (len : Nat) (cur : connection) (rest : List Nat) :
    put32 (put32 (put8 (put8 (put16 (putLo4 (putHi4 (List.replicate 20 0 ++ rest) 0 4) 0 (20 / 4))
      2 (htons len)) 8 TTL) 9 IPPROTO_TCP) 12 cur.daddr) 16 cur.saddr
      = ip_header_bytes len cur 0 ++ rest := by
  rw [rep20]
  simp only [put32, put16, put8, putLo4, putHi4, get8, ip_header_bytes, List.cons_append,
    List.nil_append, List.set_cons_succ, List.set_cons_zero, List.getD_cons_zero, Nat.reduceAdd,
    Nat.reduceMod, Nat.reduceDiv, Nat.reduceMul, Nat.zero_mod, Nat.zero_div]
  rfl

set_option maxRecDepth 4000 in
theorem ip_check_stage (len : Nat) (cur : connection) (rest : List Nat) (c : Nat) :
    put16 (ip_header_bytes len cur 0 ++ rest) 10 c = ip_header_bytes len cur c ++ rest := by
  simp only [put16, put8, ip_header_bytes, List.cons_append,
    List.nil_append, List.set_cons_succ, List.set_cons_zero, Nat.reduceAdd,
    Nat.reduceMod, Nat.reduceDiv, Nat.zero_mod, Nat.zero_div]

set_option maxRecDepth 4000 in
theorem tcp_stage_ack (len : Nat) (cur : connection) (rest : List Nat) (c ack fin : Nat) :
    put16 (putBit (putBit (putHi4 (put32 (put32 (put16 (put16
      (ip_header_bytes len cur c ++ (List.replicate 20 0 ++ rest)) 20 cur.dest) 22 cur.source)
      24 (htonl cur.local_seq)) 28 (htonl ack)) 32 (20 / 4)) 33 4 1) 33 0 fin) 34 (htons 2048)
      = ip_header_bytes len cur c ++
        (tcp_header_bytes cur (htonl cur.local_seq) (htonl ack) (16 + fin % 2) 0 ++ rest) := by
  rw [rep20]
  simp only [put32, put16, put8, putLo4, putHi4, putBit, getBit, get8, ip_header_bytes,
    tcp_header_bytes, htons, List.cons_append,
    List.nil_append, List.set_cons_succ, List.set_cons_zero, List.getD_cons_zero,
    List.getD_cons_succ, Nat.reduceAdd, Nat.reducePow, Nat.reduceSub,
    Nat.reduceMod, Nat.reduceDiv, Nat.reduceMul, Nat.zero_mod, Nat.zero_div]
  have e : (16 - 0 + fin % 2 * 1) % 256 = 16 + fin % 2 := by omega
  simp only [e, Nat.zero_mul, Nat.one_mul, Nat.sub_zero, Nat.zero_add]

set_option maxRecDepth 4000 in
theorem tcp_stage_syn (len : Nat) (cur : connection) (rest : List Nat) (c ack : Nat) :
    put16 (putBit (putBit (putHi4 (put32 (put32 (put16 (put16
      (ip_header_bytes len cur c ++ (List.replicate 20 0 ++ rest)) 20 cur.dest) 22 cur.source)
      24 (htonl cur.local_seq)) 28 (htonl ack)) 32 (20 / 4)) 33 1 1) 33 4 1) 34 (htons 2048)
      = ip_header_bytes len cur c ++
        (tcp_header_bytes cur (htonl cur.local_seq) (htonl ack) 18 0 ++ rest) := by
  rw [rep20]
  simp only [put32, put16, put8, putLo4, putHi4, putBit, getBit, get8, ip_header_bytes,
    tcp_header_bytes, htons, List.cons_append,
    List.nil_append, List.set_cons_succ, List.set_cons_zero, List.getD_cons_zero,
    List.getD_cons_succ, Nat.reduceAdd, Nat.reducePow, Nat.reduceSub,
    Nat.reduceMod, Nat.reduceDiv, Nat.reduceMul, Nat.zero_mod, Nat.zero_div, Nat.zero_mul,
    Nat.one_mul, Nat.sub_zero, Nat.zero_add]

set_option maxRecDepth 4000 in
theorem tcp_check_stage (len : Nat) (cur : connection) (rest : List Nat)
    (c seq ack flags c2 : Nat) :
    (put16 (ip_header_bytes len cur c ++ (tcp_header_bytes cur seq ack flags 0 ++ rest)) 36 c2)
      = ip_header_bytes len cur c ++ (tcp_header_bytes cur seq ack flags c2 ++ rest) := by
  simp only [put16, put8, ip_header_bytes, tcp_header_bytes, List.cons_append,
    List.nil_append, List.set_cons_succ, List.set_cons_zero, Nat.reduceAdd,
    Nat.reduceMod, Nat.reduceDiv, Nat.zero_mod, Nat.zero_div]


theorem memcpy_append (P Z X R : List Nat) (k m : Nat) (hP : P.length = k) (hZ : Z.length = m)
    (hX : X.length = m) : memcpy (P ++ (Z ++ R)) k X m = P ++ (X ++ R) := by
  subst hP; subst hZ
  unfold memcpy
  rw [List.take_left, List.take_of_length_le (le_of_eq hX), ← List.append_assoc P Z R,
    ← List.length_append, List.drop_left, List.append_assoc]

theorem memcpy_tail (A D : List Nat) (k : Nat) (hA : A.length = k) :
    (if D.length ≠ 0 then memcpy (A ++ List.replicate D.length 0) k D D.length
      else A ++ List.replicate D.length 0) = A ++ D := by
  by_cases h : D.length = 0
  · have : D = [] := List.length_eq_zero.mp h
    subst this; simp
  · rw [if_pos h]
    have := memcpy_append A (List.replicate D.length 0) D [] k D.length hA (by simp) rfl
    simpa using this

theorem readBytes_eq (l : List Nat) (off n : Nat) (h : off + n ≤ l.length) :
    readBytes l off n = (l.drop off).take n := by
  apply List.ext_getElem
  · simp [readBytes]; omega
  · intro i h1 h2
    simp only [readBytes, List.length_map, List.length_range] at h1
    simp [readBytes, get8, List.getD_eq_getElem?_getD,
      List.getElem?_eq_getElem (show off + i < l.length by omega)]

theorem readBytes_mid (A T D : List Nat) (k m : Nat) (hA : A.length = k) (hT : T.length = m) :
    readBytes (A ++ (T ++ D)) k m = T := by
  subst hA; subst hT
  rw [readBytes_eq _ _ _ (by simp), List.drop_left, List.take_left]

theorem replicate_split (n : Nat) :
    List.replicate (12 + 20 + n) 0
      = [0, 0, 0, 0, 0, 0, 0, 0, 0, 0, 0, 0] ++ (List.replicate 20 0 ++ List.replicate n 0) := by
  rw [List.replicate_add, List.replicate_add, List.append_assoc]
  rfl

/-- The 12 bytes `writeSYN` and `writeACK` put in front of the TCP header in `csum`. -/
theorem csum_stage (len : Nat) (cur : connection) (c : Nat) (T D : List Nat) (tcplen : Nat)
    (hT : T.length = 20) :
    (if D.length ≠ 0 then
        memcpy (memcpy (put16 (put8 (put8 (put32 (put32 (List.replicate (12 + 20 + D.length) 0)
          0 (get32 (ip_header_bytes len cur c ++ (T ++ D)) 12))
          4 (get32 (ip_header_bytes len cur c ++ (T ++ D)) 16)) 8 0)
          9 (get8 (ip_header_bytes len cur c ++ (T ++ D)) 9)) 10 (htons tcplen)) 12
          (readBytes (ip_header_bytes len cur c ++ (T ++ D)) 20 20) 20) (12 + 20) D D.length
      else
        memcpy (put16 (put8 (put8 (put32 (put32 (List.replicate (12 + 20 + D.length) 0)
          0 (get32 (ip_header_bytes len cur c ++ (T ++ D)) 12))
          4 (get32 (ip_header_bytes len cur c ++ (T ++ D)) 16)) 8 0)
          9 (get8 (ip_header_bytes len cur c ++ (T ++ D)) 9)) 10 (htons tcplen)) 12
          (readBytes (ip_header_bytes len cur c ++ (T ++ D)) 20 20) 20)
      = pseudo_bytes cur tcplen ++ (T ++ D) := by
  unfold pseudo_bytes
  have hI : (ip_header_bytes len cur c).length = 20 := rfl
  have e1 : get32 (ip_header_bytes len cur c ++ (T ++ D)) 12
      = cur.daddr % 256 + 256 * (cur.daddr / 256 % 256) +
        65536 * (cur.daddr / 65536 % 256 + 256 * (cur.daddr / 65536 / 256 % 256)) := rfl
  have e2 : get32 (ip_header_bytes len cur c ++ (T ++ D)) 16
      = cur.saddr % 256 + 256 * (cur.saddr / 256 % 256) +
        65536 * (cur.saddr / 65536 % 256 + 256 * (cur.saddr / 65536 / 256 % 256)) := rfl
  have e3 : get8 (ip_header_bytes len cur c ++ (T ++ D)) 9 = 6 := rfl
  have w1 := bytes_of_word32 cur.daddr (cur.daddr / 256) (cur.daddr / 65536)
    (cur.daddr / 65536 / 256)
  have w2 := bytes_of_word32 cur.saddr (cur.saddr / 256) (cur.saddr / 65536)
    (cur.saddr / 65536 / 256)
  have e4 : put16 (put8 (put8 (put32 (put32 (List.replicate (12 + 20 + D.length) 0)
          0 (get32 (ip_header_bytes len cur c ++ (T ++ D)) 12))
          4 (get32 (ip_header_bytes len cur c ++ (T ++ D)) 16)) 8 0)
          9 (get8 (ip_header_bytes len cur c ++ (T ++ D)) 9)) 10 (htons tcplen)
      = [cur.daddr % 256, cur.daddr / 256 % 256, cur.daddr / 65536 % 256,
          cur.daddr / 65536 / 256 % 256, cur.saddr % 256, cur.saddr / 256 % 256,
          cur.saddr / 65536 % 256, cur.saddr / 65536 / 256 % 256, 0, 6,
          htons tcplen % 256, htons tcplen / 256 % 256] ++
        (List.replicate 20 0 ++ List.replicate D.length 0) := by
    rw [e1, e2, e3, replicate_split]
    simp only [put32, put16, put8, List.cons_append,
      List.nil_append, List.set_cons_succ, List.set_cons_zero, Nat.reduceAdd,
      Nat.reduceMod, Nat.reduceDiv, Nat.zero_mod, Nat.zero_div, w1.1, w1.2.1, w1.2.2.1,
      w1.2.2.2, w2.1, w2.2.1, w2.2.2.1, w2.2.2.2]
  have hPlen : [cur.daddr % 256, cur.daddr / 256 % 256, cur.daddr / 65536 % 256,
          cur.daddr / 65536 / 256 % 256, cur.saddr % 256, cur.saddr / 256 % 256,
          cur.saddr / 65536 % 256, cur.saddr / 65536 / 256 % 256, 0, 6,
          htons tcplen % 256, htons tcplen / 256 % 256].length = 12 := rfl
  rw [e4, readBytes_mid _ T D 20 20 hI hT]
  generalize [cur.daddr % 256, cur.daddr / 256 % 256, cur.daddr / 65536 % 256,
          cur.daddr / 65536 / 256 % 256, cur.saddr % 256, cur.saddr / 256 % 256,
          cur.saddr / 65536 % 256, cur.saddr / 65536 / 256 % 256, 0, 6,
          htons tcplen % 256, htons tcplen / 256 % 256] = P at hPlen ⊢
  rw [memcpy_append P (List.replicate 20 0) T _ 12 20 hPlen (by simp) hT,
    ← List.append_assoc P T]
  have := memcpy_tail (P ++ T) D (12 + 20) (by rw [List.length_append, hPlen, hT])
  rw [this, List.append_assoc]


theorem replicate_init (n : Nat) :
    List.replicate (40 + n) 0
      = (List.replicate 20 0 ++ List.replicate 20 0) ++ List.replicate n 0 := by
  rw [← List.replicate_add, ← List.replicate_add]

/-- The bytes `writeACK` writes, spelled out. -/
theorem writeACK_packet_eq (cur : connection) (D : List Nat) (confirm fin : Nat)
    (h : D.length + 40 < 65536) :
    writeACK_packet cur (some D) confirm fin =
      ip_header_bytes (40 + D.length) cur
          (checksum (ip_header_bytes (40 + D.length) cur 0 ++ (List.replicate 20 0 ++ D)) 20) ++
        (tcp_header_bytes cur (htonl cur.local_seq)
          (htonl ((cur.remote_seq + confirm % 65536) % 4294967296)) (16 + fin % 2)
          (checksum (pseudo_bytes cur (20 + D.length) ++
            (tcp_header_bytes cur (htonl cur.local_seq)
              (htonl ((cur.remote_seq + confirm % 65536) % 4294967296)) (16 + fin % 2) 0 ++ D))
            (12 + 20 + D.length)) ++ D) := by
  unfold writeACK_packet
  have h1 : D.length % 65536 = D.length := Nat.mod_eq_of_lt (by omega)
  have h2 : (20 + 20 + D.length) % 65536 = 40 + D.length := by omega
  have h3 : (12 + 20 + D.length) % 65536 = 12 + 20 + D.length := by omega
  have h4 : (20 + D.length) % 65536 = 20 + D.length := by omega
  have h5 := memcpy_tail (List.replicate 20 0 ++ List.replicate 20 0) D (20 + 20) (by simp)
  rw [← replicate_init, List.append_assoc] at h5
  simp only [Option.getD_some, h1, h2, h3, h4, h5, ip_stage, ip_check_stage, tcp_stage_ack]
  rw [csum_stage (40 + D.length) cur _ (tcp_header_bytes cur (htonl cur.local_seq)
    (htonl ((cur.remote_seq + confirm % 65536) % 4294967296)) (16 + fin % 2) 0) D
    (20 + D.length) rfl, tcp_check_stage]
  exact List.take_of_length_le (by simp [ip_header_bytes, tcp_header_bytes]; omega)

theorem writeACK_packet_none (cur : connection) (confirm fin : Nat) :
    writeACK_packet cur none confirm fin = writeACK_packet cur (some []) confirm fin := rfl

theorem replicate_init0 : List.replicate ((20 + 20) % 65536) 0
    = List.replicate 20 0 ++ (List.replicate 20 0 ++ []) := by decide

/-- The bytes `writeSYN` writes, spelled out. -/
theorem writeSYN_packet_eq (cur : connection) :
    writeSYN_packet cur =
      ip_header_bytes 40 cur
          (checksum (ip_header_bytes 40 cur 0 ++ (List.replicate 20 0 ++ [])) 20) ++
        (tcp_header_bytes cur (htonl cur.local_seq)
          (htonl ((cur.remote_seq + 1) % 4294967296)) 18
          (checksum (pseudo_bytes cur 20 ++
            (tcp_header_bytes cur (htonl cur.local_seq)
              (htonl ((cur.remote_seq + 1) % 4294967296)) 18 0 ++ []))
            (12 + 20 + ([] : List Nat).length)) ++ []) := by
  unfold writeSYN_packet
  have h2 : (20 + 20) % 65536 = 40 := rfl
  have h3 : (12 + 20) % 65536 = 12 + 20 + ([] : List Nat).length := rfl
  have h6 := csum_stage 40 cur
    (checksum (ip_header_bytes 40 cur 0 ++ (List.replicate 20 0 ++ [])) 20)
    (tcp_header_bytes cur (htonl cur.local_seq)
          (htonl ((cur.remote_seq + 1) % 4294967296)) 18 0) [] 20 rfl
  rw [if_neg (by simp)] at h6
  simp only [replicate_init0, ip_stage, ip_check_stage, tcp_stage_syn, h3, h6]
  rw [tcp_check_stage]
  exact List.take_of_length_le (by simp [ip_header_bytes, tcp_header_bytes])

theorem foldNot_fill (s : Nat) : foldNot (s + foldNot s) = 0 :=
  (foldNot_zero_iff s (foldNot s) (by unfold foldNot; split <;> omega)).mpr (Or.inl rfl)

theorem foldNot_lt (s : Nat) : foldNot s < 65536 := by unfold foldNot; split <;> omega

theorem IsBytes.cons {a : Nat} {l : List Nat} (ha : a < 256) (hl : IsBytes l) :
    IsBytes (a :: l) := by
  intro b hb
  rcases List.mem_cons.mp hb with h | h
  · subst h; exact ha
  · exact hl b h

theorem IsBytes.nil : IsBytes [] := by intro b hb; simp at hb

theorem ip_header_sum (len : Nat) (cur : connection) (c : Nat) (hc : c < 65536) :
    leWordSum (ip_header_bytes len cur c) = leWordSum (ip_header_bytes len cur 0) + c ∧
    leWordSum (ip_header_bytes len cur c) < 2147483648 := by
  unfold ip_header_bytes
  simp only [leWordSum]
  constructor <;> omega

/-- The IPv4 header that `writeSYN` and `writeACK` build checksums to 0. -/
theorem ip_header_checksum (len : Nat) (cur : connection) (rest rest0 : List Nat) :
    checksum (ip_header_bytes len cur
      (checksum (ip_header_bytes len cur 0 ++ rest0) 20) ++ rest) 20 = 0 := by
  have t : ∀ c r, (ip_header_bytes len cur c ++ r).take 20 = ip_header_bytes len cur c :=
    fun c r => List.take_left' rfl
  have h0 := ip_header_sum len cur 0 (by norm_num)
  have e0 : checksum (ip_header_bytes len cur 0 ++ rest0) 20
      = foldNot (leWordSum (ip_header_bytes len cur 0)) := by
    rw [checksum_eq _ _ (by rw [t]; exact h0.2), t]
  rw [e0]
  have h1 := ip_header_sum len cur _ (foldNot_lt (leWordSum (ip_header_bytes len cur 0)))
  rw [checksum_eq _ _ (by rw [t]; exact h1.2), t, h1.1]
  exact foldNot_fill _

theorem word16_eq (y : Nat) (h : y < 65536) : y % 256 + 256 * (y / 256 % 256) = y := by omega
theorem word32_eq (y : Nat) (h : y < 4294967296) :
    y % 256 + 256 * (y / 256 % 256) + 65536 * (y / 65536 % 256 + 256 * (y / 65536 / 256 % 256))
      = y := by omega

theorem bytes_be16 (b0 b1 : Nat) (h0 : b0 < 256) (h1 : b1 < 256) :
    (b0 * 256 + b1) % 256 = b1 ∧ (b0 * 256 + b1) / 256 % 256 = b0 := by
  constructor <;> omega

theorem bytes_be32 (b0 b1 b2 b3 : Nat) (h0 : b0 < 256) (h1 : b1 < 256) (h2 : b2 < 256)
    (h3 : b3 < 256) :
    (b0 * 16777216 + b1 * 65536 + b2 * 256 + b3) % 256 = b3 ∧
    (b0 * 16777216 + b1 * 65536 + b2 * 256 + b3) / 256 % 256 = b2 ∧
    (b0 * 16777216 + b1 * 65536 + b2 * 256 + b3) / 65536 % 256 = b1 ∧
    (b0 * 16777216 + b1 * 65536 + b2 * 256 + b3) / 16777216 % 256 = b0 := by
  refine ⟨?_, ?_, ?_, ?_⟩ <;> omega

theorem ntohs_htons (x : Nat) (h : x < 65536) : ntohs (htons x) = x := by
  unfold ntohs htons
  obtain ⟨e1, e2⟩ := bytes_be16 (x % 256) (x / 256 % 256) (by omega) (by omega)
  rw [e1, e2]; clear e1 e2; omega

theorem htons_lt (x : Nat) : htons x < 65536 := by unfold htons; omega
theorem htonl_lt (x : Nat) : htonl x < 4294967296 := by unfold htonl; omega

theorem ntohl_htonl (x : Nat) (h : x < 4294967296) : ntohl (htonl x) = x := by
  unfold ntohl htonl
  obtain ⟨e1, e2, e3, e4⟩ := bytes_be32 (x % 256) (x / 256 % 256) (x / 65536 % 256)
    (x / 16777216 % 256) (by omega) (by omega) (by omega) (by omega)
  rw [e1, e2, e3, e4]; clear e1 e2 e3 e4; omega

/-- The fields of the IPv4 header in a packet that starts with `ip_header_bytes`. -/
theorem ip_header_fields (n : Nat) (cur : connection) (hr : cur.inRange) (rest rest0 : List Nat)
    (hn : 40 + n < 65536) (hl : rest.length = 20 + n) :
    ip_header_ok (ip_header_bytes (40 + n) cur
      (checksum (ip_header_bytes (40 + n) cur 0 ++ rest0) 20) ++ rest) cur n := by
  obtain ⟨_, _, h3, _, h5, _⟩ := hr
  have e0 : get8 (ip_header_bytes (40 + n) cur
      (checksum (ip_header_bytes (40 + n) cur 0 ++ rest0) 20) ++ rest) 0 = 69 := rfl
  refine ⟨?_, by rw [e0], by rw [e0], ?_, rfl, rfl, rfl, rfl, ?_, ?_,
    ip_header_checksum _ _ _ _⟩
  · rw [List.length_append, hl]; simp [ip_header_bytes]; omega
  · show ntohs (htons (40 + n) % 256 + 256 * (htons (40 + n) / 256 % 256)) = 40 + n
    rw [word16_eq _ (htons_lt _), ntohs_htons _ hn]
  · exact word32_eq _ h5
  · exact word32_eq _ h3

theorem tcp_sum (cur : connection) (tcplen seq ack flags c : Nat) (D : List Nat)
    (hc : c < 65536) :
    leWordSum (pseudo_bytes cur tcplen ++ (tcp_header_bytes cur seq ack flags c ++ D))
      = leWordSum (pseudo_bytes cur tcplen ++ (tcp_header_bytes cur seq ack flags 0 ++ D)) + c := by
  unfold pseudo_bytes tcp_header_bytes
  simp only [List.cons_append, List.nil_append, leWordSum]
  omega

theorem IsBytes.append {a b : List Nat} (ha : IsBytes a) (hb : IsBytes b) : IsBytes (a ++ b) := by
  intro x hx
  rcases List.mem_append.mp hx with h | h
  · exact ha x h
  · exact hb x h

theorem pseudo_bytes_isBytes (cur : connection) (tcplen : Nat) :
    IsBytes (pseudo_bytes cur tcplen) := by
  intro b hb
  unfold pseudo_bytes at hb
  simp only [List.mem_cons, List.mem_singleton, List.not_mem_nil, or_false] at hb
  omega

theorem tcp_header_bytes_isBytes (cur : connection) (seq ack flags c : Nat) (hf : flags < 256) :
    IsBytes (tcp_header_bytes cur seq ack flags c) := by
  intro b hb
  unfold tcp_header_bytes at hb
  simp only [List.mem_cons, List.mem_singleton, List.not_mem_nil, or_false] at hb
  omega

theorem tcp_bytes (cur : connection) (tcplen seq ack flags c : Nat) (D : List Nat)
    (hf : flags < 256) (hD : IsBytes D) :
    IsBytes (pseudo_bytes cur tcplen ++ (tcp_header_bytes cur seq ack flags c ++ D)) :=
  (pseudo_bytes_isBytes cur tcplen).append
    ((tcp_header_bytes_isBytes cur seq ack flags c hf).append hD)

theorem htons_bytes (x : Nat) : htons x % 256 = x / 256 % 256 ∧ htons x / 256 % 256 = x % 256 := by
  unfold htons
  exact bytes_be16 (x % 256) (x / 256 % 256) (by omega) (by omega)

theorem pseudo_header_eq (len : Nat) (cur : connection) (c tcplen : Nat) (rest : List Nat) :
    pseudo_header (ip_header_bytes len cur c ++ rest) tcplen = pseudo_bytes cur tcplen := by
  have e : readBytes (ip_header_bytes len cur c ++ rest) 12 8
      = [cur.daddr % 256, cur.daddr / 256 % 256, cur.daddr / 65536 % 256,
          cur.daddr / 65536 / 256 % 256, cur.saddr % 256, cur.saddr / 256 % 256,
          cur.saddr / 65536 % 256, cur.saddr / 65536 / 256 % 256] := rfl
  unfold pseudo_header pseudo_bytes
  rw [e, (htons_bytes tcplen).1, (htons_bytes tcplen).2]
  rfl

/-- The TCP checksum `writeSYN` and `writeACK` store makes the sum over pseudo-header, TCP
header and payload come out as 0. -/
theorem tcp_header_checksum (len : Nat) (cur : connection) (c seq ack flags : Nat)
    (D : List Nat) (hf : flags < 256) (hD : IsBytes D) (hn : D.length + 40 < 65536) :
    checksum (pseudo_header (ip_header_bytes len cur c ++
        (tcp_header_bytes cur seq ack flags
          (checksum (pseudo_bytes cur (20 + D.length) ++
            (tcp_header_bytes cur seq ack flags 0 ++ D)) (12 + 20 + D.length)) ++ D))
        (20 + D.length) ++
      (ip_header_bytes len cur c ++
        (tcp_header_bytes cur seq ack flags
          (checksum (pseudo_bytes cur (20 + D.length) ++
            (tcp_header_bytes cur seq ack flags 0 ++ D)) (12 + 20 + D.length)) ++ D)).drop 20)
      (12 + 20 + D.length) = 0 ∧
    spec_ip_checksum (pseudo_header (ip_header_bytes len cur c ++
        (tcp_header_bytes cur seq ack flags
          (checksum (pseudo_bytes cur (20 + D.length) ++
            (tcp_header_bytes cur seq ack flags 0 ++ D)) (12 + 20 + D.length)) ++ D))
        (20 + D.length) ++
      (ip_header_bytes len cur c ++
        (tcp_header_bytes cur seq ack flags
          (checksum (pseudo_bytes cur (20 + D.length) ++
            (tcp_header_bytes cur seq ack flags 0 ++ D)) (12 + 20 + D.length)) ++ D)).drop 20)
      = 0 := by
  have hlen : ∀ c2, (pseudo_bytes cur (20 + D.length) ++
      (tcp_header_bytes cur seq ack flags c2 ++ D)).length = 12 + 20 + D.length := by
    intro c2; simp [pseudo_bytes, tcp_header_bytes]; omega
  have hb := fun c2 => tcp_bytes cur (20 + D.length) seq ack flags c2 D hf hD
  have hck : ∀ c2, checksum (pseudo_bytes cur (20 + D.length) ++
      (tcp_header_bytes cur seq ack flags c2 ++ D)) (12 + 20 + D.length)
      = foldNot (leWordSum (pseudo_bytes cur (20 + D.length) ++
      (tcp_header_bytes cur seq ack flags c2 ++ D))) := by
    intro c2
    have ht : (pseudo_bytes cur (20 + D.length) ++
        (tcp_header_bytes cur seq ack flags c2 ++ D)).take (12 + 20 + D.length)
        = pseudo_bytes cur (20 + D.length) ++ (tcp_header_bytes cur seq ack flags c2 ++ D) :=
      List.take_of_length_le (le_of_eq (hlen c2))
    rw [checksum_eq _ _ (by rw [ht]; exact leWordSum_lt _ (hb c2) (by rw [hlen]; omega)), ht]
  rw [pseudo_header_eq, List.drop_left' (by rfl)]
  have h0 : checksum (pseudo_bytes cur (20 + D.length) ++
      (tcp_header_bytes cur seq ack flags
        (checksum (pseudo_bytes cur (20 + D.length) ++
          (tcp_header_bytes cur seq ack flags 0 ++ D)) (12 + 20 + D.length)) ++ D))
      (12 + 20 + D.length) = 0 := by
    rw [hck, tcp_sum _ _ _ _ _ _ _ (by rw [hck]; exact foldNot_lt _), hck]
    exact foldNot_fill _
  refine ⟨h0, ?_⟩
  have hs := (checksum_spec _ (hb (checksum (pseudo_bytes cur (20 + D.length) ++
      (tcp_header_bytes cur seq ack flags 0 ++ D)) (12 + 20 + D.length)))
    (by rw [hlen]; omega)).1
  rw [hlen, h0] at hs
  simp only [Nat.zero_mod, Nat.zero_div, List.cons.injEq, and_true] at hs
  omega

/-- The fields of the TCP header in a packet that continues with `tcp_header_bytes`. -/
theorem tcp_header_fields (len : Nat) (cur : connection) (hr : cur.inRange)
    (c seq ack flags c2 : Nat) (D : List Nat) :
    get16 (ip_header_bytes len cur c ++ (tcp_header_bytes cur seq ack flags c2 ++ D)) 20
      = cur.dest ∧
    get16 (ip_header_bytes len cur c ++ (tcp_header_bytes cur seq ack flags c2 ++ D)) 22
      = cur.source ∧
    get8 (ip_header_bytes len cur c ++ (tcp_header_bytes cur seq ack flags c2 ++ D)) 32 / 16
      = 5 ∧
    ntohs (get16 (ip_header_bytes len cur c ++ (tcp_header_bytes cur seq ack flags c2 ++ D)) 34)
      = 2048 ∧
    get16 (ip_header_bytes len cur c ++ (tcp_header_bytes cur seq ack flags c2 ++ D)) 38
      = 0 := by
  obtain ⟨_, _, _, h4, _, h6⟩ := hr
  have e32 : get8 (ip_header_bytes len cur c ++ (tcp_header_bytes cur seq ack flags c2 ++ D)) 32
      = 80 := rfl
  have e34 : get16 (ip_header_bytes len cur c ++ (tcp_header_bytes cur seq ack flags c2 ++ D)) 34
      = 8 := rfl
  refine ⟨word16_eq _ h6, word16_eq _ h4, by rw [e32], by rw [e34]; rfl, rfl⟩

/-! ## C1, C2: the headers of the emitted packets -/

/-- C1: for every connection (fields within the range of their types) and every payload
that fits a 16-bit total length (at most 65495 bytes, including none), the packet `writeSYN`
and the packet `writeACK` hand to `write` start with a 20-byte IPv4 header with version 4,
ihl 5, `tot_len` 40 + payload length, identification and fragment fields 0, ttl 64,
protocol 6, source address `daddr`, destination address `saddr`, and a check field for
which `checksum` over the 20 bytes returns 0 (`ip_header_ok`). -/
theorem emitted_ip_header (cur : connection) (hr : cur.inRange) (data : Option (List Nat))
    (confirm fin : Nat) (hl : (data.getD []).length ≤ 65495) :
    ip_header_ok (writeSYN_packet cur) cur 0 ∧
    ip_header_ok (writeACK_packet cur data confirm fin) cur (data.getD []).length := by
  constructor
  · rw [writeSYN_packet_eq]
    exact ip_header_fields 0 cur hr _ _ (by norm_num) (by simp [tcp_header_bytes])
  · have key : ∀ D : List Nat, D.length ≤ 65495 →
        ip_header_ok (writeACK_packet cur (some D) confirm fin) cur D.length := by
      intro D hD
      rw [writeACK_packet_eq cur D confirm fin (by omega)]
      exact ip_header_fields D.length cur hr _ _ (by omega) (by simp [tcp_header_bytes]; omega)
    cases data with
    | none => rw [writeACK_packet_none]; exact key [] (by simp)
    | some D => exact key D hl

/-- C2: for every connection and every payload of `n` bytes (odd or even, none included,
at most 65495), the TCP header of the packet emitted by `writeSYN` and by `writeACK` has
source port `dest`, destination port `source`, data offset 5, window 2048, urgent pointer
0, and the Internet checksum over the pseudo-header {src, dst, 0, 6, 20 + n}, the TCP
header as emitted and the payload is 0, as `checksum` computes it and in the spec's words
(`tcp_header_ok`). -/
theorem emitted_tcp_header (cur : connection) (hr : cur.inRange) (data : Option (List Nat))
    (confirm fin : Nat) (hb : IsBytes (data.getD [])) (hl : (data.getD []).length ≤ 65495) :
    tcp_header_ok (writeSYN_packet cur) cur 0 ∧
    tcp_header_ok (writeACK_packet cur data confirm fin) cur (data.getD []).length := by
  constructor
  · rw [writeSYN_packet_eq]
    obtain ⟨f1, f2, f3, f4, f5⟩ := tcp_header_fields 40 cur hr
      (checksum (ip_header_bytes 40 cur 0 ++ (List.replicate 20 0 ++ [])) 20)
      (htonl cur.local_seq) (htonl ((cur.remote_seq + 1) % 4294967296)) 18
      (checksum (pseudo_bytes cur 20 ++
            (tcp_header_bytes cur (htonl cur.local_seq)
              (htonl ((cur.remote_seq + 1) % 4294967296)) 18 0 ++ []))
            (12 + 20 + ([] : List Nat).length)) []
    obtain ⟨k1, k2⟩ := tcp_header_checksum 40 cur
      (checksum (ip_header_bytes 40 cur 0 ++ (List.replicate 20 0 ++ [])) 20)
      (htonl cur.local_seq) (htonl ((cur.remote_seq + 1) % 4294967296)) 18 []
      (by norm_num) IsBytes.nil (by simp)
    exact ⟨f1, f2, f3, f4, f5, k1, k2⟩
  · have key : ∀ D : List Nat, IsBytes D → D.length ≤ 65495 →
        tcp_header_ok (writeACK_packet cur (some D) confirm fin) cur D.length := by
      intro D hDb hD
      rw [writeACK_packet_eq cur D confirm fin (by omega)]
      obtain ⟨f1, f2, f3, f4, f5⟩ := tcp_header_fields (40 + D.length) cur hr
        (checksum (ip_header_bytes (40 + D.length) cur 0 ++ (List.replicate 20 0 ++ D)) 20)
        (htonl cur.local_seq) (htonl ((cur.remote_seq + confirm % 65536) % 4294967296))
        (16 + fin % 2)
        (checksum (pseudo_bytes cur (20 + D.length) ++
            (tcp_header_bytes cur (htonl cur.local_seq)
              (htonl ((cur.remote_seq + confirm % 65536) % 4294967296)) (16 + fin % 2) 0 ++ D))
            (12 + 20 + D.length)) D
      obtain ⟨k1, k2⟩ := tcp_header_checksum (40 + D.length) cur
        (checksum (ip_header_bytes (40 + D.length) cur 0 ++ (List.replicate 20 0 ++ D)) 20)
        (htonl cur.local_seq) (htonl ((cur.remote_seq + confirm % 65536) % 4294967296))
        (16 + fin % 2) D (by omega) hDb (by omega)
      exact ⟨f1, f2, f3, f4, f5, k1, k2⟩
    cases data with
    | none => rw [writeACK_packet_none]; exact key [] IsBytes.nil (by simp)
    | some D => exact key D hb hl


theorem emitted_ip_header_witness :
    ex_conn.inRange ∧ ((some [104, 101, 108, 108, 111] : Option (List Nat)).getD []).length ≤ 65495 ∧
    ip_header_ok (writeSYN_packet ex_conn) ex_conn 0 ∧
    ip_header_ok (writeACK_packet ex_conn (some [104, 101, 108, 108, 111]) 0 0) ex_conn
      ((some [104, 101, 108, 108, 111] : Option (List Nat)).getD []).length :=
  ⟨by decide, by decide,
    emitted_ip_header ex_conn (by decide) (some [104, 101, 108, 108, 111]) 0 0 (by decide)⟩

theorem emitted_tcp_header_witness :
    ex_conn.inRange ∧ IsBytes ((some [104, 101, 108, 108, 111] : Option (List Nat)).getD []) ∧
    ((some [104, 101, 108, 108, 111] : Option (List Nat)).getD []).length ≤ 65495 ∧
    tcp_header_ok (writeSYN_packet ex_conn) ex_conn 0 ∧
    tcp_header_ok (writeACK_packet ex_conn (some [104, 101, 108, 108, 111]) 0 0) ex_conn
      ((some [104, 101, 108, 108, 111] : Option (List Nat)).getD []).length :=
  ⟨by decide, by decide, by decide,
    emitted_tcp_header ex_conn (by decide) (some [104, 101, 108, 108, 111]) 0 0 (by decide)
      (by decide)⟩

/-! ## C8, C9, C10: the handshake -/

/-- C8: for every IPv4 TCP segment with SYN set whose (source address, source port)
matches no table entry, `handle_tcp` appends exactly one entry at the end of the table, with
`remote_seq` the segment's sequence number in host order (not incremented), `local_seq` 123,
addresses and ports copied from the segment, empty `sent` list, and state SYN_RECV when
`openSocket` succeeded, CLOSE when it failed; the only effect is the `openSocket` call, so
nothing is sent on a socket or written to the tun and a payload on the SYN is dropped.  A
40-byte segment without payload is one instance. -/
theorem handle_tcp_new_syn (env : TcpEnv) (tun : Int) (st : State) (buffer : List Nat)
    (length : Nat) (hv : get8 buffer 0 / 16 = 4)
    (hsyn : getBit (get8 buffer (tcp_offset buffer + 13)) 1 = 1)
    (hno : ∀ c ∈ st.connection,
      ¬(c.saddr = get32 buffer 12 ∧ c.source = get16 buffer (tcp_offset buffer))) :
    handle_tcp env tun st buffer length =
      { connection := st.connection ++
          [{ time := env.time
             remote_seq := ntohl (get32 buffer (tcp_offset buffer + 4))
             local_seq := 123
             saddr := get32 buffer 12
             source := get16 buffer (tcp_offset buffer)
             daddr := get32 buffer 16
             dest := get16 buffer (tcp_offset buffer + 2)
             state := if env.openSocket < 0 then TCP_CLOSE else TCP_SYN_RECV
             socket := env.openSocket
             lport :=
               if env.openSocket < 0 then env.lport_uninit
               else (env.getLocalPort % 4294967296).toNat
             sent := [] }]
        trace := st.trace ++
          [Event.openSocket (get32 buffer 16) (get16 buffer (tcp_offset buffer + 2))
            env.openSocket] } := by
  have hs := search_none _ _ st.connection hno
  unfold tcp_offset at hs hsyn
  unfold handle_tcp
  simp only [hv, ne_eq, not_true_eq_false, if_false, hs, hsyn, one_ne_zero, not_false_eq_true,
    if_true, new_syn, tcp_offset]

/-- C10: for every matched connection in SYN_SENT and every segment with ACK set and FIN
and RST clear (SYN set or clear): if the segment's `ack_seq` equals `local_seq + 1` and its
`seq` is at least `remote_seq + 1` (32-bit unsigned arithmetic, as in the source), then
`local_seq` and `remote_seq` are each increased by 1 and the state is ESTABLISHED; otherwise
state, `local_seq` and `remote_seq` are unchanged.  In both cases the entry's time is
refreshed, the other entries are untouched and the trace is unchanged: nothing is written
to the tun. -/
theorem handle_tcp_syn_sent_ack (env : TcpEnv) (tun : Int) (st : State) (buffer : List Nat)
    (length : Nat) (pre rest : List connection) (cur : connection)
    (hv : get8 buffer 0 / 16 = 4)
    (htab : st.connection = pre ++ cur :: rest)
    (hpre : ∀ c ∈ pre,
      ¬(c.saddr = get32 buffer 12 ∧ c.source = get16 buffer (tcp_offset buffer)))
    (hcur : cur.saddr = get32 buffer 12 ∧ cur.source = get16 buffer (tcp_offset buffer))
    (hstate : cur.state = TCP_SYN_SENT)
    (hack : getBit (get8 buffer (tcp_offset buffer + 13)) 4 = 1)
    (hfin : getBit (get8 buffer (tcp_offset buffer + 13)) 0 = 0)
    (hrst : getBit (get8 buffer (tcp_offset buffer + 13)) 2 = 0) :
    handle_tcp env tun st buffer length =
      { connection := pre ++
          (if ntohl (get32 buffer (tcp_offset buffer + 8)) = (cur.local_seq + 1) % 4294967296 ∧
              ntohl (get32 buffer (tcp_offset buffer + 4)) ≥ (cur.remote_seq + 1) % 4294967296
            then
              { cur with
                  time := env.time
                  local_seq := (cur.local_seq + 1) % 4294967296
                  remote_seq := (cur.remote_seq + 1) % 4294967296
                  state := TCP_ESTABLISHED }
            else { cur with time := env.time }) :: rest
        trace := st.trace } := by
  have hs := search_found _ _ cur rest pre hpre hcur
  rw [← htab] at hs
  unfold tcp_offset at hs hack hfin hrst
  unfold handle_tcp
  simp only [hv, ne_eq, not_true_eq_false, if_false, hs, handle_existing, hack, hfin, hrst,
    one_ne_zero, not_false_eq_true, if_true, tcp_offset, handle_ack, hstate]
  split <;> simp

/-- The sweep enters no socket into the exception set. -/
theorem sweep_efds (now : Int) : ∀ (l : List connection) (fds : FdSets),
    (sweep now l fds).2.2.efds = fds.efds
  | [], _ => rfl
  | c :: l, fds => by
    unfold sweep
    split
    · exact sweep_efds now l fds
    · simp only []
      rw [sweep_efds now l]
      repeat' split
      all_goals rfl

set_option maxRecDepth 100000 in
theorem handle_tcp_new_syn_witness :
    get8 ex_syn 0 / 16 = 4 ∧ getBit (get8 ex_syn (tcp_offset ex_syn + 13)) 1 = 1 ∧
    (∀ c ∈ [ex_other], ¬(c.saddr = get32 ex_syn 12 ∧ c.source = get16 ex_syn (tcp_offset ex_syn))) ∧
    handle_tcp ex_tcp_env 3 { connection := [ex_other], trace := [] } ex_syn 40
      = { connection := [ex_other, ex_conn],
          trace := [Event.openSocket 0x0200000A 0x5000 5] } :=
  ⟨by decide, by decide, by decide,
    (handle_tcp_new_syn ex_tcp_env 3 { connection := [ex_other], trace := [] } ex_syn 40
      (by decide) (by decide) (by decide)).trans (by decide)⟩

set_option maxRecDepth 100000 in
theorem handle_tcp_syn_sent_ack_witness :
    get8 ex_ack 0 / 16 = 4 ∧
    (∀ c ∈ [ex_other], ¬(c.saddr = get32 ex_ack 12 ∧ c.source = get16 ex_ack (tcp_offset ex_ack))) ∧
    (ex_conn_sent.saddr = get32 ex_ack 12 ∧ ex_conn_sent.source = get16 ex_ack (tcp_offset ex_ack)) ∧
    ex_conn_sent.state = TCP_SYN_SENT ∧
    getBit (get8 ex_ack (tcp_offset ex_ack + 13)) 4 = 1 ∧
    getBit (get8 ex_ack (tcp_offset ex_ack + 13)) 0 = 0 ∧
    getBit (get8 ex_ack (tcp_offset ex_ack + 13)) 2 = 0 ∧
    handle_tcp ex_tcp_env 3 { connection := [ex_other, ex_conn_sent], trace := [] } ex_ack 40
      = { connection := [ex_other, ex_conn_est], trace := [] } :=
  ⟨by decide, by decide, by decide, by decide, by decide, by decide, by decide,
    (handle_tcp_syn_sent_ack ex_tcp_env 3 { connection := [ex_other, ex_conn_sent], trace := [] }
      ex_ack 40 [ex_other] [] ex_conn_sent (by decide) rfl (by decide) (by decide) (by decide)
      (by decide) (by decide) (by decide)).trans (by decide)⟩

/-- What `handle_tcp` does with a segment whose connection is in the table. -/
theorem handle_tcp_matched (env : TcpEnv) (tun : Int) (st : State) (buffer : List Nat)
    (length : Nat) (pre rest : List connection) (cur : connection)
    (hv : get8 buffer 0 / 16 = 4)
    (htab : st.connection = pre ++ cur :: rest)
    (hpre : ∀ c ∈ pre,
      ¬(c.saddr = get32 buffer 12 ∧ c.source = get16 buffer (tcp_offset buffer)))
    (hcur : cur.saddr = get32 buffer 12 ∧ cur.source = get16 buffer (tcp_offset buffer)) :
    handle_tcp env tun st buffer length =
      { connection := pre ++
          (handle_existing env tun buffer (tcp_offset buffer) (tcp_data buffer length) cur).1
            :: rest
        trace := st.trace ++
          (handle_existing env tun buffer (tcp_offset buffer) (tcp_data buffer length) cur).2 } := by
  have hs := search_found _ _ cur rest pre hpre hcur
  rw [← htab] at hs
  unfold tcp_offset at hs
  unfold handle_tcp
  simp only [hv, ne_eq, not_true_eq_false, if_false, hs]
  rfl

theorem readBytes_length (buf : List Nat) (off n : Nat) : (readBytes buf off n).length = n := by
  simp [readBytes]

theorem tcp_payload_length (buffer : List Nat) (length : Nat) :
    (tcp_payload buffer length).length = tcp_datalen buffer length := readBytes_length _ _ _

/-- The fields of the segment `writeACK` writes. -/
theorem writeACK_packet_fields (cur : connection) (hr : cur.inRange) (data : Option (List Nat))
    (confirm fin : Nat) (h : (data.getD []).length ≤ 65495) :
    (writeACK_packet cur data confirm fin).length = 40 + (data.getD []).length ∧
    get8 (writeACK_packet cur data confirm fin) 33 = 16 + fin % 2 ∧
    ntohl (get32 (writeACK_packet cur data confirm fin) 24) = cur.local_seq ∧
    ntohl (get32 (writeACK_packet cur data confirm fin) 28)
      = (cur.remote_seq + confirm % 65536) % 4294967296 ∧
    (writeACK_packet cur data confirm fin).drop 40 = data.getD [] := by
  have key : ∀ D : List Nat, D.length ≤ 65495 →
      (writeACK_packet cur (some D) confirm fin).length = 40 + D.length ∧
      get8 (writeACK_packet cur (some D) confirm fin) 33 = 16 + fin % 2 ∧
      ntohl (get32 (writeACK_packet cur (some D) confirm fin) 24) = cur.local_seq ∧
      ntohl (get32 (writeACK_packet cur (some D) confirm fin) 28)
        = (cur.remote_seq + confirm % 65536) % 4294967296 ∧
      (writeACK_packet cur (some D) confirm fin).drop 40 = D := by
    intro D hD
    rw [writeACK_packet_eq cur D confirm fin (by omega)]
    refine ⟨?_, rfl, ?_, ?_, ?_⟩
    · simp [ip_header_bytes, tcp_header_bytes]; omega
    · show ntohl (htonl cur.local_seq % 256 + 256 * (htonl cur.local_seq / 256 % 256) +
        65536 * (htonl cur.local_seq / 65536 % 256 +
          256 * (htonl cur.local_seq / 65536 / 256 % 256))) = cur.local_seq
      rw [word32_eq _ (htonl_lt _), ntohl_htonl _ hr.2.1]
    · show ntohl (htonl ((cur.remote_seq + confirm % 65536) % 4294967296) % 256 +
        256 * (htonl ((cur.remote_seq + confirm % 65536) % 4294967296) / 256 % 256) +
        65536 * (htonl ((cur.remote_seq + confirm % 65536) % 4294967296) / 65536 % 256 +
          256 * (htonl ((cur.remote_seq + confirm % 65536) % 4294967296) / 65536 / 256 % 256)))
          = (cur.remote_seq + confirm % 65536) % 4294967296
      rw [word32_eq _ (htonl_lt _), ntohl_htonl _ (Nat.mod_lt _ (by norm_num))]
    · rw [← List.append_assoc, List.drop_left' (by rfl)]
  cases data with
  | none => rw [writeACK_packet_none]; exact key [] (by simp)
  | some D => exact key D h

/-! ## C12, C14, C16, C18: segments for an existing connection -/

theorem close_eq (cur : connection) (h : cur.state = TCP_CLOSE) :
    { cur with state := TCP_CLOSE } = cur := by
  cases cur; simp only at h; subst h; rfl

theorem handle_ack_closed (env : TcpEnv) (tun : Int) (buffer : List Nat) (tcphdr : Nat)
    (data : Option (List Nat)) (cur : connection) (h : cur.state = TCP_CLOSE) :
    handle_ack env tun buffer tcphdr data cur = ({ cur with time := env.time }, []) := by
  have n1 : cur.state ≠ TCP_SYN_SENT := by rw [h]; decide
  have n2 : cur.state ≠ TCP_ESTABLISHED := by rw [h]; decide
  have n3 : cur.state ≠ TCP_LAST_ACK := by rw [h]; decide
  unfold handle_ack
  simp only [n1, n2, n3, if_false]

theorem handle_fin_other (env : TcpEnv) (tun : Int) (cur : connection)
    (h : cur.state ≠ TCP_ESTABLISHED) : handle_fin env tun cur = (cur, []) := by
  unfold handle_fin
  rw [if_neg h]

/-- C12: for every matched connection in ESTABLISHED and every segment with ACK set and FIN
and RST clear whose sequence number satisfies `seq + 1 == remote_seq` (32-bit unsigned, as in
the source) or `seq < remote_seq`, `handle_tcp` sends nothing and writes nothing (the trace
is unchanged) and leaves `remote_seq`, `local_seq` and the state unchanged, whatever the
payload; only the entry's time is refreshed. -/
theorem handle_tcp_old_ack (env : TcpEnv) (tun : Int) (st : State) (buffer : List Nat)
    (length : Nat) (pre rest : List connection) (cur : connection)
    (hv : get8 buffer 0 / 16 = 4)
    (htab : st.connection = pre ++ cur :: rest)
    (hpre : ∀ c ∈ pre,
      ¬(c.saddr = get32 buffer 12 ∧ c.source = get16 buffer (tcp_offset buffer)))
    (hcur : cur.saddr = get32 buffer 12 ∧ cur.source = get16 buffer (tcp_offset buffer))
    (hstate : cur.state = TCP_ESTABLISHED)
    (hack : getBit (tcp_flags buffer) 4 = 1)
    (hfin : getBit (tcp_flags buffer) 0 = 0)
    (hrst : getBit (tcp_flags buffer) 2 = 0)
    (hold : (tcp_seq buffer + 1) % 4294967296 = cur.remote_seq ∨
      tcp_seq buffer < cur.remote_seq) :
    handle_tcp env tun st buffer length =
      { connection := pre ++ { cur with time := env.time } :: rest
        trace := st.trace } := by
  rw [handle_tcp_matched env tun st buffer length pre rest cur hv htab hpre hcur]
  unfold tcp_flags at hack hfin hrst
  unfold tcp_seq at hold
  simp only [handle_existing, hack, hfin, hrst, one_ne_zero, ne_eq, not_false_eq_true, if_true,
    not_true_eq_false, if_false, handle_ack, hstate, List.append_nil]
  rcases hold with h | h
  · simp [h]
  · by_cases h2 : (ntohl (get32 buffer (tcp_offset buffer + 4)) + 1) % 4294967296
        = cur.remote_seq
    · simp [h2]
    · simp [h2, h]

/-- C14: for every matched connection and every segment with FIN set and ACK and RST clear:
in ESTABLISHED `handle_tcp` writes exactly one segment to the tun, 40 bytes long (no
payload), with flag byte 0x11 (ACK and FIN), `seq = local_seq` and `ack_seq = remote_seq + 1`,
and when the write succeeds `local_seq` and `remote_seq` are each increased by 1 (modulo
2^32) and the state is LAST_ACK; in any other state the segment changes nothing at all:
table and trace are as before. -/
theorem handle_tcp_fin (env : TcpEnv) (tun : Int) (st : State) (buffer : List Nat)
    (length : Nat) (pre rest : List connection) (cur : connection)
    (hv : get8 buffer 0 / 16 = 4)
    (htab : st.connection = pre ++ cur :: rest)
    (hpre : ∀ c ∈ pre,
      ¬(c.saddr = get32 buffer 12 ∧ c.source = get16 buffer (tcp_offset buffer)))
    (hcur : cur.saddr = get32 buffer 12 ∧ cur.source = get16 buffer (tcp_offset buffer))
    (hr : cur.inRange)
    (hack : getBit (tcp_flags buffer) 4 = 0)
    (hfin : getBit (tcp_flags buffer) 0 = 1)
    (hrst : getBit (tcp_flags buffer) 2 = 0) :
    (cur.state = TCP_ESTABLISHED →
      handle_tcp env tun st buffer length =
        { connection := pre ++
            (if 0 ≤ env.write_fin then
              { cur with
                  local_seq := (cur.local_seq + 1) % 4294967296
                  remote_seq := (cur.remote_seq + 1) % 4294967296
                  state := TCP_LAST_ACK }
            else cur) :: rest
          trace := st.trace ++ [Event.write tun (writeACK_packet cur none 1 1) env.write_fin] }) ∧
      (cur.state ≠ TCP_ESTABLISHED → handle_tcp env tun st buffer length = st) ∧
      (writeACK_packet cur none 1 1).length = 40 ∧
      get8 (writeACK_packet cur none 1 1) 33 = 17 ∧
      ntohl (get32 (writeACK_packet cur none 1 1) 24) = cur.local_seq ∧
      ntohl (get32 (writeACK_packet cur none 1 1) 28) = (cur.remote_seq + 1) % 4294967296 := by
  obtain ⟨f1, f2, f3, f4, _⟩ := writeACK_packet_fields cur hr none 1 1 (by simp)
  refine ⟨?_, ?_, f1, f2, f3, f4⟩
  · intro hstate
    rw [handle_tcp_matched env tun st buffer length pre rest cur hv htab hpre hcur]
    unfold tcp_flags at hack hfin hrst
    simp only [handle_existing, hack, hfin, hrst, one_ne_zero, ne_eq, not_false_eq_true, if_true,
      not_true_eq_false, if_false, handle_fin, hstate, List.nil_append, writeACK, ge_iff_le]
    split <;> rfl
  · intro hstate
    rw [handle_tcp_matched env tun st buffer length pre rest cur hv htab hpre hcur]
    unfold tcp_flags at hack hfin hrst
    simp only [handle_existing, hack, hfin, hrst, one_ne_zero, ne_eq, not_false_eq_true, if_true,
      not_true_eq_false, if_false, handle_fin, hstate, List.append_nil, ← htab]

/-- C16: for every matched connection, in any state, and every segment with RST set,
whatever its other flags, the state of that connection after `handle_tcp` is CLOSE; the
entry keeps its place and its key. -/
theorem handle_tcp_rst (env : TcpEnv) (tun : Int) (st : State) (buffer : List Nat)
    (length : Nat) (pre rest : List connection) (cur : connection)
    (hv : get8 buffer 0 / 16 = 4)
    (htab : st.connection = pre ++ cur :: rest)
    (hpre : ∀ c ∈ pre,
      ¬(c.saddr = get32 buffer 12 ∧ c.source = get16 buffer (tcp_offset buffer)))
    (hcur : cur.saddr = get32 buffer 12 ∧ cur.source = get16 buffer (tcp_offset buffer))
    (hrst : getBit (tcp_flags buffer) 2 = 1) :
    ∃ c, (handle_tcp env tun st buffer length).connection = pre ++ c :: rest ∧
      c.state = TCP_CLOSE ∧ c.saddr = cur.saddr ∧ c.source = cur.source := by
  rw [handle_tcp_matched env tun st buffer length pre rest cur hv htab hpre hcur]
  have hk := handle_existing_key env tun buffer (tcp_offset buffer) (tcp_data buffer length) cur
  refine ⟨_, rfl, ?_, hk.1, hk.2⟩
  unfold tcp_flags at hrst
  simp only [handle_existing, hrst, one_ne_zero, ne_eq, not_false_eq_true, if_true]

/-- C18: CLOSE is absorbing and silent: for every connection whose state is CLOSE, a segment
addressed to it leaves `handle_tcp` with the trace unchanged (nothing sent, nothing written)
and the entry unchanged but for its time, refreshed when ACK is set; and the socket check of
`handle_events` returns the entry unchanged with no effect, whatever the descriptor sets and
the platform report. -/
theorem closed_absorbing (env : TcpEnv) (tun : Int) (st : State) (buffer : List Nat)
    (length : Nat) (pre rest : List connection) (cur : connection)
    (senv : SockEnv) (rfds wfds efds : List Int)
    (hv : get8 buffer 0 / 16 = 4)
    (htab : st.connection = pre ++ cur :: rest)
    (hpre : ∀ c ∈ pre,
      ¬(c.saddr = get32 buffer 12 ∧ c.source = get16 buffer (tcp_offset buffer)))
    (hcur : cur.saddr = get32 buffer 12 ∧ cur.source = get16 buffer (tcp_offset buffer))
    (hstate : cur.state = TCP_CLOSE) :
    handle_tcp env tun st buffer length =
        { connection := pre ++
            { cur with
                time := if getBit (tcp_flags buffer) 4 ≠ 0 then env.time else cur.time } :: rest
          trace := st.trace } ∧
      check_socket senv tun rfds wfds efds cur = (cur, []) := by
  have n2 : cur.state ≠ TCP_ESTABLISHED := by rw [hstate]; decide
  constructor
  · rw [handle_tcp_matched env tun st buffer length pre rest cur hv htab hpre hcur]
    have hA := handle_ack_closed env tun buffer (tcp_offset buffer) (tcp_data buffer length) cur
      hstate
    have hF1 := handle_fin_other env tun cur n2
    have hF2 := handle_fin_other env tun { cur with time := env.time } n2
    have e1 : ∀ t : Int, ({ cur with time := t, state := TCP_CLOSE } : connection)
        = { cur with time := t } := by
      intro t; cases cur; simp only at hstate; subst hstate; rfl
    have e2 := e1 cur.time
    have e3 := e1 env.time
    unfold tcp_flags
    simp only [handle_existing, hA]
    by_cases ha : getBit (get8 buffer (tcp_offset buffer + 13)) 4 = 0 <;>
    by_cases hf : getBit (get8 buffer (tcp_offset buffer + 13)) 0 = 0 <;>
    by_cases hr : getBit (get8 buffer (tcp_offset buffer + 13)) 2 = 0 <;>
    simp only [ha, hf, hr, hF1, hF2, ne_eq, not_true_eq_false, not_false_eq_true, if_true,
      if_false, List.append_nil, e2, e3]
  · have n1 : cur.state ≠ TCP_SYN_RECV := by rw [hstate]; decide
    unfold check_socket
    simp only [n1, n2, if_false, close_eq cur hstate, ite_self]

/-! ## Witnesses for C12, C14, C16, C18 -/

set_option maxRecDepth 100000 in
theorem handle_tcp_old_ack_witness :
    get8 ex_keepalive 0 / 16 = 4 ∧
    (∀ c ∈ [ex_other],
      ¬(c.saddr = get32 ex_keepalive 12 ∧ c.source = get16 ex_keepalive (tcp_offset ex_keepalive))) ∧
    (ex_conn_est.saddr = get32 ex_keepalive 12 ∧
      ex_conn_est.source = get16 ex_keepalive (tcp_offset ex_keepalive)) ∧
    ex_conn_est.state = TCP_ESTABLISHED ∧
    getBit (tcp_flags ex_keepalive) 4 = 1 ∧ getBit (tcp_flags ex_keepalive) 0 = 0 ∧
    getBit (tcp_flags ex_keepalive) 2 = 0 ∧
    ((tcp_seq ex_keepalive + 1) % 4294967296 = ex_conn_est.remote_seq ∨
      tcp_seq ex_keepalive < ex_conn_est.remote_seq) ∧
    handle_tcp ex_tcp_env_later 3 { connection := [ex_other, ex_conn_est], trace := [] }
        ex_keepalive 40
      = { connection := [ex_other, { ex_conn_est with time := 105 }], trace := [] } :=
  ⟨by decide, by decide, by decide, by decide, by decide, by decide, by decide, by decide,
    (handle_tcp_old_ack ex_tcp_env_later 3 { connection := [ex_other, ex_conn_est], trace := [] }
      ex_keepalive 40 [ex_other] [] ex_conn_est (by decide) rfl (by decide) (by decide)
      (by decide) (by decide) (by decide) (by decide) (by decide)).trans (by decide)⟩

set_option maxRecDepth 100000 in
theorem handle_tcp_fin_witness :
    get8 ex_fin 0 / 16 = 4 ∧
    (∀ c ∈ [ex_other],
      ¬(c.saddr = get32 ex_fin 12 ∧ c.source = get16 ex_fin (tcp_offset ex_fin))) ∧
    (ex_conn_est.saddr = get32 ex_fin 12 ∧
      ex_conn_est.source = get16 ex_fin (tcp_offset ex_fin)) ∧
    ex_conn_est.inRange ∧
    getBit (tcp_flags ex_fin) 4 = 0 ∧ getBit (tcp_flags ex_fin) 0 = 1 ∧
    getBit (tcp_flags ex_fin) 2 = 0 ∧ ex_conn_est.state = TCP_ESTABLISHED ∧
    handle_tcp ex_tcp_env 3 { connection := [ex_other, ex_conn_est], trace := [] } ex_fin 40
      = { connection := [ex_other,
            { ex_conn_est with local_seq := 125, remote_seq := 1002, state := TCP_LAST_ACK }],
          trace := [Event.write 3 (writeACK_packet ex_conn_est none 1 1) 40] } :=
  ⟨by decide, by decide, by decide, by decide, by decide, by decide, by decide, by decide,
    ((handle_tcp_fin ex_tcp_env 3 { connection := [ex_other, ex_conn_est], trace := [] }
      ex_fin 40 [ex_other] [] ex_conn_est (by decide) rfl (by decide) (by decide) (by decide)
      (by decide) (by decide) (by decide)).1 (by decide)).trans (by decide)⟩

set_option maxRecDepth 100000 in
theorem handle_tcp_rst_witness :
    get8 ex_rst 0 / 16 = 4 ∧
    (∀ c ∈ [ex_other],
      ¬(c.saddr = get32 ex_rst 12 ∧ c.source = get16 ex_rst (tcp_offset ex_rst))) ∧
    (ex_conn_est.saddr = get32 ex_rst 12 ∧
      ex_conn_est.source = get16 ex_rst (tcp_offset ex_rst)) ∧
    getBit (tcp_flags ex_rst) 2 = 1 ∧
    ∃ c, (handle_tcp ex_tcp_env 3 { connection := [ex_other, ex_conn_est], trace := [] }
        ex_rst 40).connection = [ex_other] ++ c :: [] ∧
      c.state = TCP_CLOSE ∧ c.saddr = ex_conn_est.saddr ∧ c.source = ex_conn_est.source :=
  ⟨by decide, by decide, by decide, by decide,
    handle_tcp_rst ex_tcp_env 3 { connection := [ex_other, ex_conn_est], trace := [] }
      ex_rst 40 [ex_other] [] ex_conn_est (by decide) rfl (by decide) (by decide) (by decide)⟩

set_option maxRecDepth 100000 in
theorem closed_absorbing_witness :
    get8 ex_hello 0 / 16 = 4 ∧
    (∀ c ∈ [ex_other],
      ¬(c.saddr = get32 ex_hello 12 ∧ c.source = get16 ex_hello (tcp_offset ex_hello))) ∧
    (ex_conn_closed.saddr = get32 ex_hello 12 ∧
      ex_conn_closed.source = get16 ex_hello (tcp_offset ex_hello)) ∧
    ex_conn_closed.state = TCP_CLOSE ∧
    handle_tcp ex_tcp_env_later 3 { connection := [ex_other, ex_conn_closed], trace := [] }
        ex_hello 45
      = { connection := [ex_other, { ex_conn_closed with time := 105 }], trace := [] } ∧
    check_socket ex_sock_env 3 [5] [5] [] ex_conn_closed = (ex_conn_closed, []) :=
  ⟨by decide, by decide, by decide, by decide,
    (closed_absorbing ex_tcp_env_later 3 { connection := [ex_other, ex_conn_closed], trace := [] }
      ex_hello 45 [ex_other] [] ex_conn_closed ex_sock_env [5] [5] [] (by decide) rfl (by decide)
      (by decide) (by decide)).1.trans (by decide),
    (closed_absorbing ex_tcp_env_later 3 { connection := [ex_other, ex_conn_closed], trace := [] }
      ex_hello 45 [ex_other] [] ex_conn_closed ex_sock_env [5] [5] [] (by decide) rfl (by decide)
      (by decide) (by decide)).2⟩

/-! ## C13: bytes from the socket -/

set_option maxRecDepth 100000 in
/-- C15: a segment with SYN set for a matched connection is logged as "Ignoring repeated
SYN" and processed all the same: a SYN+ACK with the expected numbers takes the entry in
SYN_SENT to ESTABLISHED, with both sequence numbers advanced and the time refreshed, and a
SYN+RST takes an ESTABLISHED entry to CLOSE. -/
theorem repeated_syn_processed :
    getBit (tcp_flags ex_syn_ack) 1 = 1 ∧
    handle_tcp ex_tcp_env_later 3 { connection := [ex_conn_sent], trace := [] } ex_syn_ack 40
      = { connection := [{ ex_conn_sent with
            time := 105, local_seq := 124, remote_seq := 1001, state := TCP_ESTABLISHED }],
          trace := [] } ∧
    getBit (tcp_flags ex_syn_rst) 1 = 1 ∧
    handle_tcp ex_tcp_env_later 3 { connection := [ex_conn_est], trace := [] } ex_syn_rst 40
      = { connection := [{ ex_conn_est with state := TCP_CLOSE }], trace := [] } := by
  decide

/-! ## C17: a whole connection -/

set_option maxRecDepth 1000000 in
/-- C17: the end-to-end trace through the loop of `handle_events`, every call succeeding,
from the empty table; the initial sequence number of the engine is 123.  After SYN(seq
1000): SYN_RECV, nothing written.  Socket writable: SYN+ACK(seq 123, ack 1001) written,
SYN_SENT.  After ACK(seq 1001, ack 124): ESTABLISHED, `local_seq` 124, `remote_seq` 1001.
After ACK(seq 1001) with "hello": "hello" sent on the socket, ACK(seq 124, ack 1006)
written, `remote_seq` 1006.  Socket yields "pong": ACK(seq 124, ack 1006) carrying "pong"
written, `local_seq` 128.  After FIN(seq 1006): ACK+FIN(seq 128, ack 1007) written,
`local_seq` 129, `remote_seq` 1007, LAST_ACK.  After ACK(seq 1007, ack 129): CLOSE. -/
theorem end_to_end_trace :
    (ex_run1.isNext = true ∧ ex_run1.state.connection = [ex_conn] ∧
      tun_writes 3 ex_run1.state.trace = []) ∧
    (ex_run2.isNext = true ∧ ex_run2.state.connection = [ex_conn_sent] ∧
      (tun_writes 3 ex_run2.state.trace).map segment_summary = [(0x12, 123, 1001, [])]) ∧
    (ex_run3.isNext = true ∧ ex_run3.state.connection = [ex_conn_est] ∧
      (tun_writes 3 ex_run3.state.trace).length = 1) ∧
    (ex_run4.isNext = true ∧
      ex_run4.state.connection = [{ ex_conn_est with remote_seq := 1006 }] ∧
      socket_sends ex_run4.state.trace = [(5, [104, 101, 108, 108, 111])] ∧
      ((tun_writes 3 ex_run4.state.trace).drop 1).map segment_summary
        = [(0x10, 124, 1006, [])]) ∧
    (ex_run5.isNext = true ∧
      ex_run5.state.connection = [{ ex_conn_est with remote_seq := 1006, local_seq := 128 }] ∧
      ((tun_writes 3 ex_run5.state.trace).drop 2).map segment_summary
        = [(0x10, 124, 1006, [112, 111, 110, 103])]) ∧
    (ex_run6.isNext = true ∧
      ex_run6.state.connection
        = [{ ex_conn_est with remote_seq := 1007, local_seq := 129, state := TCP_LAST_ACK }] ∧
      ((tun_writes 3 ex_run6.state.trace).drop 3).map segment_summary
        = [(0x11, 128, 1007, [])]) ∧
    (ex_run7.isNext = true ∧
      ex_run7.state.connection
        = [{ ex_conn_est with remote_seq := 1007, local_seq := 129, state := TCP_CLOSE }] ∧
      (tun_writes 3 ex_run7.state.trace).length = 4 ∧
      socket_sends ex_run7.state.trace = [(5, [104, 101, 108, 108, 111])]) :=
  ⟨by decide, by decide, by decide, by decide, by decide, by decide, by decide⟩

/-! ## C19, C20: the sweep -/

/-- The table the sweep leaves: the entries that are not idle, in their order. -/
theorem sweep_eq_filter (now : Int) : ∀ (l : List connection) (fds : FdSets),
    (sweep now l fds).1 = l.filter (fun c => decide (now - c.time ≤ 30))
  | [], _ => rfl
  | c :: l, fds => by
    unfold sweep
    by_cases h : c.time + TIMEOUTPKT < now
    · have h2 : ¬ (now - c.time ≤ 30) := by have : TIMEOUTPKT = 30 := rfl; omega
      simp only [h, if_true, List.filter_cons, h2, decide_False, Bool.false_eq_true, if_false]
      exact sweep_eq_filter now l fds
    · have h2 : now - c.time ≤ 30 := by have : TIMEOUTPKT = 30 := rfl; omega
      simp only [h, if_false, List.filter_cons, h2, decide_True, if_true]
      rw [sweep_eq_filter now l]

/-- A second sweep at the same time finds nothing to do. -/
theorem sweep_again (now : Int) : ∀ (l : List connection) (fds : FdSets),
    sweep now (sweep now l fds).1 fds = ((sweep now l fds).1, [], (sweep now l fds).2.2)
  | [], _ => rfl
  | c :: l, fds => by
    by_cases h : c.time + TIMEOUTPKT < now
    · have e : sweep now (c :: l) fds
          = ((sweep now l fds).1, Event.shutdown c.socket :: (sweep now l fds).2.1,
              (sweep now l fds).2.2) := by
        rw [sweep]; simp only [h, if_true]
      rw [e]
      exact sweep_again now l fds
    · rw [sweep]
      simp only [h, if_false]
      rw [sweep]
      simp only [h, if_false]
      rw [sweep_again now l]

/-- C20: for every table and every `now`, the table the sweep leaves is the sub-list, in the
original order and with the entries as they were, of the entries with
`now - time ≤ 30` (idle for exactly 30 seconds: kept; for 31 seconds: removed); and a second
sweep with the same `now` returns the same table, shuts down nothing and yields the same
descriptor sets. -/
theorem sweep_retains (now : Int) (conns : List connection) (fds : FdSets) :
    (sweep now conns fds).1 = conns.filter (fun c => decide (now - c.time ≤ 30)) ∧
    sweep now (sweep now conns fds).1 fds
      = ((sweep now conns fds).1, [], (sweep now conns fds).2.2) :=
  ⟨sweep_eq_filter now conns fds, sweep_again now conns fds⟩

/-- C19, as the code has it: after the sweep an entry whose state is CLOSE is in the table
exactly when it was there before and its last activity is at most 30 seconds before
`now`; the sweep does not look at the state. -/
theorem sweep_reaps_idle_closed (now : Int) (conns : List connection) (fds : FdSets)
    (c : connection) :
    c.state = TCP_CLOSE →
      (c ∈ (sweep now conns fds).1 ↔ c ∈ conns ∧ now - c.time ≤ 30) := by
  intro _
  rw [sweep_eq_filter, List.mem_filter]
  simp

set_option maxRecDepth 100000 in
theorem sweep_reaps_idle_closed_witness :
    ex_conn_closed.state = TCP_CLOSE ∧
    (ex_conn_closed ∈
        (sweep 131 [ex_other, ex_conn_closed]
          { rfds := [3], wfds := [], efds := [3], max := 3 }).1 ↔
      ex_conn_closed ∈ [ex_other, ex_conn_closed] ∧ 131 - ex_conn_closed.time ≤ 30) :=
  ⟨by decide,
    sweep_reaps_idle_closed 131 [ex_other, ex_conn_closed]
      { rfds := [3], wfds := [], efds := [3], max := 3 } ex_conn_closed (by decide)⟩

set_option maxRecDepth 100000 in
/-- C19 fails: an entry in CLOSE whose time is `now` is still in the table after the sweep,
and after the whole iteration of the loop of `handle_events`. -/
theorem sweep_reaps_closed_counterexample :
    ex_conn_closed.state = TCP_CLOSE ∧
    ex_conn_closed ∈
      (sweep 100 [ex_conn_closed] { rfds := [3], wfds := [], efds := [3], max := 3 }).1 ∧
    (handle_events_iteration ex_sock_readable 3
      { connection := [ex_conn_closed], trace := [] }).state.connection = [ex_conn_closed] := by
  decide

/-! ## C21: the time of an entry -/

theorem handle_ack_time (env : TcpEnv) (tun : Int) (buffer : List Nat) (tcphdr : Nat)
    (data : Option (List Nat)) (cur : connection) :
    (handle_ack env tun buffer tcphdr data cur).1.time = env.time := by
  unfold handle_ack
  cases data <;> (simp only []; repeat' split) <;> rfl

theorem handle_fin_time (env : TcpEnv) (tun : Int) (cur : connection) :
    (handle_fin env tun cur).1.time = cur.time := by
  unfold handle_fin
  simp only []
  repeat' split
  all_goals rfl

theorem handle_existing_time (env : TcpEnv) (tun : Int) (buffer : List Nat) (tcphdr : Nat)
    (data : Option (List Nat)) (cur : connection) :
    (handle_existing env tun buffer tcphdr data cur).1.time
      = if getBit (get8 buffer (tcphdr + 13)) 4 ≠ 0 then env.time else cur.time := by
  unfold handle_existing
  have h1 := handle_ack_time env tun buffer tcphdr data cur
  have h2 := handle_fin_time env tun (handle_ack env tun buffer tcphdr data cur).1
  have h3 := handle_fin_time env tun cur
  simp only []
  repeat' split
  all_goals simp_all

theorem check_socket_time (env : SockEnv) (tun : Int) (rfds wfds efds : List Int)
    (cur : connection) : (check_socket env tun rfds wfds efds cur).1.time = cur.time := by
  unfold check_socket
  simp only []
  repeat' split
  all_goals rfl

/-- C21, as the code has it: for a matched connection `handle_tcp` leaves the entry in its
place with its time equal to the current time when the segment has ACK set and equal to
what it was before when ACK is clear, whatever else the segment changes; the socket check
of `handle_events` never changes the time of an entry. -/
theorem time_refreshed_on_ack (env : TcpEnv) (tun : Int) (st : State) (buffer : List Nat)
    (length : Nat) (pre rest : List connection) (cur : connection)
    (senv : SockEnv) (rfds wfds efds : List Int)
    (hv : get8 buffer 0 / 16 = 4)
    (htab : st.connection = pre ++ cur :: rest)
    (hpre : ∀ c ∈ pre,
      ¬(c.saddr = get32 buffer 12 ∧ c.source = get16 buffer (tcp_offset buffer)))
    (hcur : cur.saddr = get32 buffer 12 ∧ cur.source = get16 buffer (tcp_offset buffer)) :
    (∃ c, (handle_tcp env tun st buffer length).connection = pre ++ c :: rest ∧
      c.time = if getBit (tcp_flags buffer) 4 = 1 then env.time else cur.time) ∧
    (check_socket senv tun rfds wfds efds cur).1.time = cur.time := by
  refine ⟨?_, check_socket_time senv tun rfds wfds efds cur⟩
  rw [handle_tcp_matched env tun st buffer length pre rest cur hv htab hpre hcur]
  refine ⟨_, rfl, ?_⟩
  rw [handle_existing_time]
  unfold tcp_flags
  have hb : getBit (get8 buffer (tcp_offset buffer + 13)) 4 = 0 ∨
      getBit (get8 buffer (tcp_offset buffer + 13)) 4 = 1 := by
    unfold getBit; omega
  rcases hb with h | h <;> simp [h]

set_option maxRecDepth 100000 in
theorem time_refreshed_on_ack_witness :
    get8 ex_keepalive 0 / 16 = 4 ∧
    (∀ c ∈ [ex_other],
      ¬(c.saddr = get32 ex_keepalive 12 ∧ c.source = get16 ex_keepalive (tcp_offset ex_keepalive))) ∧
    (ex_conn_est.saddr = get32 ex_keepalive 12 ∧
      ex_conn_est.source = get16 ex_keepalive (tcp_offset ex_keepalive)) ∧
    (∃ c, (handle_tcp ex_tcp_env_later 3 { connection := [ex_other, ex_conn_est], trace := [] }
        ex_keepalive 40).connection = [ex_other] ++ c :: [] ∧
      c.time = if getBit (tcp_flags ex_keepalive) 4 = 1 then ex_tcp_env_later.time
        else ex_conn_est.time) ∧
    (check_socket ex_sock_env 3 [5] [] [] ex_conn_est).1.time = ex_conn_est.time :=
  ⟨by decide, by decide, by decide,
    time_refreshed_on_ack ex_tcp_env_later 3 { connection := [ex_other, ex_conn_est], trace := [] }
      ex_keepalive 40 [ex_other] [] ex_conn_est ex_sock_env [5] [] [] (by decide) rfl (by decide)
      (by decide)⟩

set_option maxRecDepth 100000 in
/-- C21 fails: at time 105 a segment with only FIN set takes the ESTABLISHED entry to
LAST_ACK with both sequence numbers advanced and its time still 100; and an iteration of
the loop of `handle_events` at time 105 that delivers the four bytes read from the socket
advances `local_seq` and leaves the time 100. -/
theorem time_refreshed_counterexample :
    ex_tcp_env_later.time = 105 ∧
    handle_tcp ex_tcp_env_later 3 { connection := [ex_conn_est], trace := [] } ex_fin 40
      = { connection := [{ ex_conn_est with
            time := 100, local_seq := 125, remote_seq := 1002, state := TCP_LAST_ACK }],
          trace := [Event.write 3 (writeACK_packet ex_conn_est none 1 1) 40] } ∧
    ex_sock_readable_later.now = 105 ∧
    (handle_events_iteration ex_sock_readable_later 3
        { connection := [ex_conn_est], trace := [] }).state
      = { connection := [{ ex_conn_est with time := 100, local_seq := 128 }],
          trace := [Event.write 3
            (writeACK_packet ex_conn_est (some [112, 111, 110, 103]) 0 0) 44] } :=
  ⟨by decide, by decide, by decide, by decide⟩

/-! ## Segments for no connection -/

/-- What `handle_tcp` does with a segment whose connection is not in the table. -/
theorem handle_tcp_unmatched (env : TcpEnv) (tun : Int) (st : State) (buffer : List Nat)
    (length : Nat) (hv : get8 buffer 0 / 16 = 4)
    (hno : ∀ c ∈ st.connection,
      ¬(c.saddr = get32 buffer 12 ∧ c.source = get16 buffer (tcp_offset buffer))) :
    handle_tcp env tun st buffer length =
      if getBit (tcp_flags buffer) 1 ≠ 0 then
        { connection := st.connection ++ [(new_syn env buffer (tcp_offset buffer)).1]
          trace := st.trace ++ (new_syn env buffer (tcp_offset buffer)).2 }
      else st := by
  have hs := search_none (get32 buffer 12) (get16 buffer (tcp_offset buffer)) st.connection hno
  unfold tcp_offset at hs
  unfold handle_tcp tcp_flags tcp_offset
  simp only [hv, ne_eq, not_true_eq_false, if_false, hs]

theorem handle_tcp_other_version (env : TcpEnv) (tun : Int) (st : State) (buffer : List Nat)
    (length : Nat) (hv : get8 buffer 0 / 16 ≠ 4) :
    handle_tcp env tun st buffer length = st := by
  unfold handle_tcp
  simp only [hv, ne_eq, not_false_eq_true, if_true]

/-! ## C23: the callback of `decode` -/

theorem handle_ack_log (env : TcpEnv) (tun : Int) (buffer : List Nat) (tcphdr : Nat)
    (data : Option (List Nat)) (cur : connection) :
    ∀ e ∈ (handle_ack env tun buffer tcphdr data cur).2, e.isLog = false := by
  unfold handle_ack
  cases data <;> (simp only []; repeat' split) <;> simp [writeACK, Event.isLog]

theorem handle_fin_log (env : TcpEnv) (tun : Int) (cur : connection) :
    ∀ e ∈ (handle_fin env tun cur).2, e.isLog = false := by
  unfold handle_fin
  simp only []
  repeat' split
  all_goals simp [writeACK, Event.isLog]

theorem handle_existing_log (env : TcpEnv) (tun : Int) (buffer : List Nat) (tcphdr : Nat)
    (data : Option (List Nat)) (cur : connection) :
    ∀ e ∈ (handle_existing env tun buffer tcphdr data cur).2, e.isLog = false := by
  intro e he
  unfold handle_existing at he
  simp only [List.mem_append] at he
  rcases he with he | he
  · split at he
    · exact handle_ack_log env tun buffer tcphdr data cur e he
    · simp at he
  · split at he
    · exact handle_fin_log env tun _ e he
    · simp at he

/-- The effects of `handle_tcp` come after those before it and hold no callback. -/
theorem handle_tcp_log (env : TcpEnv) (tun : Int) (st : State) (buffer : List Nat)
    (length : Nat) :
    ∃ mid, (handle_tcp env tun st buffer length).trace = st.trace ++ mid ∧
      ∀ e ∈ mid, e.isLog = false := by
  by_cases hv : get8 buffer 0 / 16 = 4
  · have happ := search_append (get32 buffer 12) (get16 buffer (tcp_offset buffer))
      st.connection
    have hfst := search_fst (get32 buffer 12) (get16 buffer (tcp_offset buffer))
      st.connection
    have hsnd := search_snd (get32 buffer 12) (get16 buffer (tcp_offset buffer))
      st.connection
    generalize search (get32 buffer 12) (get16 buffer (tcp_offset buffer)) st.connection
      = found at happ hfst hsnd
    rcases hf : found.2 with _ | ⟨cur, rest⟩
    · rw [hf, List.append_nil] at happ
      rw [handle_tcp_unmatched env tun st buffer length hv (by rw [← happ]; exact hfst)]
      split
      · exact ⟨_, rfl, by simp [new_syn, Event.isLog]⟩
      · exact ⟨[], by simp, by simp⟩
    · rw [hf] at happ
      rw [handle_tcp_matched env tun st buffer length found.1 rest cur hv happ.symm hfst
        (hsnd cur rest hf)]
      exact ⟨_, rfl, handle_existing_log env tun buffer _ _ cur⟩
  · rw [handle_tcp_other_version env tun st buffer length hv]
    exact ⟨[], by simp, by simp⟩

theorem decode_ip_fields (buffer : List Nat) (length : Nat) (ip : IpInfo)
    (h : decode_ip buffer length = some ip) :
    ip.version = get8 buffer 0 / 16 ∧ (ip.version = 4 ∨ ip.version = 6) ∧
    (ip.version = 4 → ip.protocol = get8 buffer 9 ∧ ip.saddr = readBytes buffer 12 4 ∧
      ip.daddr = readBytes buffer 16 4 ∧ ip.payload = tcp_offset buffer) ∧
    (ip.version = 6 → ip.protocol = get8 buffer 6 ∧ ip.saddr = readBytes buffer 8 16 ∧
      ip.daddr = readBytes buffer 24 16 ∧ ip.payload = 40) := by
  unfold decode_ip at h
  simp only [] at h
  split at h
  · rename_i hv
    split at h
    · simp at h
    · split at h
      · simp at h
      · simp only [Option.some.injEq] at h
        subst h
        simp [hv, tcp_offset]
  · split at h
    · rename_i hv
      simp only [Option.some.injEq] at h
      subst h
      simp [hv]
    · simp at h

theorem decode_ip_none_iff (buffer : List Nat) (length : Nat) :
    decode_ip buffer length = none ↔
      ¬(get8 buffer 0 / 16 = 6 ∨
        (get8 buffer 0 / 16 = 4 ∧ ntohs (get16 buffer 2) = length ∧ checksum buffer 20 = 0)) := by
  unfold decode_ip
  simp only []
  by_cases h4 : get8 buffer 0 / 16 = 4
  · have h6 : ¬ get8 buffer 0 / 16 = 6 := by omega
    by_cases h1 : ntohs (get16 buffer 2) = length
    · by_cases h2 : checksum buffer 20 = 0
      · simp [h4, h1, h2]
      · simp [h4, h1, h2]
    · simp [h4, h1]
  · by_cases h6 : get8 buffer 0 / 16 = 6
    · simp [h6]
    · simp [h4, h6]

set_option maxRecDepth 100000 in
/-- C23: the character R of the flag string is written under the test of FIN.  A segment
with only RST set is reported with an empty flag string, a segment with only FIN set with
the flag string FR. -/
theorem decode_flags_slip :
    getBit (tcp_flags ex_rst) 2 = 1 ∧ getBit (tcp_flags ex_rst) 0 = 0 ∧
    (decode ex_env 3 ex_empty ex_rst 40).trace
      = [Event.logPacket 4 [10, 0, 0, 1] 1234 [10, 0, 0, 2] 80 6 [] 10001 0] ∧
    getBit (tcp_flags ex_fin) 2 = 0 ∧ getBit (tcp_flags ex_fin) 0 = 1 ∧
    (decode ex_env 3 ex_empty ex_fin 40).trace
      = [Event.logPacket 4 [10, 0, 0, 1] 1234 [10, 0, 0, 2] 80 6 ['F', 'R'] 10001 0] :=
  ⟨by decide, by decide, by decide, by decide, by decide, by decide⟩

/-! ## C25, C26, C27: truncation, options, failed writes -/

set_option maxRecDepth 100000 in
/-- C25: a truncated datagram is not dropped.  The 36-byte datagram `ex_truncated` passes the
`tot_len` and checksum tests of `decode`; `handle_tcp` computes 36 - 40 as a `uint16_t`,
65532, takes that many bytes from offset 40 on as data, and registers a connection for
the SYN. -/
theorem truncated_not_dropped :
    ex_truncated.length = 36 ∧ get8 ex_truncated 0 % 16 = 5 ∧ get8 ex_truncated 9 = IPPROTO_TCP ∧
    ntohs (get16 ex_truncated 2) = 36 ∧ checksum ex_truncated 20 = 0 ∧
    tcp_datalen ex_truncated 36 = 65532 ∧
    (tcp_payload ex_truncated 36).length = 65532 ∧
    (decode ex_env 3 ex_empty ex_truncated 36).connection = [ex_conn] :=
  ⟨by decide, by decide, by decide, by decide, by decide, by decide,
    (tcp_payload_length ex_truncated 36).trans (by decide), by decide⟩

set_option maxRecDepth 100000 in
/-- C26: a datagram with IPv4 options is dropped.  The header of `ex_options` has `ihl` 6 and
a check field that is valid over its 24 bytes; `decode` computes the checksum over the
first 20 bytes only, finds it non-zero and returns; the transport header would be at
offset 24. -/
theorem options_dropped :
    get8 ex_options 0 / 16 = 4 ∧ get8 ex_options 0 % 16 = 6 ∧ ex_options.length = 44 ∧
    ntohs (get16 ex_options 2) = 44 ∧ checksum ex_options 24 = 0 ∧
    tcp_offset ex_options = 24 ∧ checksum ex_options 20 ≠ 0 ∧
    decode_ip ex_options 44 = none ∧ decode ex_env 3 ex_empty ex_options 44 = ex_empty :=
  ⟨by decide, by decide, by decide, by decide, by decide, by decide, by decide, by decide,
    by decide⟩

set_option maxRecDepth 100000 in
/-- C27: `remote_seq` advances when the write of the acknowledging segment fails.  With
`send` returning 5 and `write` returning -1, the segment `ex_hello` takes `remote_seq` of
the ESTABLISHED entry from 1001 to 1006; with `send` failing the entry is unchanged. -/
theorem failed_write_advances :
    ex_tcp_env_write_fails.send = 5 ∧ ex_tcp_env_write_fails.write_ack = -1 ∧
    ex_conn_est.remote_seq = 1001 ∧
    (handle_tcp ex_tcp_env_write_fails 3 { connection := [ex_conn_est], trace := [] }
        ex_hello 45).connection = [{ ex_conn_est with remote_seq := 1006 }] ∧
    (handle_tcp ex_tcp_env_send_fails 3 { connection := [ex_conn_est], trace := [] }
        ex_hello 45).connection = [ex_conn_est] :=
  ⟨by decide, by decide, by decide, by decide, by decide⟩

/-! ## C7: a reachable table with two entries -/

set_option maxRecDepth 100000 in
theorem unique_keys_reachable_witness :
    Reachable ex_three_syns.connection ∧ ex_three_syns.connection = [ex_conn, ex_conn_b] ∧
    UniqueKeys ex_three_syns.connection :=
  ⟨Reachable.tcp_step ex_tcp_env 3 _ ex_syn 40
      (Reachable.tcp_step ex_tcp_env 3 _ ex_syn_b 40
        (Reachable.tcp_step ex_tcp_env 3 ex_empty ex_syn 40 Reachable.init)),
    by decide,
    unique_keys_reachable ex_three_syns.connection
      (Reachable.tcp_step ex_tcp_env 3 _ ex_syn 40
        (Reachable.tcp_step ex_tcp_env 3 _ ex_syn_b 40
          (Reachable.tcp_step ex_tcp_env 3 ex_empty ex_syn 40 Reachable.init)))⟩

/-! ## C11: new data, and what counts as data -/

/-- What `decode` does with a buffer its first part does not reject, when the method
`logPacket` is found. -/
theorem decode_accepted (env : DecodeEnv) (tun : Int) (st : State) (buffer : List Nat)
    (length : Nat) (ip : IpInfo) (h : decode_ip buffer length = some ip)
    (hmid : env.logPacket_mid ≠ 0) :
    ∃ mid, (decode env tun st buffer length).trace = st.trace ++ mid ++
        [Event.logPacket ip.version ip.saddr (decode_ports buffer ip).1 ip.daddr
          (decode_ports buffer ip).2.1 ip.protocol (decode_ports buffer ip).2.2
          (decode_lookup env ip (decode_ports buffer ip).1).1 0] ∧
      ∀ e ∈ mid, e.isLog = false := by
  unfold decode
  rw [h]
  simp only [hmid, if_false]
  split
  · obtain ⟨mid, e1, e2⟩ := handle_tcp_log env.tcp tun st buffer length
    exact ⟨mid, by rw [e1], e2⟩
  · exact ⟨[], by simp, by simp⟩

theorem tcp_offset_ihl (buffer : List Nat) (h : 5 ≤ get8 buffer 0 % 16) :
    tcp_offset buffer = get8 buffer 0 % 16 * 4 := by
  unfold tcp_offset
  have h2 : get8 buffer 0 % 16 < 16 := Nat.mod_lt _ (by decide)
  omega

theorem decode_ports_eq (buffer : List Nat) (ip : IpInfo) :
    (ip.protocol = IPPROTO_TCP ∨ ip.protocol = IPPROTO_UDP →
      (decode_ports buffer ip).1 = ntohs (get16 buffer ip.payload) ∧
      (decode_ports buffer ip).2.1 = ntohs (get16 buffer (ip.payload + 2))) ∧
    (¬(ip.protocol = IPPROTO_TCP ∨ ip.protocol = IPPROTO_UDP) →
      (decode_ports buffer ip).1 = 65535 ∧ (decode_ports buffer ip).2.1 = 65535) := by
  unfold decode_ports
  constructor
  · intro hp
    rcases hp with hp | hp
    · simp [hp]
    · have : ip.protocol ≠ IPPROTO_TCP := by rw [hp]; decide
      simp [hp, this]
  · intro hp
    have h1 : ip.protocol ≠ IPPROTO_TCP := fun h => hp (Or.inl h)
    have h2 : ip.protocol ≠ IPPROTO_UDP := fun h => hp (Or.inr h)
    simp [h1, h2]

/-- C22: `decode` rejects a buffer exactly when its version is neither 6 nor 4 with `tot_len`
equal to the length and a header checksum of 0, and then leaves the state, effects
included, as it was.  For every other buffer, the method `logPacket` being found, the
effects added are those of `handle_tcp`, none of them a callback, followed by exactly one
`logPacket` event.  It carries the version nibble of the buffer, the address bytes and the
protocol number of the header (bytes 12 to 19 and byte 9 for version 4, bytes 8 to 39 and
byte 6 for version 6), the flag characters, the resolved uid and `allowed = 0`; its ports
are, for TCP and UDP, the two port fields in host byte order, read at the offset of the
transport header, `20 + (ihl - 5) * 4 = ihl * 4` for version 4 and 40 for version 6, and
65535 for any other protocol. -/
theorem decode_logs_once (env : DecodeEnv) (tun : Int) (st : State) (buffer : List Nat)
    (length : Nat) :
    (decode_ip buffer length = none ↔
      ¬(get8 buffer 0 / 16 = 6 ∨
        (get8 buffer 0 / 16 = 4 ∧ ntohs (get16 buffer 2) = length ∧
          checksum buffer 20 = 0))) ∧
    (decode_ip buffer length = none → decode env tun st buffer length = st) ∧
    (∀ ip, decode_ip buffer length = some ip → env.logPacket_mid ≠ 0 →
      (∃ mid, (decode env tun st buffer length).trace = st.trace ++ mid ++
          [Event.logPacket ip.version ip.saddr (decode_ports buffer ip).1 ip.daddr
            (decode_ports buffer ip).2.1 ip.protocol (decode_ports buffer ip).2.2
            (decode_lookup env ip (decode_ports buffer ip).1).1 0] ∧
        ∀ e ∈ mid, e.isLog = false) ∧
      ip.version = get8 buffer 0 / 16 ∧
      (ip.version = 4 →
        ip.protocol = get8 buffer 9 ∧ ip.saddr = readBytes buffer 12 4 ∧
        ip.daddr = readBytes buffer 16 4 ∧ ip.payload = tcp_offset buffer ∧
        (5 ≤ get8 buffer 0 % 16 → ip.payload = get8 buffer 0 % 16 * 4)) ∧
      (ip.version ≠ 4 →
        ip.version = 6 ∧ ip.protocol = get8 buffer 6 ∧ ip.saddr = readBytes buffer 8 16 ∧
        ip.daddr = readBytes buffer 24 16 ∧ ip.payload = 40) ∧
      (ip.protocol = IPPROTO_TCP ∨ ip.protocol = IPPROTO_UDP →
        (decode_ports buffer ip).1 = ntohs (get16 buffer ip.payload) ∧
        (decode_ports buffer ip).2.1 = ntohs (get16 buffer (ip.payload + 2))) ∧
      (¬(ip.protocol = IPPROTO_TCP ∨ ip.protocol = IPPROTO_UDP) →
        (decode_ports buffer ip).1 = 65535 ∧ (decode_ports buffer ip).2.1 = 65535)) := by
  refine ⟨decode_ip_none_iff buffer length, ?_, ?_⟩
  · intro h
    unfold decode
    rw [h]
  · intro ip h hmid
    obtain ⟨f1, f2, f3, f4⟩ := decode_ip_fields buffer length ip h
    refine ⟨decode_accepted env tun st buffer length ip h hmid, f1, ?_, ?_,
      (decode_ports_eq buffer ip).1, (decode_ports_eq buffer ip).2⟩
    · intro v
      obtain ⟨g1, g2, g3, g4⟩ := f3 v
      exact ⟨g1, g2, g3, g4, fun h5 => by rw [g4]; exact tcp_offset_ihl buffer h5⟩
    · intro v
      have v6 : ip.version = 6 := by
        rcases f2 with v4 | v6
        · exact absurd v4 v
        · exact v6
      exact ⟨v6, f4 v6⟩

set_option maxRecDepth 100000 in
theorem decode_logs_once_witness :
    ex_env.logPacket_mid ≠ 0 ∧ decode_ip ex_options_zero 44 = some ex_options_zero_info ∧
    get8 ex_options_zero 0 % 16 = 6 ∧ ex_options_zero_info.version = 4 ∧
    (decode ex_env 3 ex_empty ex_options_zero 44).trace
      = [Event.openSocket 0x0200000A 0x5000 5,
         Event.logPacket 4 [10, 0, 0, 1] 1234 [10, 0, 0, 2] 80 6 ['S'] 10001 0] ∧
    (∃ mid, (decode ex_env 3 ex_empty ex_options_zero 44).trace = ex_empty.trace ++ mid ++
        [Event.logPacket ex_options_zero_info.version ex_options_zero_info.saddr
          (decode_ports ex_options_zero ex_options_zero_info).1 ex_options_zero_info.daddr
          (decode_ports ex_options_zero ex_options_zero_info).2.1
          ex_options_zero_info.protocol (decode_ports ex_options_zero ex_options_zero_info).2.2
          (decode_lookup ex_env ex_options_zero_info
            (decode_ports ex_options_zero ex_options_zero_info).1).1 0] ∧
      ∀ e ∈ mid, e.isLog = false) ∧
    ex_options_zero_info.payload = get8 ex_options_zero 0 % 16 * 4 :=
  ⟨by decide, by decide, by decide, by decide, by decide,
    ((decode_logs_once ex_env 3 ex_empty ex_options_zero 44).2.2 ex_options_zero_info
      (by decide) (by decide)).1,
    (((decode_logs_once ex_env 3 ex_empty ex_options_zero 44).2.2 ex_options_zero_info
      (by decide) (by decide)).2.2.1 (by decide)).2.2.2.2 (by decide)⟩

/-- C24: the uid `decode` reports, with `getUid` a function of protocol, version, address
and port; `decode_lookup` is the "Get uid" part of `decode`, its first component the uid
that `decode` hands to `logPacket`, its second the lookups made.  For an accepted IPv4 TCP
or UDP packet with source address bytes a, b, c, d (bytes 12 to 15) and source port p (the
port field at the offset of the transport header) the uid is
`getUid(proto, 4, [a, b, c, d], p)` when that is non-negative, and then this is the only
lookup; otherwise it is `getUid(proto, 6, m, p)` with `m` ten zero bytes, FF, FF, a, b, c,
d, after the version-4 lookup.  For version 6 the single lookup is the version-6 one, with
the 16 address bytes at offset 8 and the port at offset 40.  For any other protocol no
lookup is made and the uid is -1. -/
theorem decode_uid_lookup (env : DecodeEnv) (tun : Int) (st : State) (buffer : List Nat)
    (length : Nat) (ip : IpInfo) (h : decode_ip buffer length = some ip)
    (hmid : env.logPacket_mid ≠ 0) :
    (∃ pre flags dport, (decode env tun st buffer length).trace = pre ++
      [Event.logPacket ip.version ip.saddr (decode_ports buffer ip).1 ip.daddr dport ip.protocol
        flags (decode_lookup env ip (decode_ports buffer ip).1).1 0]) ∧
    (ip.version = 4 → ip.protocol = IPPROTO_TCP ∨ ip.protocol = IPPROTO_UDP →
      ip.saddr = [get8 buffer 12, get8 buffer 13, get8 buffer 14, get8 buffer 15] ∧
      (decode_ports buffer ip).1 = ntohs (get16 buffer (tcp_offset buffer)) ∧
      decode_lookup env ip (decode_ports buffer ip).1 =
        (if 0 ≤ env.getUid ip.protocol 4 ip.saddr (decode_ports buffer ip).1 then
          (env.getUid ip.protocol 4 ip.saddr (decode_ports buffer ip).1,
            [(ip.protocol, 4, ip.saddr, (decode_ports buffer ip).1)])
        else
          (env.getUid ip.protocol 6
              [0, 0, 0, 0, 0, 0, 0, 0, 0, 0, 255, 255, get8 buffer 12, get8 buffer 13,
                get8 buffer 14, get8 buffer 15] (decode_ports buffer ip).1,
            [(ip.protocol, 4, ip.saddr, (decode_ports buffer ip).1),
             (ip.protocol, 6,
              [0, 0, 0, 0, 0, 0, 0, 0, 0, 0, 255, 255, get8 buffer 12, get8 buffer 13,
                get8 buffer 14, get8 buffer 15], (decode_ports buffer ip).1)]))) ∧
    (ip.version = 6 → ip.protocol = IPPROTO_TCP ∨ ip.protocol = IPPROTO_UDP →
      ip.saddr = readBytes buffer 8 16 ∧
      (decode_ports buffer ip).1 = ntohs (get16 buffer 40) ∧
      decode_lookup env ip (decode_ports buffer ip).1 =
        (env.getUid ip.protocol 6 ip.saddr (decode_ports buffer ip).1,
          [(ip.protocol, 6, ip.saddr, (decode_ports buffer ip).1)])) ∧
    (¬(ip.protocol = IPPROTO_TCP ∨ ip.protocol = IPPROTO_UDP) →
      decode_lookup env ip (decode_ports buffer ip).1 = (-1, [])) := by
  obtain ⟨f1, f2, f3, f4⟩ := decode_ip_fields buffer length ip h
  refine ⟨?_, ?_, ?_, ?_⟩
  · obtain ⟨mid, e, _⟩ := decode_accepted env tun st buffer length ip h hmid
    exact ⟨st.trace ++ mid, _, _, e⟩
  · intro v hp
    have hs : ip.saddr = [get8 buffer 12, get8 buffer 13, get8 buffer 14, get8 buffer 15] := by
      rw [(f3 v).2.1]; rfl
    have hport := ((decode_ports_eq buffer ip).1 hp).1
    rw [(f3 v).2.2.2] at hport
    refine ⟨hs, hport, ?_⟩
    unfold decode_lookup
    simp only [hp, if_true, v, and_true]
    by_cases hu : 0 ≤ env.getUid ip.protocol 4 ip.saddr (decode_ports buffer ip).1
    · rw [if_pos hu, if_neg (by omega)]
    · rw [if_neg hu, if_pos (by omega)]
      rw [hs]; rfl
  · intro v hp
    have hport := ((decode_ports_eq buffer ip).1 hp).1
    rw [(f4 v).2.2.2] at hport
    refine ⟨(f4 v).2.1, hport, ?_⟩
    unfold decode_lookup
    simp [hp, v]
  · intro hp
    unfold decode_lookup
    simp only [hp, if_false]

set_option maxRecDepth 100000 in
theorem decode_uid_lookup_witness :
    decode_ip ex_options_zero 44 = some ex_options_zero_info ∧
    ex_env_mapped.logPacket_mid ≠ 0 ∧ ex_options_zero_info.version = 4 ∧
    (ex_options_zero_info.protocol = IPPROTO_TCP ∨
      ex_options_zero_info.protocol = IPPROTO_UDP) ∧
    tcp_offset ex_options_zero = 24 ∧
    ex_env_mapped.getUid 6 4 [10, 0, 0, 1] 1234 = -1 ∧
    (decode_ports ex_options_zero ex_options_zero_info).1 = 1234 ∧
    decode_lookup ex_env_mapped ex_options_zero_info
        (decode_ports ex_options_zero ex_options_zero_info).1
      = (10001, [(6, 4, [10, 0, 0, 1], 1234),
          (6, 6, [0, 0, 0, 0, 0, 0, 0, 0, 0, 0, 255, 255, 10, 0, 0, 1], 1234)]) ∧
    (decode ex_env_mapped 3 ex_empty ex_options_zero 44).trace
      = [Event.openSocket 0x0200000A 0x5000 5,
         Event.logPacket 4 [10, 0, 0, 1] 1234 [10, 0, 0, 2] 80 6 ['S'] 10001 0] :=
  ⟨by decide, by decide, by decide, by decide, by decide, by decide,
    ((decode_uid_lookup ex_env_mapped 3 ex_empty ex_options_zero 44 ex_options_zero_info
      (by decide) (by decide)).2.1 (by decide) (by decide)).2.1.trans (by decide),
    ((decode_uid_lookup ex_env_mapped 3 ex_empty ex_options_zero 44 ex_options_zero_info
      (by decide) (by decide)).2.1 (by decide) (by decide)).2.2.trans (by decide),
    by decide⟩

/-! ## C28: the other entries -/

/-- Replacing one entry of a list leaves every other position as it was. -/
theorem getElem_replace (pre rest : List connection) (a b : connection) (i : Nat)
    (e : connection) (h : (pre ++ a :: rest)[i]? = some e) :
    (i = pre.length ∧ e = a ∧ (pre ++ b :: rest)[i]? = some b) ∨
      (i ≠ pre.length ∧ (pre ++ b :: rest)[i]? = some e) := by
  rcases Nat.lt_trichotomy i pre.length with hlt | heq | hgt
  · right
    rw [List.getElem?_append_left hlt] at h
    rw [List.getElem?_append_left hlt]
    exact ⟨by omega, h⟩
  · left
    subst heq
    rw [List.getElem?_append_right (Nat.le_refl _)] at h
    simp only [Nat.sub_self, List.getElem?_cons_zero, Option.some.injEq] at h
    refine ⟨rfl, h.symm, ?_⟩
    rw [List.getElem?_append_right (Nat.le_refl _)]
    simp only [Nat.sub_self, List.getElem?_cons_zero]
  · right
    rw [List.getElem?_append_right (by omega)] at h
    rw [List.getElem?_append_right (by omega)]
    obtain ⟨k, hk⟩ : ∃ k, i - pre.length = k + 1 := ⟨i - pre.length - 1, by omega⟩
    rw [hk, List.getElem?_cons_succ] at h ⊢
    exact ⟨by omega, h⟩

/-- C28: `handle_tcp` touches only the addressed flow.  For every table and segment, every
entry of the table is found after the call at the position it had, with its `saddr` and
`source`, and it is the same entry when its `(saddr, source)` differs from the segment's
source address and source port; so the existing entries keep their order, the addressed
entry stays in place, and a new entry can only come after them.  The entries with another
key are the same list before and after.  When no entry matches and SYN is clear,
`handle_tcp` returns the state it was given: the table is unchanged and no effect (send,
write) is added to the trace. -/
theorem handle_tcp_frame (env : TcpEnv) (tun : Int) (st : State) (buffer : List Nat)
    (length : Nat) :
    (∀ (i : Nat) (e : connection), st.connection[i]? = some e →
      ∃ e', (handle_tcp env tun st buffer length).connection[i]? = some e' ∧
        e'.saddr = e.saddr ∧ e'.source = e.source ∧
        (¬(e.saddr = get32 buffer 12 ∧ e.source = get16 buffer (tcp_offset buffer)) →
          e' = e)) ∧
    (handle_tcp env tun st buffer length).connection.filter
        (fun c => !decide (c.saddr = get32 buffer 12 ∧
          c.source = get16 buffer (tcp_offset buffer)))
      = st.connection.filter
        (fun c => !decide (c.saddr = get32 buffer 12 ∧
          c.source = get16 buffer (tcp_offset buffer))) ∧
    ((∀ c ∈ st.connection,
        ¬(c.saddr = get32 buffer 12 ∧ c.source = get16 buffer (tcp_offset buffer))) →
      getBit (tcp_flags buffer) 1 = 0 → handle_tcp env tun st buffer length = st) := by
  by_cases hv : get8 buffer 0 / 16 = 4
  · have happ := search_append (get32 buffer 12) (get16 buffer (tcp_offset buffer))
      st.connection
    have hfst := search_fst (get32 buffer 12) (get16 buffer (tcp_offset buffer))
      st.connection
    have hsnd := search_snd (get32 buffer 12) (get16 buffer (tcp_offset buffer))
      st.connection
    generalize search (get32 buffer 12) (get16 buffer (tcp_offset buffer)) st.connection
      = found at happ hfst hsnd
    rcases hf : found.2 with _ | ⟨cur, rest⟩
    · rw [hf, List.append_nil] at happ
      have hno : ∀ c ∈ st.connection,
          ¬(c.saddr = get32 buffer 12 ∧ c.source = get16 buffer (tcp_offset buffer)) := by
        rw [← happ]; exact hfst
      have hu := handle_tcp_unmatched env tun st buffer length hv hno
      refine ⟨?_, ?_, ?_⟩
      · intro i e he
        refine ⟨e, ?_, rfl, rfl, fun _ => rfl⟩
        rw [hu]
        split
        · have hi : i < st.connection.length := by
            rcases Nat.lt_or_ge i st.connection.length with h | h
            · exact h
            · rw [List.getElem?_eq_none h] at he; cases he
          simp only []
          rw [List.getElem?_append_left hi]
          exact he
        · exact he
      · rw [hu]
        split
        · simp [List.filter_append, new_syn]
        · rfl
      · intro _ hsyn
        rw [hu]
        simp [hsyn]
    · rw [hf] at happ
      have hc := hsnd cur rest hf
      have hm := handle_tcp_matched env tun st buffer length found.1 rest cur hv happ.symm hfst hc
      have hk := handle_existing_key env tun buffer (tcp_offset buffer)
        (tcp_data buffer length) cur
      refine ⟨?_, ?_, ?_⟩
      · intro i e he
        rw [hm]
        simp only []
        rw [← happ] at he
        rcases getElem_replace found.1 rest cur
          (handle_existing env tun buffer (tcp_offset buffer) (tcp_data buffer length) cur).1
          i e he with ⟨_, h2, h3⟩ | ⟨_, h3⟩
        · refine ⟨_, h3, ?_, ?_, ?_⟩
          · rw [h2]; exact hk.1
          · rw [h2]; exact hk.2
          · intro hn
            rw [h2] at hn
            exact absurd hc hn
        · exact ⟨e, h3, rfl, rfl, fun _ => rfl⟩
      · rw [hm, ← happ]
        simp [List.filter_append, List.filter_cons, hk.1, hk.2, hc.1, hc.2]
      · intro hno _
        exact absurd hc (hno cur (by rw [← happ]; simp))
  · rw [handle_tcp_other_version env tun st buffer length hv]
    exact ⟨fun i e he => ⟨e, he, rfl, rfl, fun _ => rfl⟩, rfl, fun _ _ => rfl⟩

set_option maxRecDepth 100000 in
theorem handle_tcp_frame_witness :
    (∀ c ∈ [ex_other],
      ¬(c.saddr = get32 ex_ack 12 ∧ c.source = get16 ex_ack (tcp_offset ex_ack))) ∧
    getBit (tcp_flags ex_ack) 1 = 0 ∧
    handle_tcp ex_tcp_env 3 { connection := [ex_other], trace := [] } ex_ack 40
      = { connection := [ex_other], trace := [] } ∧
    handle_tcp ex_tcp_env 3 { connection := [ex_conn_sent, ex_other], trace := [] } ex_ack 40
      = { connection := [ex_conn_est, ex_other], trace := [] } ∧
    [ex_conn_sent, ex_other][1]? = some ex_other ∧
    ¬(ex_other.saddr = get32 ex_ack 12 ∧ ex_other.source = get16 ex_ack (tcp_offset ex_ack)) ∧
    (∃ e', (handle_tcp ex_tcp_env 3 { connection := [ex_conn_sent, ex_other], trace := [] }
        ex_ack 40).connection[1]? = some e' ∧
      e'.saddr = ex_other.saddr ∧ e'.source = ex_other.source ∧
      (¬(ex_other.saddr = get32 ex_ack 12 ∧
          ex_other.source = get16 ex_ack (tcp_offset ex_ack)) → e' = ex_other)) :=
  ⟨by decide, by decide,
    (handle_tcp_frame ex_tcp_env 3 { connection := [ex_other], trace := [] } ex_ack 40).2.2
      (by decide) (by decide),
    by decide, by decide, by decide,
    (handle_tcp_frame ex_tcp_env 3 { connection := [ex_conn_sent, ex_other], trace := [] }
      ex_ack 40).1 1 ex_other (by decide)⟩

end NetGuard
